import Mathlib

/-!
FocalTech FT3683G touchscreen driver and MSM GENI SPI controller

A shallow embedding of the parts of

* `drivers/input/touchscreen/focaltech_3683g/focaltech_core.c`
* `drivers/input/touchscreen/focaltech_3683g/focaltech_gesture.c`
* `drivers/spi/spi-msm-geni.c`

that the specification speaks about, and theorems about them.

Conventions.

* Bytes read from a `u8 *` buffer are natural numbers reduced `% 256`.
* C `int` bit masks (`touch_points`, `key_state`, `gesture_status`) are natural numbers;
  `~m` on a 32-bit `int` is `0xFFFFFFFF ^^^ m`.
* Calls into the input core, the notification hooks and the helper functions whose order the
  specification talks about are recorded in a trace (`List Ev`), in program order.
* Results of bus transactions, completions and other collaborators that are outside the
  modelled files are explicit arguments of the functions that consume them.
* Preprocessor switches and constants that come from headers which are not part of the modelled
  files are fields of a configuration record.
-/

namespace Sm7435

/-! ## Error numbers (`include/uapi/asm-generic/errno-base.h`, `errno.h`) -/

/-- Errno `EIO`. -/
def EIO : Int := 5

/-- Errno `EACCES`. -/
def EACCES : Int := 13

/-- Errno `EINVAL`. -/
def EINVAL : Int := 22

/-- Errno `ENODATA`. -/
def ENODATA : Int := 61

/-- Errno `ETIMEDOUT`. -/
def ETIMEDOUT : Int := 110

/-! ## Input events and traces -/

/-- Key codes that the driver hands to `input_report_key`.  `dts n` is the code stored
in `pdata->keys[]` (read from the device tree). -/
inductive Key
  | BTN_TOUCH
  | BTN_TOOL_PEN
  | KEY_GESTURE_U
  | KEY_GESTURE_UP
  | KEY_GESTURE_DOWN
  | KEY_GESTURE_LEFT
  | KEY_GESTURE_RIGHT
  | KEY_GESTURE_O
  | KEY_GESTURE_E
  | KEY_GESTURE_M
  | KEY_GESTURE_L
  | KEY_GESTURE_W
  | KEY_GESTURE_S
  | KEY_GESTURE_V
  | KEY_GESTURE_C
  | KEY_GESTURE_Z
  | KEY_GESTURE_CLICK
  | dts (code : Nat)
  deriving DecidableEq, Repr

/-- Absolute axes that the driver hands to `input_report_abs`. -/
inductive Abs
  | ABS_MT_TRACKING_ID
  | ABS_MT_PRESSURE
  | ABS_MT_TOUCH_MAJOR
  | ABS_MT_TOUCH_MINOR
  | ABS_MT_POSITION_X
  | ABS_MT_POSITION_Y
  deriving DecidableEq, Repr

/-- One call into the input core. -/
inductive InputEvent
  /-- The call `input_mt_slot(dev, slot)`. -/
  | mt_slot (slot : Nat)
  /-- The call `input_mt_report_slot_state(dev, MT_TOOL_FINGER, active)`. -/
  | mt_report_slot_state (active : Bool)
  /-- The call `input_report_abs(dev, code, value)`. -/
  | report_abs (code : Abs) (value : Nat)
  /-- The call `input_report_key(dev, code, value)`. -/
  | report_key (code : Key) (value : Nat)
  /-- The call `input_mt_sync(dev)`. -/
  | mt_sync
  /-- The call `input_sync(dev)`. -/
  | sync
  deriving DecidableEq, Repr

/-- Host notification hooks of `xiaomi_touch.h`. -/
inductive Hook
  | notify_gesture_single_tap
  | notify_gesture_double_tap
  | update_fod_press_status (value : Nat)
  deriving DecidableEq, Repr

/-- Driver functions whose invocation is recorded in the trace. -/
inductive Fn
  | fts_release_all_finger
  | fts_tp_state_recovery
  | fts_wait_tp_to_valid
  | fts_ex_mode_recovery
  | fts_proximity_recovery
  | fts_fod_recovery
  | fts_gesture_recovery
  | fts_input_report_touch
  | fts_input_report_touch_pv2
  | fts_input_pen_report
  | fts_fod_report_key
  | fts_esdcheck_suspend
  | fts_esdcheck_resume
  | fts_proximity_suspend
  | fts_proximity_resume
  | fts_gesture_suspend
  | fts_gesture_resume
  | fts_power_suspend
  | fts_power_resume
  | fts_irq_disable
  | fts_irq_enable
  | fts_enter_normal_fw
  | fts_fwdbg_recovery
  /-- The call `fts_reset_proc(ts_data, force, hdelayms)`. -/
  | fts_reset_proc (force : Bool) (hdelayms : Nat)
  /-- The call `fts_write_reg(addr, value)`. -/
  | fts_write_reg (addr value : Nat)
  /-- The call `fts_read_reg(addr, &value)`. -/
  | fts_read_reg (addr : Nat)
  /-- The call `fts_msleep(msecs)`. -/
  | fts_msleep (msecs : Nat)
  /-- The kernel call `enable_irq_wake(ts_data->irq)`, with its return value. -/
  | enable_irq_wake (ret : Int)
  /-- The kernel call `disable_irq_wake(ts_data->irq)`, with its return value. -/
  | disable_irq_wake (ret : Int)
  /-- The kernel call `disable_irq_nosync(fts_data->irq)`. -/
  | disable_irq_nosync
  /-- The kernel call `enable_irq(fts_data->irq)`. -/
  | enable_irq
  deriving DecidableEq, Repr

/-- One entry of the trace of observable actions. -/
inductive Ev
  /-- An input-core call on `ts_data->input_dev`. -/
  | input (e : InputEvent)
  /-- An input-core call on `ts_data->pen_dev`. -/
  | pen (e : InputEvent)
  /-- A host notification hook. -/
  | hook (h : Hook)
  /-- Entry into a driver function. -/
  | call (f : Fn)
  deriving DecidableEq, Repr

/-! ## Chip identity records -/

/-- The C `struct ft_chip_t`. -/
structure ft_chip_t where
  type : Nat
  chip_idh : Nat
  chip_idl : Nat
  rom_idh : Nat
  rom_idl : Nat
  pb_idh : Nat
  pb_idl : Nat
  bl_idh : Nat
  bl_idl : Nat
  deriving DecidableEq, Repr

/-- The C `struct ft_chip_id_t`; `chip_ids` is the array `chip_ids[FTS_MAX_CHIP_IDS]`. -/
structure ft_chip_id_t where
  type : Nat
  chip_ids : List Nat
  deriving DecidableEq, Repr

/-- The C `struct ts_ic_info`. -/
structure ts_ic_info where
  is_incell : Bool
  hid_supported : Bool
  ids : ft_chip_t
  cid : ft_chip_id_t
  deriving DecidableEq, Repr

/-- One consultation of a chip table by `fts_get_chip_types`. -/
inductive ChipProbe
  /-- Entry `i` of `ctype_3683g[]` is compared with the id. -/
  | ctype_3683g (i : Nat)
  /-- Entry `i` of `ctype_3681[]` is compared with the id. -/
  | ctype_3681 (i : Nat)
  /-- The call `fts_match_cid(ts_data, type, id_h, id_l, force)`. -/
  | fts_match_cid (type : Nat) (force : Bool)
  deriving DecidableEq, Repr

/-! ## Configuration taken from headers outside the modelled files -/

/-- Preprocessor switches and constants of `focaltech_config.h` / `focaltech_common.h` /
`focaltech_core.h`. -/
structure FtsConfig where
  /-- Switch `FTS_MT_PROTOCOL_B_EN`. -/
  FTS_MT_PROTOCOL_B_EN : Bool
  /-- Switch `FTS_REPORT_PRESSURE_EN`. -/
  FTS_REPORT_PRESSURE_EN : Bool
  /-- Switch `FTS_TOUCH_HIRES_EN`. -/
  FTS_TOUCH_HIRES_EN : Bool
  /-- Switch `FTS_PEN_EN`. -/
  FTS_PEN_EN : Bool
  /-- Switch `FTS_PSENSOR_EN`. -/
  FTS_PSENSOR_EN : Bool
  /-- Switch `FTS_FOD_EN`. -/
  FTS_FOD_EN : Bool
  /-- Constant `FTS_KEY_DIM`. -/
  FTS_KEY_DIM : Int
  /-- Constant `FTS_MAX_ID`. -/
  FTS_MAX_ID : Nat
  /-- Constant `FTS_ONE_TCH_LEN`. -/
  FTS_ONE_TCH_LEN : Nat
  /-- Constant `FTS_ONE_TCH_LEN_V2`. -/
  FTS_ONE_TCH_LEN_V2 : Nat
  /-- Constant `FTS_TOUCH_E_NUM`. -/
  FTS_TOUCH_E_NUM : Nat
  /-- Constant `FTS_TOUCH_OFF_E_XH`. -/
  FTS_TOUCH_OFF_E_XH : Nat
  /-- Constant `FTS_TOUCH_OFF_XL`. -/
  FTS_TOUCH_OFF_XL : Nat
  /-- Constant `FTS_TOUCH_OFF_ID_YH`. -/
  FTS_TOUCH_OFF_ID_YH : Nat
  /-- Constant `FTS_TOUCH_OFF_YL`. -/
  FTS_TOUCH_OFF_YL : Nat
  /-- Constant `FTS_TOUCH_OFF_PRE`. -/
  FTS_TOUCH_OFF_PRE : Nat
  /-- Constant `FTS_TOUCH_OFF_AREA`. -/
  FTS_TOUCH_OFF_AREA : Nat
  /-- Constant `FTS_TOUCH_OFF_MINOR`. -/
  FTS_TOUCH_OFF_MINOR : Nat
  /-- Constant `FTS_TOUCH_HIRES_X`. -/
  FTS_TOUCH_HIRES_X : Nat
  /-- Constant `FTS_HI_RES_X_MAX`. -/
  FTS_HI_RES_X_MAX : Nat
  /-- Macro `EVENT_DOWN(flag)`. -/
  EVENT_DOWN : Nat → Bool
  /-- Macro `EVENT_UP(flag)`. -/
  EVENT_UP : Nat → Bool
  /-- Constant `ENABLE`. -/
  ENABLE : Nat
  /-- Constant `VALID`. -/
  VALID : Nat
  /-- Enumerator `TOUCH_DEFAULT`. -/
  TOUCH_DEFAULT : Int
  /-- Enumerator `TOUCH_PROTOCOL_v2`. -/
  TOUCH_PROTOCOL_v2 : Int
  /-- Enumerator `TOUCH_PEN`. -/
  TOUCH_PEN : Int
  /-- Enumerator `TOUCH_FW_INIT`. -/
  TOUCH_FW_INIT : Int
  /-- Enumerator `TOUCH_IGNORE`. -/
  TOUCH_IGNORE : Int
  /-- Enumerator `TOUCH_ERROR`. -/
  TOUCH_ERROR : Int
  /-- Constant `BUS_TYPE_SPI`. -/
  BUS_TYPE_SPI : Int
  /-- Constant `BUS_TYPE_I2C`. -/
  BUS_TYPE_I2C : Int
  /-- Constant `FTS_SIZE_PEN`. -/
  FTS_SIZE_PEN : Nat
  /-- Constant `FTS_TOUCH_DATA_LEN`. -/
  FTS_TOUCH_DATA_LEN : Nat
  /-- Constant `FTS_GESTURE_DATA_LEN`. -/
  FTS_GESTURE_DATA_LEN : Nat
  /-- Constant `FTS_GESTURE_POINTS_MAX`. -/
  FTS_GESTURE_POINTS_MAX : Nat
  /-- Constant `FTS_RETVAL_IGNORE_TOUCHES`. -/
  FTS_RETVAL_IGNORE_TOUCHES : Int
  /-- Constant `GESTURE_BM_TOUCH`. -/
  GESTURE_BM_TOUCH : Int
  /-- Bit number `GESTURE_DOUBLETAP`. -/
  GESTURE_DOUBLETAP : Nat
  /-- Bit number `GESTURE_SINGLETAP`. -/
  GESTURE_SINGLETAP : Nat
  /-- Bit number `GESTURE_FOD`. -/
  GESTURE_FOD : Nat
  /-- Constant `FTS_VAL_FOD_ENABLE`. -/
  FTS_VAL_FOD_ENABLE : Nat
  /-- Table `FTS_CHIP_TYPE_MAPPING_3683g`. -/
  FTS_CHIP_TYPE_MAPPING_3683g : List ft_chip_t
  /-- Table `FTS_CHIP_TYPE_MAPPING_3681`. -/
  FTS_CHIP_TYPE_MAPPING_3681 : List ft_chip_t
  /-- Table `FTS_CHIP_ID_MAPPING`; `none` when the macro is not defined. -/
  FTS_CHIP_ID_MAPPING : Option (List ft_chip_id_t)
  /-- Constant `FTS_MAX_CHIP_IDS`. -/
  FTS_MAX_CHIP_IDS : Nat
  /-- Constant `_FT3683G`. -/
  _FT3683G : Int
  /-- Constant `_FT3681`. -/
  _FT3681 : Int
  /-- Constant `DISABLE`. -/
  DISABLE : Nat
  /-- Register address `FTS_REG_GESTURE_EN`. -/
  FTS_REG_GESTURE_EN : Nat
  /-- Register address `FTS_REG_FOD_MODE_EN`. -/
  FTS_REG_FOD_MODE_EN : Nat
  /-- Register address `FTS_REG_POWER_MODE`. -/
  FTS_REG_POWER_MODE : Nat
  /-- Value `FTS_REG_POWER_MODE_SLEEP`. -/
  FTS_REG_POWER_MODE_SLEEP : Nat
  /-- Constant `FTS_MAX_RETRIES_WRITEREG`. -/
  FTS_MAX_RETRIES_WRITEREG : Nat
  /-- Constant `FTS_FOD_DISABLE`. -/
  FTS_FOD_DISABLE : Int
  /-- Constant `FTS_DELAY_RESUME_RESET`. -/
  FTS_DELAY_RESUME_RESET : Nat
  /-- Constant `FTS_MAX_RETRIES_READID`. -/
  FTS_MAX_RETRIES_READID : Nat
  /-- Register address `FTS_REG_CHIP_ID`. -/
  FTS_REG_CHIP_ID : Nat

/-! ## Driver state -/

/-- The C `struct ts_event`. -/
structure ts_event where
  x : Nat
  y : Nat
  p : Nat
  flag : Nat
  id : Nat
  area : Nat
  minor : Nat
  deriving DecidableEq, Repr

/-- The fields of `struct fts_ts_platform_data` that the modelled functions read. -/
structure fts_ts_platform_data where
  max_touch_number : Nat
  have_key : Bool
  key_number : Nat
  keys : List Nat
  key_x_coords : List Int
  key_y_coords : List Int
  super_resolution_factors : Nat
  fod_status : Int
  deriving DecidableEq, Repr

/-- The fields of `struct fts_ts_data` that the modelled functions read or write. -/
structure fts_ts_data where
  pdata : fts_ts_platform_data
  touch_points : Nat
  key_state : Nat
  touch_event_num : Nat
  suspended : Bool
  gesture_support : Bool
  gesture_bmode : Int
  gesture_status : Nat
  proximity_mode : Bool
  bus_type : Int
  touch_addr : Nat
  touch_size : Nat
  ta_size : Nat
  fod_fp_down : Bool
  fp_down_report : Bool
  fp_x : Nat
  fp_y : Nat
  ic_info : ts_ic_info
  ic_type_flag : Bool
  lcd_status : Int := 0
  fw_loading : Bool := false
  need_work_in_suspend : Bool := false
  fwdbg_support : Bool := false
  irq_disabled : Bool := false
  pocket_mode : Int := 0
  deriving DecidableEq, Repr

/-- Result of a driver function: return value, state afterwards, trace of actions. -/
structure Res where
  ret : Int
  ts_data : fts_ts_data
  out : List Ev
  deriving DecidableEq, Repr

/-- The value `1 << n`. -/
def BIT (n : Nat) : Nat := 1 <<< n

/-- The value `~m` of a 32-bit `int`. -/
def NOT32 (m : Nat) : Nat := 0xFFFFFFFF ^^^ m

/-! ## `fts_release_all_finger` -/

/-- Loop `for (finger_count = 0; finger_count < max_touches; finger_count++)` of
`fts_release_all_finger`, over the slot numbers in `slots`. -/
def fts_release_all_finger_slots : List Nat → List Ev
  | [] => []
  | finger_count :: rest =>
    Ev.input (.mt_slot finger_count) :: Ev.input (.mt_report_slot_state false)
      :: fts_release_all_finger_slots rest

/-- The C function `fts_release_all_finger`. -/
def fts_release_all_finger (cfg : FtsConfig) (ts_data : fts_ts_data) : fts_ts_data × List Ev :=
  let max_touches := ts_data.pdata.max_touch_number
  let slots : List Ev :=
    if cfg.FTS_MT_PROTOCOL_B_EN then fts_release_all_finger_slots (List.range max_touches)
    else [Ev.input .mt_sync]
  let touch : List Ev := [Ev.input (.report_key .BTN_TOUCH 0), Ev.input .sync]
  let pen : List Ev :=
    if cfg.FTS_PEN_EN then
      [Ev.pen (.report_key .BTN_TOOL_PEN 0), Ev.pen (.report_key .BTN_TOUCH 0), Ev.pen .sync]
    else []
  ({ ts_data with touch_points := 0, key_state := 0 }, slots ++ touch ++ pen)

/-! ## `fts_input_report_key` -/

/-- Hit test of `fts_input_report_key` for key `i`. -/
def key_hit (cfg : FtsConfig) (pdata : fts_ts_platform_data) (kevent : ts_event) (i : Nat) : Bool :=
  let x : Int := kevent.x
  let y : Int := kevent.y
  let x_dim := pdata.key_x_coords.getD i 0
  let y_dim := pdata.key_y_coords.getD i 0
  decide (x ≥ x_dim - cfg.FTS_KEY_DIM) && decide (x ≤ x_dim + cfg.FTS_KEY_DIM) &&
    decide (y ≥ y_dim - cfg.FTS_KEY_DIM) && decide (y ≤ y_dim + cfg.FTS_KEY_DIM)

/-- Loop `for (i = 0; i < key_number; i++)` of `fts_input_report_key`, over the key
indices in the list. -/
def fts_input_report_key_scan (cfg : FtsConfig) (ts_data : fts_ts_data) (kevent : ts_event) :
    List Nat → Res
  | [] => ⟨- EINVAL, ts_data, []⟩
  | i :: rest =>
    if key_hit cfg ts_data.pdata kevent i then
      if cfg.EVENT_DOWN kevent.flag && (ts_data.key_state &&& BIT i) == 0 then
        ⟨0, { ts_data with key_state := ts_data.key_state ||| BIT i },
          [Ev.input (.report_key (.dts (ts_data.pdata.keys.getD i 0)) 1)]⟩
      else if cfg.EVENT_UP kevent.flag && (ts_data.key_state &&& BIT i) != 0 then
        ⟨0, { ts_data with key_state := ts_data.key_state &&& NOT32 (BIT i) },
          [Ev.input (.report_key (.dts (ts_data.pdata.keys.getD i 0)) 0)]⟩
      else ⟨0, ts_data, []⟩
    else fts_input_report_key_scan cfg ts_data kevent rest

/-- The C function `fts_input_report_key`. -/
def fts_input_report_key (cfg : FtsConfig) (ts_data : fts_ts_data) (kevent : ts_event) : Res :=
  if !ts_data.pdata.have_key then ⟨- EINVAL, ts_data, []⟩
  else fts_input_report_key_scan cfg ts_data kevent (List.range ts_data.pdata.key_number)

/-! ## `fts_input_report_b` -/

/-- Local variables of `fts_input_report_b` that the event loop updates. -/
structure report_b_locals where
  touch_down_point_cur : Nat
  touch_point_pre : Nat
  touch_event_coordinate : Bool
  deriving DecidableEq, Repr

/-- Calls made by `fts_input_report_b` for one event with `EVENT_DOWN(flag)`. -/
def report_b_down (cfg : FtsConfig) (e : ts_event) : List Ev :=
  [Ev.input (.mt_slot e.id), Ev.input (.mt_report_slot_state true)] ++
  (if cfg.FTS_REPORT_PRESSURE_EN then [Ev.input (.report_abs .ABS_MT_PRESSURE e.p)] else []) ++
  [Ev.input (.report_abs .ABS_MT_TOUCH_MAJOR e.area),
   Ev.input (.report_abs .ABS_MT_TOUCH_MINOR e.minor),
   Ev.input (.report_abs .ABS_MT_POSITION_X e.x),
   Ev.input (.report_abs .ABS_MT_POSITION_Y e.y)]

/-- Loop `for (i = 0; i < ts_data->touch_event_num; i++)` of `fts_input_report_b`, over the
events `events[0 .. touch_event_num - 1]`. -/
def fts_input_report_b_events (cfg : FtsConfig) :
    List ts_event → fts_ts_data → report_b_locals → fts_ts_data × report_b_locals × List Ev
  | [], ts_data, l => (ts_data, l, [])
  | e :: rest, ts_data, l =>
    let k := fts_input_report_key cfg ts_data e
    if k.ret = 0 then
      let r := fts_input_report_b_events cfg rest k.ts_data l
      (r.1, r.2.1, k.out ++ r.2.2)
    else if cfg.EVENT_DOWN e.flag then
      let r := fts_input_report_b_events cfg rest k.ts_data
        { touch_down_point_cur := l.touch_down_point_cur ||| BIT e.id,
          touch_point_pre := l.touch_point_pre ||| BIT e.id,
          touch_event_coordinate := true }
      (r.1, r.2.1, k.out ++ report_b_down cfg e ++ r.2.2)
    else
      let r := fts_input_report_b_events cfg rest k.ts_data
        { touch_down_point_cur := l.touch_down_point_cur,
          touch_point_pre := l.touch_point_pre &&& NOT32 (BIT e.id),
          touch_event_coordinate := true }
      (r.1, r.2.1,
        k.out ++ [Ev.input (.mt_slot e.id), Ev.input (.mt_report_slot_state false)] ++ r.2.2)

/-- Loop `for (i = 0; i < max_touch_num; i++)` of `fts_input_report_b` that lifts the slots
set in `touch_point_pre ^ touch_down_point_cur`. -/
def fts_input_report_b_lift (diff : Nat) : List Nat → List Ev
  | [] => []
  | i :: rest =>
    if (BIT i &&& diff) != 0 then
      Ev.input (.mt_slot i) :: Ev.input (.mt_report_slot_state false)
        :: fts_input_report_b_lift diff rest
    else fts_input_report_b_lift diff rest

/-- The C function `fts_input_report_b`; `events` is the array `events[]`. -/
def fts_input_report_b (cfg : FtsConfig) (ts_data : fts_ts_data) (events : List ts_event) : Res :=
  let max_touch_num := ts_data.pdata.max_touch_number
  let r := fts_input_report_b_events cfg (events.take ts_data.touch_event_num) ts_data
    { touch_down_point_cur := 0, touch_point_pre := ts_data.touch_points,
      touch_event_coordinate := false }
  let ts1 := r.1
  let l := r.2.1
  let diff := l.touch_point_pre ^^^ l.touch_down_point_cur
  let lift : List Ev :=
    if diff != 0 then fts_input_report_b_lift diff (List.range max_touch_num) else []
  let btn : List Ev :=
    if l.touch_down_point_cur != 0 then [Ev.input (.report_key .BTN_TOUCH 1)]
    else if l.touch_event_coordinate || ts1.touch_points != 0 then
      [Ev.input (.report_key .BTN_TOUCH 0)]
    else []
  ⟨0, { ts1 with touch_points := l.touch_down_point_cur },
    r.2.2 ++ lift ++ btn ++ [Ev.input .sync]⟩


/-! ## Touch buffers -/

/-- A `u8 *` buffer: the byte stored at each index. -/
abbrev Buf := Nat → Nat

/-- The byte `buf[i]`. -/
def rd (buf : Buf) (i : Nat) : Nat := buf i % 256

/-- A buffer that holds the bytes of `l` and `0xFF` behind them (the read buffer is filled
with `0xFF` before every read). -/
def Buf.ofList (l : List Nat) : Buf := fun i => l.getD i 0xFF

/-! ## `fts_input_report_a` -/

/-- Calls made by `fts_input_report_a` for one event with `EVENT_DOWN(flag)`. -/
def report_a_down (cfg : FtsConfig) (e : ts_event) : List Ev :=
  [Ev.input (.report_abs .ABS_MT_TRACKING_ID e.id)] ++
  (if cfg.FTS_REPORT_PRESSURE_EN then [Ev.input (.report_abs .ABS_MT_PRESSURE e.p)] else []) ++
  [Ev.input (.report_abs .ABS_MT_TOUCH_MAJOR e.area),
   Ev.input (.report_abs .ABS_MT_TOUCH_MINOR e.minor),
   Ev.input (.report_abs .ABS_MT_POSITION_X e.x),
   Ev.input (.report_abs .ABS_MT_POSITION_Y e.y),
   Ev.input .mt_sync]

/-- Loop `for (i = 0; i < ts_data->touch_event_num; i++)` of `fts_input_report_a`; the
natural number is `touch_down_point_num_cur`, the boolean `touch_event_coordinate`. -/
def fts_input_report_a_events (cfg : FtsConfig) :
    List ts_event → fts_ts_data → Nat → Bool → fts_ts_data × Nat × Bool × List Ev
  | [], ts_data, n, c => (ts_data, n, c, [])
  | e :: rest, ts_data, n, c =>
    let k := fts_input_report_key cfg ts_data e
    if k.ret = 0 then
      let r := fts_input_report_a_events cfg rest k.ts_data n c
      (r.1, r.2.1, r.2.2.1, k.out ++ r.2.2.2)
    else if cfg.EVENT_DOWN e.flag then
      let r := fts_input_report_a_events cfg rest k.ts_data (n + 1) true
      (r.1, r.2.1, r.2.2.1, k.out ++ report_a_down cfg e ++ r.2.2.2)
    else
      let r := fts_input_report_a_events cfg rest k.ts_data n true
      (r.1, r.2.1, r.2.2.1, k.out ++ r.2.2.2)

/-- The C function `fts_input_report_a`; `events` is the array `events[]`. -/
def fts_input_report_a (cfg : FtsConfig) (ts_data : fts_ts_data) (events : List ts_event) : Res :=
  let r := fts_input_report_a_events cfg (events.take ts_data.touch_event_num) ts_data 0 false
  let ts1 := r.1
  let touch_down_point_num_cur := r.2.1
  let btn : List Ev :=
    if touch_down_point_num_cur != 0 then [Ev.input (.report_key .BTN_TOUCH 1)]
    else if r.2.2.1 || ts1.touch_points != 0 then
      [Ev.input (.report_key .BTN_TOUCH 0), Ev.input .mt_sync]
    else []
  ⟨0, { ts1 with touch_points := touch_down_point_num_cur },
    r.2.2.2 ++ btn ++ [Ev.input .sync]⟩

/-- The `#if FTS_MT_PROTOCOL_B_EN` choice between `fts_input_report_b` and
`fts_input_report_a` made by both frame decoders. -/
def fts_input_report (cfg : FtsConfig) (ts_data : fts_ts_data) (events : List ts_event) : Res :=
  if cfg.FTS_MT_PROTOCOL_B_EN then fts_input_report_b cfg ts_data events
  else fts_input_report_a cfg ts_data events

/-! ## `fts_input_report_touch` (protocol v1) -/

/-- Body of the loop of `fts_input_report_touch` that fills `events[i]` from point slot `i`,
once `pointid` has passed the range checks. -/
def touch_point_v1 (cfg : FtsConfig) (touch_buf : Buf) (i pointid : Nat) : ts_event :=
  let base := cfg.FTS_ONE_TCH_LEN * i + 2
  let flag := rd touch_buf (cfg.FTS_TOUCH_OFF_E_XH + base) >>> 6
  let x :=
    if cfg.FTS_TOUCH_HIRES_EN then
      ((((rd touch_buf (cfg.FTS_TOUCH_OFF_E_XH + base) &&& 0x0F) <<< 12) +
        ((rd touch_buf (cfg.FTS_TOUCH_OFF_XL + base) &&& 0xFF) <<< 4) +
        ((rd touch_buf (cfg.FTS_TOUCH_OFF_PRE + base) >>> 4) &&& 0x0F)) *
        cfg.FTS_TOUCH_HIRES_X) / cfg.FTS_HI_RES_X_MAX
    else
      ((rd touch_buf (cfg.FTS_TOUCH_OFF_E_XH + base) &&& 0x0F) <<< 8) +
        (rd touch_buf (cfg.FTS_TOUCH_OFF_XL + base) &&& 0xFF)
  let y :=
    if cfg.FTS_TOUCH_HIRES_EN then
      ((((rd touch_buf (cfg.FTS_TOUCH_OFF_ID_YH + base) &&& 0x0F) <<< 12) +
        ((rd touch_buf (cfg.FTS_TOUCH_OFF_YL + base) &&& 0xFF) <<< 4) +
        (rd touch_buf (cfg.FTS_TOUCH_OFF_PRE + base) &&& 0x0F)) *
        cfg.FTS_TOUCH_HIRES_X) / cfg.FTS_HI_RES_X_MAX
    else
      ((rd touch_buf (cfg.FTS_TOUCH_OFF_ID_YH + base) &&& 0x0F) <<< 8) +
        (rd touch_buf (cfg.FTS_TOUCH_OFF_YL + base) &&& 0xFF)
  let p :=
    if cfg.FTS_TOUCH_HIRES_EN then 0x3F
    else if rd touch_buf (cfg.FTS_TOUCH_OFF_PRE + base) ≤ 0 then 0x3F
    else rd touch_buf (cfg.FTS_TOUCH_OFF_PRE + base)
  let area :=
    if rd touch_buf (cfg.FTS_TOUCH_OFF_AREA + base) ≤ 0 then 0x09
    else rd touch_buf (cfg.FTS_TOUCH_OFF_AREA + base)
  { x := x, y := y, p := p, flag := flag, id := pointid, area := area, minor := area }

/-- Loop `for (i = 0; i < max_touch_num; i++)` of `fts_input_report_touch`, over the point
slots in the list: the events `events[0 .. event_num - 1]` it stores, or the error it
returns. -/
def fts_input_report_touch_scan (cfg : FtsConfig) (max_touch_num finger_num : Nat)
    (touch_buf : Buf) : List Nat → Except Int (List ts_event)
  | [] => .ok []
  | i :: rest =>
    let base := cfg.FTS_ONE_TCH_LEN * i + 2
    let pointid := rd touch_buf (cfg.FTS_TOUCH_OFF_ID_YH + base) >>> 4
    if pointid ≥ cfg.FTS_MAX_ID then .ok []
    else if pointid ≥ max_touch_num then .error (- EINVAL)
    else
      let e := touch_point_v1 cfg touch_buf i pointid
      if cfg.EVENT_DOWN e.flag && finger_num == 0 then .error (- EIO)
      else
        match fts_input_report_touch_scan cfg max_touch_num finger_num touch_buf rest with
        | .ok es => .ok (e :: es)
        | .error r => .error r

/-- The C function `fts_input_report_touch`. -/
def fts_input_report_touch (cfg : FtsConfig) (ts_data : fts_ts_data) (touch_buf : Buf) : Res :=
  let max_touch_num := ts_data.pdata.max_touch_number
  let finger_num := rd touch_buf cfg.FTS_TOUCH_E_NUM &&& 0x0F
  if finger_num > max_touch_num then ⟨- EIO, ts_data, []⟩
  else
    match fts_input_report_touch_scan cfg max_touch_num finger_num touch_buf
        (List.range max_touch_num) with
    | .error r => ⟨r, ts_data, []⟩
    | .ok events =>
      let event_num := events.length
      if event_num == 0 then ⟨- EIO, ts_data, []⟩
      else
        let r := fts_input_report cfg { ts_data with touch_event_num := event_num } events
        ⟨0, r.ts_data, r.out⟩

/-! ## `fts_input_report_touch_pv2` (protocol v2) -/

/-- Body of the loop of `fts_input_report_touch_pv2` that fills `events[i]` from point slot
`i`, once `pointid` has passed the range check. -/
def touch_point_v2 (cfg : FtsConfig) (super_resolution_factor : Nat) (touch_buf : Buf)
    (i pointid : Nat) : ts_event :=
  let base := cfg.FTS_ONE_TCH_LEN_V2 * i + 4
  let flag := rd touch_buf (cfg.FTS_TOUCH_OFF_E_XH + base) >>> 6
  let x0 :=
    ((rd touch_buf (cfg.FTS_TOUCH_OFF_E_XH + base) &&& 0x0F) <<< 12) +
      ((rd touch_buf (cfg.FTS_TOUCH_OFF_XL + base) &&& 0xFF) <<< 4) +
      ((rd touch_buf (cfg.FTS_TOUCH_OFF_PRE + base) >>> 4) &&& 0x0F)
  let y0 :=
    ((rd touch_buf (cfg.FTS_TOUCH_OFF_ID_YH + base) &&& 0x0F) <<< 12) +
      ((rd touch_buf (cfg.FTS_TOUCH_OFF_YL + base) &&& 0xFF) <<< 4) +
      (rd touch_buf (cfg.FTS_TOUCH_OFF_PRE + base) &&& 0x0F)
  let x :=
    if cfg.FTS_TOUCH_HIRES_EN then (x0 * cfg.FTS_TOUCH_HIRES_X) / cfg.FTS_HI_RES_X_MAX
    else x0 * super_resolution_factor / cfg.FTS_HI_RES_X_MAX
  let y :=
    if cfg.FTS_TOUCH_HIRES_EN then (y0 * cfg.FTS_TOUCH_HIRES_X) / cfg.FTS_HI_RES_X_MAX
    else y0 * super_resolution_factor / cfg.FTS_HI_RES_X_MAX
  let area :=
    if rd touch_buf (cfg.FTS_TOUCH_OFF_AREA + base) ≤ 0 then 0x09
    else rd touch_buf (cfg.FTS_TOUCH_OFF_AREA + base)
  let minor :=
    if rd touch_buf (cfg.FTS_TOUCH_OFF_MINOR + base) ≤ 0 then 0x09
    else rd touch_buf (cfg.FTS_TOUCH_OFF_MINOR + base)
  { x := x, y := y, p := 0x3F, flag := flag, id := pointid, area := area, minor := minor }

/-- Loop `for (i = 0; i < event_num; i++)` of `fts_input_report_touch_pv2`, over the point
slots in the list. -/
def fts_input_report_touch_pv2_scan (cfg : FtsConfig) (max_touch_num : Nat)
    (super_resolution_factor : Nat) (touch_buf : Buf) : List Nat → Except Int (List ts_event)
  | [] => .ok []
  | i :: rest =>
    let base := cfg.FTS_ONE_TCH_LEN_V2 * i + 4
    let pointid := rd touch_buf (cfg.FTS_TOUCH_OFF_ID_YH + base) >>> 4
    if pointid ≥ max_touch_num then .error (- EINVAL)
    else
      match fts_input_report_touch_pv2_scan cfg max_touch_num super_resolution_factor
          touch_buf rest with
      | .ok es => .ok (touch_point_v2 cfg super_resolution_factor touch_buf i pointid :: es)
      | .error r => .error r

/-- The C function `fts_input_report_touch_pv2`. -/
def fts_input_report_touch_pv2 (cfg : FtsConfig) (ts_data : fts_ts_data) (touch_buf : Buf) :
    Res :=
  let max_touch_num := ts_data.pdata.max_touch_number
  let super_resolution_factor := ts_data.pdata.super_resolution_factors
  let event_num := rd touch_buf cfg.FTS_TOUCH_E_NUM &&& 0x0F
  if event_num == 0 || event_num > max_touch_num then ⟨- EIO, ts_data, []⟩
  else
    let ts1 := { ts_data with touch_event_num := event_num }
    match fts_input_report_touch_pv2_scan cfg max_touch_num super_resolution_factor touch_buf
        (List.range event_num) with
    | .error r => ⟨r, ts1, []⟩
    | .ok events =>
      let r := fts_input_report cfg ts1 events
      ⟨0, r.ts_data, r.out⟩

/-! ## Gestures (`focaltech_gesture.c`) -/

/-- Gesture id `GESTURE_LEFT`. -/
def GESTURE_LEFT : Nat := 0x20
/-- Gesture id `GESTURE_RIGHT`. -/
def GESTURE_RIGHT : Nat := 0x21
/-- Gesture id `GESTURE_UP`. -/
def GESTURE_UP : Nat := 0x22
/-- Gesture id `GESTURE_DOWN`. -/
def GESTURE_DOWN : Nat := 0x23
/-- Gesture id `GESTURE_DOUBLECLICK`. -/
def GESTURE_DOUBLECLICK : Nat := 0x24
/-- Gesture id `GESTURE_O`. -/
def GESTURE_O : Nat := 0x30
/-- Gesture id `GESTURE_W`. -/
def GESTURE_W : Nat := 0x31
/-- Gesture id `GESTURE_M`. -/
def GESTURE_M : Nat := 0x32
/-- Gesture id `GESTURE_E`. -/
def GESTURE_E : Nat := 0x33
/-- Gesture id `GESTURE_L`. -/
def GESTURE_L : Nat := 0x44
/-- Gesture id `GESTURE_S`. -/
def GESTURE_S : Nat := 0x46
/-- Gesture id `GESTURE_V`. -/
def GESTURE_V : Nat := 0x54
/-- Gesture id `GESTURE_Z`. -/
def GESTURE_Z : Nat := 0x41
/-- Gesture id `GESTURE_C`. -/
def GESTURE_C : Nat := 0x34
/-- Gesture id `GESTURE_CLICK`. -/
def GESTURE_CLICK : Nat := 0x25
/-- Gesture id `GESTURE_FODPRESS`. -/
def GESTURE_FODPRESS : Nat := 0x26

/-- Mask `GESTURE_DOUBLETAP_EN`. -/
def GESTURE_DOUBLETAP_EN (cfg : FtsConfig) : Nat := BIT cfg.GESTURE_DOUBLETAP
/-- Mask `GESTURE_SINGLETAP_EN`. -/
def GESTURE_SINGLETAP_EN (cfg : FtsConfig) : Nat := BIT cfg.GESTURE_SINGLETAP
/-- Mask `GESTURE_FOD_EN`. -/
def GESTURE_FOD_EN (cfg : FtsConfig) : Nat := BIT cfg.GESTURE_FOD

/-- The C `struct fts_gesture_st` (the static `fts_gesture_data`). -/
structure fts_gesture_st where
  gesture_id : Nat
  point_num : Nat
  coordinate_x : List Nat
  coordinate_y : List Nat
  deriving DecidableEq, Repr

/-- The `switch (gesture_id)` of `fts_gesture_report`; `none` is `gesture = -1`. -/
def fts_gesture_report_code (gesture_id : Nat) : Option Key :=
  if gesture_id = GESTURE_LEFT then some .KEY_GESTURE_LEFT
  else if gesture_id = GESTURE_RIGHT then some .KEY_GESTURE_RIGHT
  else if gesture_id = GESTURE_UP then some .KEY_GESTURE_UP
  else if gesture_id = GESTURE_DOWN then some .KEY_GESTURE_DOWN
  else if gesture_id = GESTURE_O then some .KEY_GESTURE_O
  else if gesture_id = GESTURE_W then some .KEY_GESTURE_W
  else if gesture_id = GESTURE_M then some .KEY_GESTURE_M
  else if gesture_id = GESTURE_E then some .KEY_GESTURE_E
  else if gesture_id = GESTURE_L then some .KEY_GESTURE_L
  else if gesture_id = GESTURE_S then some .KEY_GESTURE_S
  else if gesture_id = GESTURE_V then some .KEY_GESTURE_V
  else if gesture_id = GESTURE_Z then some .KEY_GESTURE_Z
  else if gesture_id = GESTURE_C then some .KEY_GESTURE_C
  else none

/-- The C function `fts_gesture_report`. -/
def fts_gesture_report (gesture_id : Nat) : List Ev :=
  (if gesture_id = GESTURE_CLICK then [Ev.hook .notify_gesture_single_tap] else []) ++
  (if gesture_id = GESTURE_DOUBLECLICK then [Ev.hook .notify_gesture_double_tap] else []) ++
  (if gesture_id = GESTURE_FODPRESS then [Ev.hook (.update_fod_press_status 1)] else []) ++
  (match fts_gesture_report_code gesture_id with
   | some gesture =>
     [Ev.input (.report_key gesture 1), Ev.input .sync,
      Ev.input (.report_key gesture 0), Ev.input .sync]
   | none => [])

/-- Result of `fts_gesture_readdata`: return value, `fts_gesture_data` afterwards, trace. -/
structure GestureRes where
  ret : Int
  gesture : fts_gesture_st
  out : List Ev
  deriving DecidableEq, Repr

/-- The part of `fts_gesture_readdata` that fills the local `buf`: a copy of the gesture
bytes behind the touch data when the device multiplexes them into the touch frame, else the
bytes of a dedicated `fts_read` (from `buf[2]` on), or the error of that read.
`touch_buf = none` is a null pointer. -/
def fts_gesture_readdata_buf (cfg : FtsConfig) (ts_data : fts_ts_data) (touch_buf : Option Buf)
    (read_ret : Int) (read_data : Buf) : Except Int Buf :=
  let in_touch : Option Buf :=
    match touch_buf with
    | some tb =>
      if ts_data.gesture_bmode = cfg.GESTURE_BM_TOUCH ∧
          cfg.TOUCH_DEFAULT = (((rd tb cfg.FTS_TOUCH_E_NUM >>> 4) &&& 0x0F : Nat) : Int) then
        some (fun i => rd tb (cfg.FTS_TOUCH_DATA_LEN + i))
      else none
    | none => none
  match in_touch with
  | some b => .ok b
  | none =>
    if read_ret < 0 then .error read_ret
    else .ok (fun i => if i < 2 then 0 else rd read_data (i - 2))

/-- The C function `fts_gesture_readdata`.  `gesture_en` is the value that
`fts_read_reg(FTS_REG_GESTURE_EN, &gesture_en)` leaves in `gesture_en`; `read_ret` and
`read_data` are the return value of the `fts_read` of the gesture header and the bytes it
stores. -/
def fts_gesture_readdata (cfg : FtsConfig) (ts_data : fts_ts_data) (gesture : fts_gesture_st)
    (touch_buf : Option Buf) (gesture_en : Nat) (read_ret : Int) (read_data : Buf) :
    GestureRes :=
  if gesture_en % 256 ≠ cfg.ENABLE then ⟨0, gesture, []⟩
  else
    match fts_gesture_readdata_buf cfg ts_data touch_buf read_ret read_data with
    | .error r => ⟨r, gesture, []⟩
    | .ok buf =>
      let g0 : fts_gesture_st :=
        { gesture_id := buf 2, point_num := buf 3,
          coordinate_x := List.replicate cfg.FTS_GESTURE_POINTS_MAX 0,
          coordinate_y := List.replicate cfg.FTS_GESTURE_POINTS_MAX 0 }
      if g0.gesture_id = GESTURE_DOUBLECLICK ∧
          ts_data.gesture_status &&& GESTURE_DOUBLETAP_EN cfg = 0 then ⟨1, g0, []⟩
      else if g0.gesture_id = GESTURE_CLICK ∧
          ts_data.gesture_status &&& GESTURE_SINGLETAP_EN cfg = 0 then ⟨1, g0, []⟩
      else if g0.gesture_id = GESTURE_FODPRESS ∧
          ts_data.gesture_status &&& GESTURE_FOD_EN cfg = 0 then ⟨1, g0, []⟩
      else
        let g1 : fts_gesture_st :=
          { g0 with
            coordinate_x := (List.range cfg.FTS_GESTURE_POINTS_MAX).map
              (fun i => ((buf (0 + (4 * i + 4)) <<< 8) + buf (1 + (4 * i + 4))) % 65536),
            coordinate_y := (List.range cfg.FTS_GESTURE_POINTS_MAX).map
              (fun i => ((buf (2 + (4 * i + 4)) <<< 8) + buf (3 + (4 * i + 4))) % 65536) }
        ⟨cfg.FTS_RETVAL_IGNORE_TOUCHES, g1, fts_gesture_report g1.gesture_id⟩

/-! ## FOD read-out -/

/-- The C function `fts_fod_readdata`; `read_ret` and `fod_val` are the result of its
`fts_read`. -/
def fts_fod_readdata (ts_data : fts_ts_data) (read_ret : Int) (fod_val : Buf) :
    Int × fts_ts_data :=
  if read_ret < 0 then (read_ret, ts_data)
  else if rd fod_val 1 = 0x26 then
    let fod_x := (rd fod_val 4 <<< 8) + rd fod_val 5
    let fod_y := (rd fod_val 6 <<< 8) + rd fod_val 7
    let fod_down := rd fod_val 8 == 0
    (1, { ts_data with fp_x := fod_x, fp_y := fod_y, fod_fp_down := fod_down })
  else (0, ts_data)

/-- The C function `fts_fod_report_key` (its register write is a bus transaction and leaves
no entry in the trace). -/
def fts_fod_report_key (ts_data : fts_ts_data) : fts_ts_data × List Ev :=
  if ts_data.fod_fp_down && !ts_data.fp_down_report then
    ({ ts_data with fp_down_report := true }, [])
  else if !ts_data.fod_fp_down && ts_data.fp_down_report then
    ({ ts_data with fp_down_report := false }, [Ev.hook (.update_fod_press_status 0)])
  else (ts_data, [])

/-! ## Reading and classifying a frame -/

/-- Results of the collaborators of `fts_read_parse_touchdata` for one interrupt. -/
structure ParseEnv where
  /-- Return value of the first `fts_read` of the touch data. -/
  read_ret : Int
  /-- Return value of the second `fts_read` of the I2C path. -/
  read2_ret : Int
  /-- The contents of `touch_buf` after the reads. -/
  touch_buf : Buf
  /-- Return value of `fts_proximity_readdata`. -/
  proximity_ret : Int
  /-- Value of register `FTS_REG_FOD_MODE_EN` left in `fod_state`. -/
  fod_state : Nat
  /-- Return value of the `fts_read` of `fts_fod_readdata`. -/
  fod_read_ret : Int
  /-- Bytes read by `fts_fod_readdata`. -/
  fod_val : Buf
  /-- Value of register `FTS_REG_GESTURE_EN` left in `gesture_en`. -/
  gesture_en : Nat
  /-- Return value of the `fts_read` of `fts_gesture_readdata`. -/
  gesture_read_ret : Int
  /-- Bytes read by `fts_gesture_readdata`. -/
  gesture_data : Buf

/-- The C function `fts_read_touchdata_spi`. -/
def fts_read_touchdata_spi (ts_data : fts_ts_data) (env : ParseEnv) : Int × fts_ts_data :=
  let ts1 := { ts_data with touch_addr := 0x01 }
  if env.read_ret < 0 then (env.read_ret, ts1) else (0, ts1)

/-- The C function `fts_read_touchdata_i2c`. -/
def fts_read_touchdata_i2c (cfg : FtsConfig) (ts_data : fts_ts_data) (env : ParseEnv) :
    Int × fts_ts_data :=
  let max_touch_num := ts_data.pdata.max_touch_number
  let ts1 := { ts_data with touch_addr := 0x01 }
  if env.read_ret < 0 then (env.read_ret, ts1)
  else
    let buf := env.touch_buf
    let event : Int := (((rd buf cfg.FTS_TOUCH_E_NUM >>> 4) &&& 0x0F : Nat) : Int)
    let touch_max_size : Nat :=
      if event = cfg.TOUCH_DEFAULT then
        if rd buf ((ts1.touch_size + 2 ^ 32 - 1) % 2 ^ 32) ≠ 0xFF then
          (max_touch_num * cfg.FTS_ONE_TCH_LEN + 2) % 2 ^ 32
        else 0
      else if event = cfg.TOUCH_PROTOCOL_v2 then
        (rd buf cfg.FTS_TOUCH_E_NUM &&& 0x0F) * cfg.FTS_ONE_TCH_LEN_V2 + 4
      else if cfg.FTS_PEN_EN ∧ event = cfg.TOUCH_PEN then cfg.FTS_SIZE_PEN
      else 0
    if touch_max_size > ts1.touch_size then
      let ts2 := { ts1 with ta_size := touch_max_size,
                            touch_addr := (ts1.touch_addr + ts1.touch_size) % 256 }
      if env.read2_ret < 0 then (env.read2_ret, ts2) else (0, ts2)
    else (0, ts1)

/-- The part of `fts_read_parse_touchdata` that reads the touch data: `ta_size` is reset and
the reader of the bus type is called (`ret` stays 0 for an unknown bus type). -/
def fts_read_touchdata (cfg : FtsConfig) (ts_data : fts_ts_data) (env : ParseEnv) :
    Int × fts_ts_data :=
  let ts0 := { ts_data with ta_size := ts_data.touch_size }
  if ts0.bus_type = cfg.BUS_TYPE_SPI then fts_read_touchdata_spi ts0 env
  else if ts0.bus_type = cfg.BUS_TYPE_I2C then fts_read_touchdata_i2c cfg ts0 env
  else (0, ts0)

/-- Result of `fts_read_parse_touchdata` and `fts_irq_read_report`: return value, driver
state and `fts_gesture_data` afterwards, trace. -/
structure IrqRes where
  ret : Int
  ts_data : fts_ts_data
  gesture : fts_gesture_st
  out : List Ev
  deriving DecidableEq, Repr

/-- The C function `fts_read_parse_touchdata`; `ret` is the frame classification. -/
def fts_read_parse_touchdata (cfg : FtsConfig) (ts_data : fts_ts_data)
    (gesture : fts_gesture_st) (env : ParseEnv) : IrqRes :=
  let touch_buf := env.touch_buf
  let rdr := fts_read_touchdata cfg ts_data env
  let ret := rdr.1
  let ts1 := rdr.2
  if ret < 0 then ⟨cfg.TOUCH_ERROR, ts1, gesture, []⟩
  else if ret ≠ 0 then ⟨cfg.TOUCH_IGNORE, ts1, gesture, []⟩
  else if rd touch_buf 1 = 0xFF ∧ rd touch_buf 2 = 0xFF ∧ rd touch_buf 3 = 0xFF ∧
      rd touch_buf 4 = 0xFF then ⟨cfg.TOUCH_FW_INIT, ts1, gesture, []⟩
  else if cfg.FTS_PSENSOR_EN ∧ ts1.proximity_mode = true ∧
      env.proximity_ret = cfg.FTS_RETVAL_IGNORE_TOUCHES then
    ⟨cfg.TOUCH_IGNORE, ts1, gesture, []⟩
  else
    let fod : fts_ts_data × List Ev :=
      if cfg.FTS_FOD_EN ∧ ts1.pdata.fod_status ≠ 0 ∧
          env.fod_state % 256 = cfg.FTS_VAL_FOD_ENABLE then
        let r := fts_fod_readdata ts1 env.fod_read_ret env.fod_val
        if r.1 = cfg.FTS_RETVAL_IGNORE_TOUCHES then
          let k := fts_fod_report_key r.2
          (k.1, Ev.call .fts_fod_report_key :: k.2)
        else (r.2, [])
      else (ts1, [])
    let ts2 := fod.1
    if ts2.suspended ∧ ts2.gesture_support then
      let g := fts_gesture_readdata cfg ts2 gesture (some touch_buf) env.gesture_en
        env.gesture_read_ret env.gesture_data
      if g.ret = cfg.FTS_RETVAL_IGNORE_TOUCHES then
        ⟨cfg.TOUCH_IGNORE, ts2, g.gesture, fod.2 ++ g.out⟩
      else if ts2.suspended then ⟨cfg.TOUCH_IGNORE, ts2, g.gesture, fod.2 ++ g.out⟩
      else ⟨(((rd touch_buf cfg.FTS_TOUCH_E_NUM >>> 4) &&& 0x0F : Nat) : Int), ts2, g.gesture,
        fod.2 ++ g.out⟩
    else if ts2.suspended then ⟨cfg.TOUCH_IGNORE, ts2, gesture, fod.2⟩
    else ⟨(((rd touch_buf cfg.FTS_TOUCH_E_NUM >>> 4) &&& 0x0F : Nat) : Int), ts2, gesture,
      fod.2⟩

/-- The C function `fts_tp_state_recovery`, as the sequence of recovery functions it calls
(they talk to the chip only). -/
def fts_tp_state_recovery (cfg : FtsConfig) (ts_data : fts_ts_data) : List Ev :=
  [Ev.call .fts_wait_tp_to_valid, Ev.call .fts_ex_mode_recovery] ++
  (if cfg.FTS_PSENSOR_EN ∧ ts_data.proximity_mode = true then [Ev.call .fts_proximity_recovery]
   else
    (if cfg.FTS_FOD_EN then [Ev.call .fts_fod_recovery] else []) ++
    [Ev.call .fts_gesture_recovery])

/-- The C function `fts_irq_read_report`.  The `switch (touch_etype)` is written as a chain
of comparisons in the order of its `case` labels (`TOUCH_IGNORE`, `TOUCH_ERROR`,
`TOUCH_FWDBG` and `default` do nothing and share the last branch); the stylus report of
`case TOUCH_PEN` is recorded as a call only. -/
def fts_irq_read_report (cfg : FtsConfig) (ts_data : fts_ts_data) (gesture : fts_gesture_st)
    (env : ParseEnv) : IrqRes :=
  let p := fts_read_parse_touchdata cfg ts_data gesture env
  let touch_etype := p.ret
  if touch_etype = cfg.TOUCH_DEFAULT then
    let r := fts_input_report_touch cfg p.ts_data env.touch_buf
    ⟨r.ret, r.ts_data, p.gesture, p.out ++ Ev.call .fts_input_report_touch :: r.out⟩
  else if touch_etype = cfg.TOUCH_PROTOCOL_v2 then
    let r := fts_input_report_touch_pv2 cfg p.ts_data env.touch_buf
    ⟨r.ret, r.ts_data, p.gesture, p.out ++ Ev.call .fts_input_report_touch_pv2 :: r.out⟩
  else if cfg.FTS_PEN_EN ∧ touch_etype = cfg.TOUCH_PEN then
    ⟨0, p.ts_data, p.gesture, p.out ++ [Ev.call .fts_input_pen_report]⟩
  else if touch_etype = cfg.TOUCH_FW_INIT then
    let r := fts_release_all_finger cfg p.ts_data
    ⟨0, r.1, p.gesture,
      p.out ++ Ev.call .fts_release_all_finger :: r.2 ++
        Ev.call .fts_tp_state_recovery :: fts_tp_state_recovery cfg r.1⟩
  else ⟨0, p.ts_data, p.gesture, p.out⟩

/-! ## Chip identification -/

/-- The C function `fts_match_cid`.  Its first loop stops at the first entry of
`chip_id_list[]` whose type equals `type`; with `force` that entry is taken at once, without
`force` only when `id` is one of its `chip_ids[]`. -/
def fts_match_cid (cfg : FtsConfig) (ts_data : fts_ts_data) (type id_h id_l : Nat)
    (force : Bool) : Int × fts_ts_data :=
  match cfg.FTS_CHIP_ID_MAPPING with
  | none => (- EINVAL, ts_data)
  | some chip_id_list =>
    let id := ((id_h <<< 8) + id_l) % 65536
    let ts0 := { ts_data with
      ic_info := { ts_data.ic_info with
        cid := ⟨0, List.replicate cfg.FTS_MAX_CHIP_IDS 0⟩ } }
    match chip_id_list.find? (fun e => type == e.type) with
    | none => (- ENODATA, ts0)
    | some e =>
      if force then (0, { ts0 with ic_info := { ts0.ic_info with cid := e } })
      else if (List.range cfg.FTS_MAX_CHIP_IDS).any (fun j => id == e.chip_ids.getD j 0) then
        (0, { ts0 with ic_info := { ts0.ic_info with cid := e } })
      else (- ENODATA, ts0)

/-- The table loop `for (i = 0; i < ctype_entries; i++)` of `fts_get_chip_types` from index
`i` on: the entry at which it breaks (`none` when it runs off the table), the driver state
and the table consultations made. -/
def fts_get_chip_types_scan (cfg : FtsConfig) (probe : Nat → ChipProbe) (id_h id_l : Nat)
    (fw_valid : Bool) : List ft_chip_t → Nat → fts_ts_data →
      Option ft_chip_t × fts_ts_data × List ChipProbe
  | [], _, ts_data => (none, ts_data, [])
  | e :: rest, i, ts_data =>
    if cfg.VALID = fw_valid.toNat then
      if id_h = e.chip_idh ∧ id_l = e.chip_idl then (some e, ts_data, [probe i])
      else
        let m := fts_match_cid cfg ts_data e.type id_h id_l false
        if m.1 = 0 then (some e, m.2, [probe i, .fts_match_cid e.type false])
        else
          let r := fts_get_chip_types_scan cfg probe id_h id_l fw_valid rest (i + 1) m.2
          (r.1, r.2.1, probe i :: .fts_match_cid e.type false :: r.2.2)
    else if (id_h = e.rom_idh ∧ id_l = e.rom_idl) ∨ (id_h = e.pb_idh ∧ id_l = e.pb_idl) ∨
        (id_h = e.bl_idh ∧ id_l = e.bl_idl) then (some e, ts_data, [probe i])
    else
      let r := fts_get_chip_types_scan cfg probe id_h id_l fw_valid rest (i + 1) ts_data
      (r.1, r.2.1, probe i :: r.2.2)

/-- Result of `fts_get_chip_types`: return value, driver state and the global
`FTS_CHIP_TYPE` afterwards, table consultations made. -/
structure ChipRes where
  ret : Int
  ts_data : fts_ts_data
  FTS_CHIP_TYPE : Int
  probes : List ChipProbe
  deriving DecidableEq, Repr

/-- The C function `fts_get_chip_types`; `FTS_CHIP_TYPE` is the global of that name. -/
def fts_get_chip_types (cfg : FtsConfig) (ts_data : fts_ts_data) (FTS_CHIP_TYPE : Int)
    (id_h id_l : Nat) (fw_valid : Bool) : ChipRes :=
  if 0x0 = id_h ∨ 0x0 = id_l then ⟨- EINVAL, ts_data, FTS_CHIP_TYPE, []⟩
  else if id_l = 0x72 ∨ id_l = 0xb3 ∨ id_l = 0x56 then
    let ts1 := { ts_data with ic_type_flag := true }
    let r := fts_get_chip_types_scan cfg .ctype_3683g id_h id_l fw_valid
      cfg.FTS_CHIP_TYPE_MAPPING_3683g 0 ts1
    match r.1 with
    | none => ⟨- ENODATA, r.2.1, cfg._FT3683G, r.2.2⟩
    | some e =>
      let m := fts_match_cid cfg r.2.1 e.type id_h id_l true
      ⟨0, { m.2 with ic_info := { m.2.ic_info with ids := e } }, cfg._FT3683G,
        r.2.2 ++ [.fts_match_cid e.type true]⟩
  else if id_l = 0x62 then
    let ts1 := { ts_data with ic_type_flag := false }
    let r := fts_get_chip_types_scan cfg .ctype_3681 id_h id_l fw_valid
      cfg.FTS_CHIP_TYPE_MAPPING_3681 0 ts1
    match r.1 with
    | none => ⟨- ENODATA, r.2.1, cfg._FT3681, r.2.2⟩
    | some e =>
      let m := fts_match_cid cfg r.2.1 e.type id_h id_l true
      ⟨0, { m.2 with ic_info := { m.2.ic_info with ids := e } }, cfg._FT3681,
        r.2.2 ++ [.fts_match_cid e.type true]⟩
  else ⟨- EINVAL, ts_data, FTS_CHIP_TYPE, []⟩

/-! ## The protocol-v1 wire format, as the specification words it -/

/-- A protocol-v1 wire buffer that encodes exactly one point: header count 1, the id in
the high nibble of the `ID_YH` byte, the flag in the top two bits of the `E_XH` byte, `x` and
`y` as 12-bit values (high nibble next to flag and id, low byte in `XL` / `YL`), the pressure
and area bytes, and `0xFF` everywhere else (all other point slots). -/
def encode_v1_single (cfg : FtsConfig) (id flag x y pressure area : Nat) : Buf := fun i =>
  if i = cfg.FTS_TOUCH_E_NUM then 0x01
  else if i = cfg.FTS_TOUCH_OFF_E_XH + 2 then flag * 64 + x / 256
  else if i = cfg.FTS_TOUCH_OFF_XL + 2 then x % 256
  else if i = cfg.FTS_TOUCH_OFF_ID_YH + 2 then id * 16 + y / 256
  else if i = cfg.FTS_TOUCH_OFF_YL + 2 then y % 256
  else if i = cfg.FTS_TOUCH_OFF_PRE + 2 then pressure
  else if i = cfg.FTS_TOUCH_OFF_AREA + 2 then area
  else 0xFF

/-- What the protocol-v1 decoder needs of the header constants: `FTS_TOUCH_HIRES_EN` is
off, the header byte lies before the first point slot, the six fields of a point lie at
different offsets inside a slot of `FTS_ONE_TCH_LEN` bytes, and the id nibble `0xF` of an
unused slot counts as "no more points". -/
def v1_layout (cfg : FtsConfig) : Prop :=
  cfg.FTS_TOUCH_HIRES_EN = false ∧ cfg.FTS_MAX_ID ≤ 15 ∧ cfg.FTS_TOUCH_E_NUM < 2 ∧
  cfg.FTS_TOUCH_OFF_E_XH < cfg.FTS_ONE_TCH_LEN ∧ cfg.FTS_TOUCH_OFF_XL < cfg.FTS_ONE_TCH_LEN ∧
  cfg.FTS_TOUCH_OFF_ID_YH < cfg.FTS_ONE_TCH_LEN ∧ cfg.FTS_TOUCH_OFF_YL < cfg.FTS_ONE_TCH_LEN ∧
  cfg.FTS_TOUCH_OFF_PRE < cfg.FTS_ONE_TCH_LEN ∧ cfg.FTS_TOUCH_OFF_AREA < cfg.FTS_ONE_TCH_LEN ∧
  [cfg.FTS_TOUCH_OFF_E_XH, cfg.FTS_TOUCH_OFF_XL, cfg.FTS_TOUCH_OFF_ID_YH,
    cfg.FTS_TOUCH_OFF_YL, cfg.FTS_TOUCH_OFF_PRE, cfg.FTS_TOUCH_OFF_AREA].Nodup

/-! ## A concrete configuration and concrete states -/

/-- A configuration with the values customary for this driver family: protocol B, no
pressure reporting, 6-byte v1 point records with the fields in the order `E_XH, XL, ID_YH,
YL, PRE, AREA`, `FTS_MAX_ID = 0x0A`, flags `DOWN = 0`, `UP = 1`, `CONTACT = 2`. -/
def ft3683g_config : FtsConfig where
  FTS_MT_PROTOCOL_B_EN := true
  FTS_REPORT_PRESSURE_EN := false
  FTS_TOUCH_HIRES_EN := false
  FTS_PEN_EN := false
  FTS_PSENSOR_EN := false
  FTS_FOD_EN := true
  FTS_KEY_DIM := 10
  FTS_MAX_ID := 0x0A
  FTS_ONE_TCH_LEN := 6
  FTS_ONE_TCH_LEN_V2 := 8
  FTS_TOUCH_E_NUM := 1
  FTS_TOUCH_OFF_E_XH := 0
  FTS_TOUCH_OFF_XL := 1
  FTS_TOUCH_OFF_ID_YH := 2
  FTS_TOUCH_OFF_YL := 3
  FTS_TOUCH_OFF_PRE := 4
  FTS_TOUCH_OFF_AREA := 5
  FTS_TOUCH_OFF_MINOR := 6
  FTS_TOUCH_HIRES_X := 10
  FTS_HI_RES_X_MAX := 16
  EVENT_DOWN := fun flag => flag == 0 || flag == 2
  EVENT_UP := fun flag => flag == 1
  ENABLE := 1
  VALID := 1
  TOUCH_DEFAULT := 0x00
  TOUCH_PROTOCOL_v2 := 0x02
  TOUCH_PEN := 0x0B
  TOUCH_FW_INIT := 0x81
  TOUCH_IGNORE := 0xFE
  TOUCH_ERROR := 0xFF
  BUS_TYPE_SPI := 2
  BUS_TYPE_I2C := 1
  FTS_SIZE_PEN := 15
  FTS_TOUCH_DATA_LEN := 62
  FTS_GESTURE_DATA_LEN := 28
  FTS_GESTURE_POINTS_MAX := 6
  FTS_RETVAL_IGNORE_TOUCHES := 1
  GESTURE_BM_TOUCH := 1
  GESTURE_DOUBLETAP := 0
  GESTURE_SINGLETAP := 1
  GESTURE_FOD := 2
  FTS_VAL_FOD_ENABLE := 2
  FTS_CHIP_TYPE_MAPPING_3683g := [⟨0x90, 0x56, 0x72, 0x36, 0xB3, 0x00, 0x00, 0x00, 0x00⟩]
  FTS_CHIP_TYPE_MAPPING_3681 := [⟨0x8C, 0x56, 0x62, 0x56, 0x62, 0x00, 0x00, 0x00, 0x00⟩]
  FTS_CHIP_ID_MAPPING := some [⟨0x90, [0x5672, 0, 0, 0, 0, 0, 0, 0]⟩]
  FTS_MAX_CHIP_IDS := 8
  _FT3683G := 0x3683
  _FT3681 := 0x3681
  DISABLE := 0
  FTS_REG_GESTURE_EN := 0xD0
  FTS_REG_FOD_MODE_EN := 0xCF
  FTS_REG_POWER_MODE := 0xA5
  FTS_REG_POWER_MODE_SLEEP := 0x03
  FTS_MAX_RETRIES_WRITEREG := 5
  FTS_FOD_DISABLE := 0
  FTS_DELAY_RESUME_RESET := 50
  FTS_MAX_RETRIES_READID := 20
  FTS_REG_CHIP_ID := 0xA3

/-- Platform data with ten touch points and no keys. -/
def pdata_10 : fts_ts_platform_data where
  max_touch_number := 10
  have_key := false
  key_number := 0
  keys := []
  key_x_coords := []
  key_y_coords := []
  super_resolution_factors := 16
  fod_status := 0

/-- An awake SPI device with the given mask of fingers that are down. -/
def ts_awake (touch_points : Nat) : fts_ts_data where
  pdata := pdata_10
  touch_points := touch_points
  key_state := 0
  touch_event_num := 0
  suspended := false
  gesture_support := false
  gesture_bmode := 0
  gesture_status := 0
  proximity_mode := false
  bus_type := 2
  touch_addr := 1
  touch_size := 62
  ta_size := 62
  fod_fp_down := false
  fp_down_report := false
  fp_x := 0
  fp_y := 0
  ic_info := ⟨false, false, ⟨0x90, 0x56, 0x72, 0x36, 0xB3, 0x00, 0x00, 0x00, 0x00⟩,
    ⟨0, List.replicate 8 0⟩⟩
  ic_type_flag := true

/-- A frame read without bus error whose first bytes are `0xFF`, followed by other data;
the gesture-enable register reads `ENABLE`. -/
def env_fw_init : ParseEnv where
  read_ret := 0
  read2_ret := 0
  touch_buf := Buf.ofList [0xFF, 0xFF, 0xFF, 0xFF, 0xFF, 0x12, 0x34]
  proximity_ret := 0
  fod_state := 0
  fod_read_ret := 0
  fod_val := Buf.ofList []
  gesture_en := 1
  gesture_read_ret := 0
  gesture_data := Buf.ofList []

/-- The zeroed `fts_gesture_data` left by `fts_gesture_init`. -/
def gesture_zero : fts_gesture_st where
  gesture_id := 0
  point_num := 0
  coordinate_x := List.replicate 6 0
  coordinate_y := List.replicate 6 0

/-! # MSM GENI SPI controller (`spi-msm-geni.c`) -/

/-- Constant `MIN_WORD_LEN`. -/
def MIN_WORD_LEN : Nat := 4
/-- Constant `BITS_PER_BYTE` (`linux/bits.h`). -/
def BITS_PER_BYTE : Nat := 8
/-- Constant `NUM_SPI_XFER`. -/
def NUM_SPI_XFER : Nat := 8
/-- Command `SPI_TX_ONLY`. -/
def SPI_TX_ONLY : Nat := 1
/-- Command `SPI_RX_ONLY`. -/
def SPI_RX_ONLY : Nat := 2
/-- Command `SPI_FULL_DUPLEX`. -/
def SPI_FULL_DUPLEX : Nat := 3
/-- Command parameter `FRAGMENTATION` (`BIT(2)`). -/
def FRAGMENTATION : Nat := 4
/-- Flag `GSI_LOOPBACK_EN` (`BIT(0)`). -/
def GSI_LOOPBACK_EN : Nat := 1
/-- Flag `GSI_CPHA` (`BIT(4)`). -/
def GSI_CPHA : Nat := 16
/-- Flag `GSI_CPOL` (`BIT(5)`). -/
def GSI_CPOL : Nat := 32
/-- Mode bit `SPI_CPHA` (`linux/spi/spi.h`). -/
def SPI_CPHA : Nat := 0x01
/-- Mode bit `SPI_CPOL` (`linux/spi/spi.h`). -/
def SPI_CPOL : Nat := 0x02
/-- Mode bit `SPI_LOOP` (`linux/spi/spi.h`). -/
def SPI_LOOP : Nat := 0x20

/-- Constants of `linux/msm-geni-se.h` and `linux/msm_gpi.h`. -/
structure GeniConfig where
  /-- Transfer mode `FIFO_MODE`. -/
  FIFO_MODE : Int
  /-- Transfer mode `SE_DMA`. -/
  SE_DMA : Int
  /-- Transfer mode `GSI_DMA`. -/
  GSI_DMA : Int
  /-- Flag `GSI_TX_PACK_EN`. -/
  GSI_TX_PACK_EN : Nat
  /-- Flag `GSI_RX_PACK_EN`. -/
  GSI_RX_PACK_EN : Nat
  /-- Mask `CLK_DIV_MSK`. -/
  CLK_DIV_MSK : Nat
  /-- Shift `CLK_DIV_SHFT`. -/
  CLK_DIV_SHFT : Nat
  /-- Mask `CLK_SEL_MSK`. -/
  CLK_SEL_MSK : Nat
  /-- Bit `SER_CLK_EN`. -/
  SER_CLK_EN : Nat
  /-- Bit `FIFO_IF_DISABLE` of register `GENI_IF_FIFO_DISABLE_RO`. -/
  FIFO_IF_DISABLE : Nat
  /-- Bit `M_CMD_DONE_EN` of the main interrupt status. -/
  M_CMD_DONE_EN : Nat
  /-- Bit `M_CMD_CANCEL_EN` of the main interrupt status. -/
  M_CMD_CANCEL_EN : Nat
  /-- Bit `M_CMD_ABORT_EN` of the main interrupt status. -/
  M_CMD_ABORT_EN : Nat
  /-- Bit `M_RX_FIFO_WATERMARK_EN` of the main interrupt status. -/
  M_RX_FIFO_WATERMARK_EN : Nat
  /-- Bit `M_RX_FIFO_LAST_EN` of the main interrupt status. -/
  M_RX_FIFO_LAST_EN : Nat
  /-- Bit `M_TX_FIFO_WATERMARK_EN` of the main interrupt status. -/
  M_TX_FIFO_WATERMARK_EN : Nat
  /-- Bit `TX_DMA_DONE` of `SE_DMA_TX_IRQ_STAT`. -/
  TX_DMA_DONE : Nat
  /-- Bit `TX_RESET_DONE` of `SE_DMA_TX_IRQ_STAT`. -/
  TX_RESET_DONE : Nat
  /-- Mask `DMA_TX_ERROR_STATUS` of `SE_DMA_TX_IRQ_STAT`. -/
  DMA_TX_ERROR_STATUS : Nat
  /-- Bit `RX_DMA_DONE` of `SE_DMA_RX_IRQ_STAT`. -/
  RX_DMA_DONE : Nat
  /-- Bit `RX_RESET_DONE` of `SE_DMA_RX_IRQ_STAT`. -/
  RX_RESET_DONE : Nat
  /-- Mask `DMA_RX_ERROR_STATUS` of `SE_DMA_RX_IRQ_STAT`. -/
  DMA_RX_ERROR_STATUS : Nat
  /-- Mask `RX_FIFO_WC_MSK` of `SE_GENI_RX_FIFO_STATUS`. -/
  RX_FIFO_WC_MSK : Nat
  /-- Bit `RX_LAST` of `SE_GENI_RX_FIFO_STATUS`. -/
  RX_LAST : Nat
  /-- Mask `RX_LAST_BYTE_VALID_MSK` of `SE_GENI_RX_FIFO_STATUS`. -/
  RX_LAST_BYTE_VALID_MSK : Nat
  /-- Shift `RX_LAST_BYTE_VALID_SHFT`. -/
  RX_LAST_BYTE_VALID_SHFT : Nat

/-- The value of a C `unsigned int` converted to `int`. -/
def s32 (n : Int) : Int := (n + 2 ^ 31) % 2 ^ 32 - 2 ^ 31

/-- The value of a C `int` converted to `unsigned int`. -/
def u32 (n : Int) : Nat := (n % 2 ^ 32).toNat

/-- The fields of `struct spi_transfer` that the modelled functions read; `none` is a null
buffer pointer, `some l` a buffer holding the bytes `l`. -/
structure spi_transfer where
  tx_buf : Option (List Nat)
  rx_buf : Option (List Nat)
  len : Nat
  speed_hz : Nat
  bits_per_word : Nat
  cs_change : Bool
  tx_dma : Nat
  rx_dma : Nat
  deriving DecidableEq, Repr

/-- The fields of `struct spi_device` that the modelled functions read; `controller_data`
holds `(spi_cs_clk_delay, spi_inter_words_delay)` when the pointer is not null. -/
structure spi_device where
  mode : Nat
  chip_select : Nat
  controller_data : Option (Nat × Nat)
  max_speed_hz : Nat := 0
  bits_per_word : Nat := 0
  deriving DecidableEq, Repr

/-- The fields of `struct spi_geni_master` that the modelled functions read or write. -/
structure spi_geni_master where
  tx_fifo_depth : Nat
  tx_fifo_width : Nat
  tx_wm : Nat
  cur_speed_hz : Nat
  cur_word_len : Nat
  tx_rem_bytes : Nat
  rx_rem_bytes : Nat
  cur_xfer : Option spi_transfer
  oversampling : Nat
  qn_err : Bool
  cur_xfer_mode : Int
  num_tx_eot : Nat
  num_rx_eot : Nat
  num_xfers : Nat
  shared_ee : Bool
  shared_se : Bool
  is_le_vm : Bool
  dis_autosuspend : Bool
  le_gpi_reset_done : Bool
  setup : Bool := false
  cmd_done : Bool := false
  disable_dma : Bool := false
  slave_state : Bool := false
  is_dma_err : Bool := false
  is_dma_not_done : Bool := false
  /-- Whether `mas->tx` is a valid DMA channel (`!IS_ERR_OR_NULL(mas->tx)`). -/
  tx_chan_valid : Bool := false
  /-- Whether `mas->rx` is a valid DMA channel (`!IS_ERR_OR_NULL(mas->rx)`). -/
  rx_chan_valid : Bool := false
  deriving DecidableEq, Repr

/-- Registers of the serial engine that the modelled functions write. -/
inductive GeniReg
  | SE_SPI_TX_TRANS_LEN
  | SE_SPI_RX_TRANS_LEN
  | SE_SPI_TRANS_CFG
  | SE_SPI_LOOPBACK
  | SE_SPI_DEMUX_SEL
  | SE_SPI_CPHA
  | SE_SPI_CPOL
  | SE_SPI_DEMUX_OUTPUT_INV
  | SE_SPI_DELAY_COUNTERS
  | SE_GENI_CLK_SEL
  | GENI_SER_M_CLK_CFG
  | SE_GENI_TX_WATERMARK_REG
  | SE_DMA_TX_FSM_RST
  | SE_DMA_RX_FSM_RST
  deriving DecidableEq, Repr

/-- A transfer ring element, with the arguments of the `MSM_GPI_*_TRE_DWORD*` macros that
build it. -/
inductive Tre
  /-- The lock TRE of `setup_lock_tre`. -/
  | lock
  /-- The unlock TRE of `setup_unlock_tre`. -/
  | unlock
  /-- The config0 TRE of `setup_config0_tre`. -/
  | config0 (pack flags word_len cs_clk_delay inter_words_delay : Nat) (idx div : Int)
  /-- The go TRE of `setup_go_tre`. -/
  | go (flags cs cmd rx_len link_rx eot eob chain : Nat)
  /-- A data TRE of `setup_dma_tre`. -/
  | dma (buf len : Nat) (is_tx : Bool)
  deriving DecidableEq, Repr

/-- One entry of the trace of the SPI controller driver. -/
inductive SpiEv
  /-- One `geni_write_reg(fifo_word, base, SE_GENI_TX_FIFOn)`; `bytes` are the four bytes of
  `fifo_word` in memory order. -/
  | tx_fifo_write (bytes : List Nat)
  /-- The write `geni_write_reg(0, base, SE_GENI_TX_WATERMARK_REG)`. -/
  | tx_watermark_clear
  /-- The lock TRE is submitted on the TX channel by `spi_geni_lock_bus`. -/
  | lock_submit
  /-- The wait of `spi_geni_lock_bus` for the lock TRE. -/
  | lock_wait
  /-- The call `dmaengine_submit` of the TX descriptor built from the scatterlist `sg`. -/
  | submit_tx (sg : List Tre)
  /-- The call `dmaengine_submit` of the RX descriptor built from the scatterlist `sg`. -/
  | submit_rx (sg : List Tre)
  /-- The call `dma_async_issue_pending(mas->tx)`. -/
  | issue_pending_tx
  /-- The call `dma_async_issue_pending(mas->rx)`. -/
  | issue_pending_rx
  /-- One `wait_for_completion_timeout(&mas->tx_cb, xfer_timeout)` of
  `spi_geni_transfer_one`. -/
  | wait_tx_cb
  /-- One `wait_for_completion_timeout(&mas->rx_cb, xfer_timeout)` of
  `spi_geni_transfer_one`. -/
  | wait_rx_cb
  /-- The call `geni_se_dump_dbg_regs`. -/
  | dump_dbg_regs
  /-- The call `dmaengine_terminate_all(mas->tx)`. -/
  | terminate_all
  /-- A call `geni_write_reg(val, base, reg)` (or `writel_relaxed`) other than the two
  above. -/
  | write_reg (reg : GeniReg) (val : Nat)
  /-- The call `spi_setup_word_len(mas, mode, bits_per_word)`. -/
  | setup_word_len (mode bits_per_word : Nat)
  /-- The call `geni_se_select_mode(base, mode)`. -/
  | select_mode (mode : Int)
  /-- The call `geni_setup_m_cmd(base, cmd, params)`. -/
  | setup_m_cmd (cmd params : Nat)
  /-- The call `geni_se_rx_dma_prep` for `len` bytes, with its return value. -/
  | rx_dma_prep (len : Nat) (ret : Int)
  /-- The call `geni_se_tx_dma_prep` for `len` bytes, with its return value. -/
  | tx_dma_prep (len : Nat) (ret : Int)
  /-- The call `geni_se_tx_dma_unprep(wrapper_dev, tx_dma, len)`. -/
  | tx_dma_unprep (tx_dma len : Nat)
  /-- The call `geni_se_rx_dma_unprep(wrapper_dev, rx_dma, len)`. -/
  | rx_dma_unprep (rx_dma len : Nat)
  /-- One `wait_for_completion_timeout(&mas->xfer_done, ...)`; `done` is false when it
  returns 0 (timeout). -/
  | wait_xfer_done (done : Bool)
  /-- The call `geni_cancel_m_cmd(base)`. -/
  | cancel_m_cmd
  /-- The call `geni_abort_m_cmd(base)`. -/
  | abort_m_cmd
  /-- One dummy read of `SE_GENI_RX_FIFOn` by `handle_fifo_timeout`. -/
  | rx_fifo_dummy_read
  /-- The bytes that `geni_spi_handle_rx` stores into `rx_buf` from offset `off` on. -/
  | rx_buf_store (off : Nat) (bytes : List Nat)
  /-- The call `pm_runtime_put_sync_suspend(mas->dev)`. -/
  | pm_runtime_put_sync_suspend
  /-- The call `spi_geni_map_buf(mas, spi_msg)`. -/
  | map_buf
  /-- A runtime-PM call `pm_runtime_get_sync(mas->dev)`. -/
  | pm_runtime_get_sync
  deriving DecidableEq, Repr

/-! ## `geni_spi_handle_tx` -/

/-- The value of `bytes_per_fifo` in the loop of `geni_spi_handle_tx`. -/
def geni_spi_handle_tx_bytes_per_fifo (mas : spi_geni_master) : Int :=
  if mas.tx_fifo_width % mas.cur_word_len ≠ 0 then
    ((mas.cur_word_len / BITS_PER_BYTE + 1 : Nat) : Int)
  else ((mas.tx_fifo_width >>> 3 : Nat) : Int)

/-- The value of `max_bytes` when `geni_spi_handle_tx` enters its write loop: the branch on
`tx_fifo_width % cur_word_len`, then `min_t(int, mas->tx_rem_bytes, max_bytes)`. -/
def geni_spi_handle_tx_max_bytes (mas : spi_geni_master) : Int :=
  let tx_fifo_width : Int := ((mas.tx_fifo_width >>> 3 : Nat) : Int)
  let max_bytes : Int :=
    if mas.tx_fifo_width % mas.cur_word_len ≠ 0 then
      ((mas.tx_fifo_depth : Int) - mas.tx_wm) *
        ((mas.cur_word_len / BITS_PER_BYTE + 1 : Nat) : Int)
    else ((mas.tx_fifo_depth : Int) - mas.tx_wm) * tx_fifo_width
  min (s32 mas.tx_rem_bytes) max_bytes

/-- The loop `while (i < max_bytes)` of `geni_spi_handle_tx`; `fuel` bounds the number of
iterations (every iteration moves `i` forward, so `max_bytes` iterations suffice). -/
def geni_spi_handle_tx_loop (bytes_per_fifo max_bytes : Int) (tx_buf : List Nat) :
    Nat → Int → List SpiEv
  | 0, _ => []
  | fuel + 1, i =>
    if i < max_bytes then
      let bytes_to_write := min (max_bytes - i) bytes_per_fifo
      let chunk := (tx_buf.drop i.toNat).take bytes_to_write.toNat
      let fifo_word := chunk ++ List.replicate (4 - chunk.length) 0
      SpiEv.tx_fifo_write fifo_word ::
        geni_spi_handle_tx_loop bytes_per_fifo max_bytes tx_buf fuel (i + bytes_to_write)
    else []

/-- The C function `geni_spi_handle_tx`. -/
def geni_spi_handle_tx (mas : spi_geni_master) : spi_geni_master × List SpiEv :=
  match mas.cur_xfer with
  | none => (mas, [])
  | some cur_xfer =>
    let max_bytes := geni_spi_handle_tx_max_bytes mas
    let tx_buf := (cur_xfer.tx_buf.getD []).drop (cur_xfer.len - mas.tx_rem_bytes)
    let writes := geni_spi_handle_tx_loop (geni_spi_handle_tx_bytes_per_fifo mas) max_bytes
      tx_buf max_bytes.toNat 0
    let tx_rem_bytes := u32 ((mas.tx_rem_bytes : Int) - max_bytes)
    ({ mas with tx_rem_bytes := tx_rem_bytes },
      writes ++ (if tx_rem_bytes = 0 then [SpiEv.tx_watermark_clear] else []))

/-- The byte budget of the specification: `min(tx_rem_bytes, (tx_fifo_depth - tx_wm) *
ceil(bits_per_word / 8))`. -/
def spec_max_bytes (mas : spi_geni_master) : Int :=
  min (mas.tx_rem_bytes : Int)
    (((mas.tx_fifo_depth : Int) - mas.tx_wm) * (((mas.cur_word_len + 7) / 8 : Nat) : Int))

/-- The byte-aligned budget `min(tx_rem_bytes, (tx_fifo_depth - tx_wm) * (tx_fifo_width /
8))`. -/
def aligned_max_bytes (mas : spi_geni_master) : Int :=
  min (mas.tx_rem_bytes : Int)
    (((mas.tx_fifo_depth : Int) - mas.tx_wm) * ((mas.tx_fifo_width / 8 : Nat) : Int))

/-! ## GSI descriptor chains -/

/-- Results of the collaborators of `setup_gsi_xfer` and of the GSI branch of
`spi_geni_transfer_one` for one transfer. -/
structure GsiEnv where
  /-- Whether `dmaengine_prep_slave_sg` of `spi_geni_lock_bus` returns a descriptor. -/
  lock_desc_ok : Bool
  /-- Whether the wait of `spi_geni_lock_bus` sees the completion in time. -/
  lock_wait_ok : Bool
  /-- Return value of `geni_se_clk_freq_match`. -/
  clk_match_ret : Int
  /-- The `clk_idx` found by `geni_se_clk_freq_match`. -/
  clk_idx : Int
  /-- The `sclk_freq` found by `geni_se_clk_freq_match`. -/
  sclk_freq : Nat
  /-- Return value of `clk_set_rate`. -/
  clk_set_rate_ret : Int
  /-- Value of register `SE_GENI_CLK_SEL`. -/
  reg_clk_sel : Nat
  /-- Value of register `GENI_SER_M_CLK_CFG`. -/
  reg_m_clk_cfg : Nat
  /-- Whether `dmaengine_prep_slave_sg` on the RX channel returns a descriptor. -/
  rx_desc_ok : Bool
  /-- Whether `dmaengine_prep_slave_sg` on the TX channel returns a descriptor. -/
  tx_desc_ok : Bool
  /-- Whether the `i`-th wait on `tx_cb` sees a completion in time. -/
  tx_wait_ok : Nat → Bool
  /-- Whether the `i`-th wait on `rx_cb` sees a completion in time. -/
  rx_wait_ok : Nat → Bool
  /-- The value of `mas->qn_err` (set by the channel callback) after the waits. -/
  qn_err : Bool
  /-- The value of `pm_runtime_status_suspended(mas->dev)`. -/
  pm_suspended : Bool

/-- The C function `spi_geni_lock_bus`. -/
def spi_geni_lock_bus (env : GsiEnv) : Int × List SpiEv :=
  if !env.lock_desc_ok then (- EIO, [SpiEv.terminate_all])
  else if !env.lock_wait_ok then
    (- ETIMEDOUT, [SpiEv.lock_submit, SpiEv.issue_pending_tx, SpiEv.lock_wait,
      SpiEv.dump_dbg_regs, SpiEv.terminate_all])
  else (0, [SpiEv.lock_submit, SpiEv.issue_pending_tx, SpiEv.lock_wait])

/-- The C function `get_spi_clk_cfg`: return value, `*clk_idx`, `*clk_div`. -/
def get_spi_clk_cfg (speed_hz : Nat) (mas : spi_geni_master) (env : GsiEnv) : Int × Int × Int :=
  if env.clk_match_ret ≠ 0 then (env.clk_match_ret, 0, 0)
  else
    let d := (mas.oversampling * speed_hz) % 2 ^ 32
    let clk_div : Int := s32 (((env.sclk_freq + d - 1) / d : Nat) : Int)
    if clk_div = 0 then (- EINVAL, env.clk_idx, clk_div)
    else if env.clk_set_rate_ret ≠ 0 then (env.clk_set_rate_ret, env.clk_idx, clk_div)
    else (0, env.clk_idx, clk_div)

/-- The C function `setup_config0_tre`: the TRE, or the error carried by `ERR_PTR`. -/
def setup_config0_tre (gcfg : GeniConfig) (xfer : spi_transfer) (mas : spi_geni_master)
    (mode cs_clk_delay inter_words_delay : Nat) (env : GsiEnv) : Except Int Tre :=
  let flags := (if mode &&& SPI_LOOP ≠ 0 then GSI_LOOPBACK_EN else 0) |||
    (if mode &&& SPI_CPOL ≠ 0 then GSI_CPOL else 0) |||
    (if mode &&& SPI_CPHA ≠ 0 then GSI_CPHA else 0)
  let word_len := (xfer.bits_per_word + 256 - MIN_WORD_LEN) % 256
  let pack := gcfg.GSI_TX_PACK_EN ||| gcfg.GSI_RX_PACK_EN
  if mas.is_le_vm then
    let idx : Int := env.reg_clk_sel
    let div : Int := ((env.reg_m_clk_cfg &&& gcfg.CLK_DIV_MSK) >>> gcfg.CLK_DIV_SHFT : Nat)
    .ok (.config0 pack flags word_len cs_clk_delay inter_words_delay idx div)
  else
    let c := get_spi_clk_cfg mas.cur_speed_hz mas env
    if c.1 ≠ 0 then .error c.1
    else .ok (.config0 pack flags word_len cs_clk_delay inter_words_delay c.2.1 c.2.2)

/-- The C function `setup_go_tre`. -/
def setup_go_tre (cmd cs rx_len flags : Nat) : Tre :=
  let eot := 0
  let chain := if cmd = SPI_RX_ONLY then 0 else 1
  let eob := if cmd = SPI_RX_ONLY then 1 else 0
  let link_rx := if cmd &&& SPI_RX_ONLY ≠ 0 then 1 else 0
  .go flags cs cmd rx_len link_rx eot eob chain

/-- The C function `setup_dma_tre`. -/
def setup_dma_tre (buf len : Nat) (is_tx : Bool) : Tre := .dma buf len is_tx

/-- Result of `setup_gsi_xfer`: return value, controller state afterwards, the TX
scatterlist as far as it was filled (`sg_set_buf` calls on `xfer_tx_sg`), trace. -/
structure GsiRes where
  ret : Int
  mas : spi_geni_master
  tx_sg : List Tre
  out : List SpiEv
  deriving DecidableEq, Repr

/-- The command chosen by `setup_gsi_xfer` (and `setup_fifo_xfer`) from the buffers of the
transfer; 0 when both are null. -/
def gsi_cmd (xfer : spi_transfer) : Nat :=
  if xfer.tx_buf.isSome && xfer.rx_buf.isSome then SPI_FULL_DUPLEX
  else if xfer.tx_buf.isSome then SPI_TX_ONLY
  else if xfer.rx_buf.isSome then SPI_RX_ONLY
  else 0

/-- The `rx_len` that `setup_gsi_xfer` puts in the go TRE. -/
def gsi_rx_len (xfer : spi_transfer) (cur_word_len : Nat) : Nat :=
  if !(xfer.tx_buf.isSome && xfer.rx_buf.isSome) && xfer.tx_buf.isSome then 0
  else if cur_word_len % MIN_WORD_LEN = 0 then ((xfer.len <<< 3) % 2 ^ 32) / cur_word_len
  else xfer.len / (cur_word_len / BITS_PER_BYTE + 1)

/-- The second half of `setup_gsi_xfer`, from the computation of `rx_len` to the end: go
TRE, scatterlists, data TREs, descriptors, submission.  `c0_tre` is the config0 TRE built
by the first half (`none` is the null pointer), `out0` the trace so far. -/
def setup_gsi_xfer_chain (xfer : spi_transfer) (mas : spi_geni_master) (spi_slv : spi_device)
    (is_last : Bool) (env : GsiEnv) (c0_tre : Option Tre) (out0 : List SpiEv) : GsiRes :=
  let cmd := gsi_cmd xfer
  let rx_len := gsi_rx_len xfer mas.cur_word_len
  let cs := spi_slv.chip_select % 256
  let go_flags : Nat := if !xfer.cs_change && !is_last then FRAGMENTATION else 0
  let go_tre := setup_go_tre cmd cs rx_len go_flags
  let sg1 : List Tre := (match c0_tre with | some t => [t] | none => []) ++ [go_tre]
  if cmd &&& SPI_RX_ONLY ≠ 0 ∧ env.rx_desc_ok = false then ⟨- EIO, mas, sg1, out0⟩
  else
    let rx_sg : List Tre := [setup_dma_tre xfer.rx_dma xfer.len false]
    let mas2 : spi_geni_master :=
      if cmd &&& SPI_RX_ONLY ≠ 0 then { mas with num_rx_eot := mas.num_rx_eot + 1 } else mas
    let sg2 : List Tre :=
      if cmd &&& SPI_TX_ONLY ≠ 0 then sg1 ++ [setup_dma_tre xfer.tx_dma xfer.len true]
      else sg1
    let mas3 : spi_geni_master :=
      if cmd &&& SPI_TX_ONLY ≠ 0 then { mas2 with num_tx_eot := mas2.num_tx_eot + 1 }
      else mas2
    if env.tx_desc_ok = false then ⟨- EIO, mas3, sg2, out0⟩
    else
      ⟨0, { mas3 with num_xfers := mas3.num_xfers + 1 }, sg2,
        out0 ++ [SpiEv.submit_tx sg2] ++
          (if cmd &&& SPI_RX_ONLY ≠ 0 then [SpiEv.submit_rx rx_sg] else []) ++
          [SpiEv.issue_pending_tx] ++
          (if cmd &&& SPI_RX_ONLY ≠ 0 then [SpiEv.issue_pending_rx] else [])⟩

/-- The C function `setup_gsi_xfer`; `is_last` is
`list_is_last(&xfer->transfer_list, &spi->cur_msg->transfers)`.  Its first half: bus lock
after a GPI reset, delay parameters, config0 TRE. -/
def setup_gsi_xfer (gcfg : GeniConfig) (xfer : spi_transfer) (mas : spi_geni_master)
    (spi_slv : spi_device) (is_last : Bool) (env : GsiEnv) : GsiRes :=
  let lock : Int × List SpiEv :=
    if mas.is_le_vm && mas.le_gpi_reset_done then spi_geni_lock_bus env else (0, [])
  if lock.1 ≠ 0 then ⟨lock.1, mas, [], lock.2⟩
  else
    let mas0 : spi_geni_master :=
      if mas.is_le_vm && mas.le_gpi_reset_done then { mas with le_gpi_reset_done := false }
      else mas
    let cs_clk_delay := match spi_slv.controller_data with | some d => d.1 | none => 0
    let inter_words_delay := match spi_slv.controller_data with | some d => d.2 | none => 0
    if xfer.bits_per_word ≠ mas0.cur_word_len ∨ xfer.speed_hz ≠ mas0.cur_speed_hz then
      let mas1 : spi_geni_master :=
        { mas0 with cur_word_len := xfer.bits_per_word, cur_speed_hz := xfer.speed_hz }
      match setup_config0_tre gcfg xfer mas1 spi_slv.mode cs_clk_delay inter_words_delay
          env with
      | .error r => ⟨r, mas1, [], lock.2⟩
      | .ok c0_tre => setup_gsi_xfer_chain xfer mas1 spi_slv is_last env (some c0_tre) lock.2
    else setup_gsi_xfer_chain xfer mas0 spi_slv is_last env none lock.2

/-- The state change of `spi_geni_unprepare_message` that `setup_gsi_xfer` depends on: the
current speed and word length are forgotten at the end of every message.  (Its unmapping,
unlocking and runtime-PM calls are not modelled.) -/
def spi_geni_unprepare_message (mas : spi_geni_master) : Int × spi_geni_master :=
  (0, { mas with cur_speed_hz := 0, cur_word_len := 0 })

/-- Whether a TRE is a config0 TRE. -/
def Tre.is_config0 : Tre → Bool
  | .config0 _ _ _ _ _ _ _ => true
  | _ => false

/-! ## The GSI branch of `spi_geni_transfer_one` -/

/-- The loop `for (i = 0; i < mas->num_tx_eot; i++)` (or the one over `num_rx_eot`) of
`spi_geni_transfer_one`, over the indices in the list: whether every wait saw its
completion, and the waits made. -/
def gsi_wait_loop (ok : Nat → Bool) (ev : SpiEv) : List Nat → Bool × List SpiEv
  | [] => (true, [])
  | i :: rest =>
    if ok i then
      let r := gsi_wait_loop ok ev rest
      (r.1, ev :: r.2)
    else (false, [ev])

/-- Result of `spi_geni_transfer_one`: return value, controller state afterwards, trace. -/
structure XferRes where
  ret : Int
  mas : spi_geni_master
  out : List SpiEv
  deriving DecidableEq, Repr

/-- The label `err_gsi_geni_transfer_one` of `spi_geni_transfer_one`. -/
def err_gsi_geni_transfer_one (ret : Int) (mas : spi_geni_master) (out : List SpiEv) :
    XferRes :=
  ⟨ret, if mas.is_le_vm then { mas with le_gpi_reset_done := true } else mas,
    out ++ [SpiEv.dump_dbg_regs, SpiEv.terminate_all]⟩

/-- The C function `spi_geni_transfer_one` for a controller in GSI mode
(`mas->cur_xfer_mode == GSI_DMA`): the argument checks and the `else` branch.  `is_last` is
`list_is_last(&xfer->transfer_list, &spi->cur_msg->transfers)`. -/
def spi_geni_transfer_one_gsi (gcfg : GeniConfig) (mas : spi_geni_master) (slv : spi_device)
    (xfer : spi_transfer) (is_last : Bool) (env : GsiEnv) : XferRes :=
  if xfer.tx_buf.isNone && xfer.rx_buf.isNone then ⟨- EINVAL, mas, []⟩
  else if xfer.len < 1 then ⟨- EINVAL, mas, []⟩
  else if env.pm_suspended then ⟨- EACCES, mas, []⟩
  else
    let mas0 := { mas with num_tx_eot := 0, num_rx_eot := 0, num_xfers := 0, qn_err := false }
    let s := setup_gsi_xfer gcfg xfer mas0 slv is_last env
    if s.ret ≠ 0 then err_gsi_geni_transfer_one s.ret { s.mas with cur_xfer := none } s.out
    else if s.mas.num_xfers ≥ NUM_SPI_XFER || is_last then
      let tx := gsi_wait_loop env.tx_wait_ok SpiEv.wait_tx_cb (List.range s.mas.num_tx_eot)
      if !tx.1 then err_gsi_geni_transfer_one (- ETIMEDOUT) s.mas (s.out ++ tx.2)
      else
        let rx := gsi_wait_loop env.rx_wait_ok SpiEv.wait_rx_cb (List.range s.mas.num_rx_eot)
        if !rx.1 then err_gsi_geni_transfer_one (- ETIMEDOUT) s.mas (s.out ++ tx.2 ++ rx.2)
        else if env.qn_err then
          err_gsi_geni_transfer_one (- EIO) { s.mas with qn_err := false }
            (s.out ++ tx.2 ++ rx.2)
        else ⟨0, { s.mas with qn_err := env.qn_err }, s.out ++ tx.2 ++ rx.2⟩
    else ⟨0, s.mas, s.out⟩

/-- Modelled from the spec: the SPI core (`drivers/spi/spi.c`) hands the transfers of a
message to the controller's `transfer_one` entry point one at a time, in list order, and
stops at the first transfer that fails.  `envs` gives the collaborators' results for each
transfer. -/
def gsi_message (gcfg : GeniConfig) (slv : spi_device) (env : GsiEnv) :
    spi_geni_master → List spi_transfer → XferRes
  | mas, [] => ⟨0, mas, []⟩
  | mas, xfer :: rest =>
    let r := spi_geni_transfer_one_gsi gcfg mas slv xfer rest.isEmpty env
    if r.ret ≠ 0 then r
    else
      let r2 := gsi_message gcfg slv env r.mas rest
      ⟨r2.ret, r2.mas, r.out ++ r2.out⟩

/-- Number of TX data descriptors (data TREs with `is_tx`) submitted in a trace. -/
def tx_data_submitted : List SpiEv → Nat
  | [] => 0
  | SpiEv.submit_tx sg :: rest =>
    sg.countP (fun t => match t with | .dma _ _ true => true | _ => false)
      + tx_data_submitted rest
  | _ :: rest => tx_data_submitted rest

/-- Number of RX data descriptors submitted in a trace. -/
def rx_data_submitted : List SpiEv → Nat
  | [] => 0
  | SpiEv.submit_rx sg :: rest =>
    sg.countP (fun t => match t with | .dma _ _ false => true | _ => false)
      + rx_data_submitted rest
  | _ :: rest => rx_data_submitted rest

/-- Number of config0 TREs in the TX chains submitted in a trace. -/
def config0_submitted : List SpiEv → Nat
  | [] => 0
  | SpiEv.submit_tx sg :: rest => sg.countP Tre.is_config0 + config0_submitted rest
  | _ :: rest => config0_submitted rest

/-- Number of waits on `tx_cb` made by `spi_geni_transfer_one` in a trace. -/
def tx_waits (out : List SpiEv) : Nat := out.count SpiEv.wait_tx_cb

/-- Number of waits on `rx_cb` made by `spi_geni_transfer_one` in a trace. -/
def rx_waits (out : List SpiEv) : Nat := out.count SpiEv.wait_rx_cb

/-- A GENI configuration with distinct transfer modes. -/
def geni_config : GeniConfig where
  FIFO_MODE := 0
  SE_DMA := 1
  GSI_DMA := 2
  GSI_TX_PACK_EN := 1
  GSI_RX_PACK_EN := 2
  CLK_DIV_MSK := 0xFFF0
  CLK_DIV_SHFT := 4
  CLK_SEL_MSK := 0x7
  SER_CLK_EN := 0x1
  FIFO_IF_DISABLE := 0x1
  M_CMD_DONE_EN := 0x1
  M_CMD_CANCEL_EN := 0x10
  M_CMD_ABORT_EN := 0x20
  M_RX_FIFO_WATERMARK_EN := 0x4000000
  M_RX_FIFO_LAST_EN := 0x8000000
  M_TX_FIFO_WATERMARK_EN := 0x40000000
  TX_DMA_DONE := 0x1
  TX_RESET_DONE := 0x8
  DMA_TX_ERROR_STATUS := 0xC004
  RX_DMA_DONE := 0x1
  RX_RESET_DONE := 0x8
  DMA_RX_ERROR_STATUS := 0x8804
  RX_FIFO_WC_MSK := 0x1FFFFFF
  RX_LAST := 0x80000000
  RX_LAST_BYTE_VALID_MSK := 0x70000000
  RX_LAST_BYTE_VALID_SHFT := 28

/-- Collaborators that all succeed: descriptors are prepared, every completion arrives in
time, the clock is found (19.2 MHz source). -/
def env_ok : GsiEnv where
  lock_desc_ok := true
  lock_wait_ok := true
  clk_match_ret := 0
  clk_idx := 1
  sclk_freq := 19200000
  clk_set_rate_ret := 0
  reg_clk_sel := 1
  reg_m_clk_cfg := 0x21
  rx_desc_ok := true
  tx_desc_ok := true
  tx_wait_ok := fun _ => true
  rx_wait_ok := fun _ => true
  qn_err := false
  pm_suspended := false

/-- A GSI-mode controller at the start of a message (current speed and word length were
reset by `spi_geni_unprepare_message`). -/
def mas_gsi : spi_geni_master where
  tx_fifo_depth := 16
  tx_fifo_width := 32
  tx_wm := 1
  cur_speed_hz := 0
  cur_word_len := 0
  tx_rem_bytes := 0
  rx_rem_bytes := 0
  cur_xfer := none
  oversampling := 1
  qn_err := false
  cur_xfer_mode := 2
  num_tx_eot := 0
  num_rx_eot := 0
  num_xfers := 0
  shared_ee := false
  shared_se := false
  is_le_vm := false
  dis_autosuspend := false
  le_gpi_reset_done := false

/-- A TX-only transfer of 4 bytes, 8 bits per word, at the given speed. -/
def xfer_tx (speed_hz : Nat) : spi_transfer where
  tx_buf := some [1, 2, 3, 4]
  rx_buf := none
  len := 4
  speed_hz := speed_hz
  bits_per_word := 8
  cs_change := false
  tx_dma := 0x1000
  rx_dma := 0

/-- The SPI device on chip select 0, mode 0, without delay parameters. -/
def slv0 : spi_device where
  mode := 0
  chip_select := 0
  controller_data := none

/-- A FIFO-mode controller with a 16-word FIFO of 32 bits and watermark 1, in the middle of
a 100-byte TX transfer with the given word length. -/
def mas_fifo (cur_word_len : Nat) : spi_geni_master where
  tx_fifo_depth := 16
  tx_fifo_width := 32
  tx_wm := 1
  cur_speed_hz := 1000000
  cur_word_len := cur_word_len
  tx_rem_bytes := 100
  rx_rem_bytes := 0
  cur_xfer := some ⟨some (List.replicate 100 0xA5), none, 100, 1000000, cur_word_len, false, 0, 0⟩
  oversampling := 1
  qn_err := false
  cur_xfer_mode := 0
  num_tx_eot := 0
  num_rx_eot := 0
  num_xfers := 0
  shared_ee := false
  shared_se := false
  is_le_vm := false
  dis_autosuspend := false
  le_gpi_reset_done := false

/-! ## Observations on traces -/

/-- Slot selected in the input core after the calls of a trace, when it was `cur` before. -/
def slot_after : Option Nat → List Ev → Option Nat
  | cur, [] => cur
  | _, Ev.input (.mt_slot s) :: rest => slot_after (some s) rest
  | cur, _ :: rest => slot_after cur rest

/-- Number of UP reports for finger `f` in a trace: calls
`input_mt_report_slot_state(dev, MT_TOOL_FINGER, false)` made while slot `f` is selected
by the latest `input_mt_slot`; `cur` is the slot selected before the trace. -/
def up_reports (f : Nat) : Option Nat → List Ev → Nat
  | _, [] => 0
  | _, Ev.input (.mt_slot s) :: rest => up_reports f (some s) rest
  | cur, Ev.input (.mt_report_slot_state false) :: rest =>
    (if cur = some f then 1 else 0) + up_reports f cur rest
  | cur, _ :: rest => up_reports f cur rest

/-- A trace that consists of `input_report_key` calls only. -/
def keys_only (l : List Ev) : Prop := ∀ e ∈ l, ∃ c v, e = Ev.input (.report_key c v)


/-! ## Interrupts of the serial engine and waits on `xfer_done` -/

/-- Mask `TRANS_LEN_MSK` (`GENMASK(23, 0)`). -/
def TRANS_LEN_MSK : Nat := 0xFFFFFF
/-- Bit `CS_TOGGLE` (`BIT(1)`). -/
def CS_TOGGLE : Nat := 2

/-- The register values and FIFO contents that one run of `geni_spi_irq` reads. -/
structure IrqRegs where
  /-- The value of `pm_runtime_status_suspended(mas->dev)`. -/
  pm_suspended : Bool
  /-- Register `SE_GENI_M_IRQ_STATUS`. -/
  m_irq : Nat
  /-- Register `SE_DMA_TX_IRQ_STAT`. -/
  dma_tx_status : Nat
  /-- Register `SE_DMA_RX_IRQ_STAT`. -/
  dma_rx_status : Nat
  /-- Register `SE_DMA_RX_LEN`. -/
  dma_rx_len : Nat
  /-- Register `SE_DMA_RX_LEN_IN`. -/
  dma_rx_len_in : Nat
  /-- Register `SE_GENI_RX_FIFO_STATUS`. -/
  rx_fifo_status : Nat
  /-- The words read from `SE_GENI_RX_FIFOn`, each as its bytes in memory order. -/
  rx_fifo : List (List Nat)
  deriving DecidableEq, Repr

/-- The loop `while (i < rx_bytes)` of `geni_spi_handle_rx`: the bytes stored into `rx_buf`;
`k` counts the FIFO words read so far, `fuel` bounds the number of iterations. -/
def geni_spi_handle_rx_loop (bytes_per_fifo rx_bytes : Int) (rx_fifo : List (List Nat)) :
    Nat → Int → Nat → List Nat
  | 0, _, _ => []
  | fuel + 1, i, k =>
    if i < rx_bytes then
      let read_bytes := min (rx_bytes - i) bytes_per_fifo
      ((List.range read_bytes.toNat).map (fun j => ((rx_fifo.getD k []).getD j 0))) ++
        geni_spi_handle_rx_loop bytes_per_fifo rx_bytes rx_fifo fuel (i + read_bytes) (k + 1)
    else []

/-- The value of `rx_bytes` when `geni_spi_handle_rx` enters its read loop: the word count
of the FIFO status, the adjustment for a partial last word, the branch on
`tx_fifo_width % cur_word_len`, then `min_t(int, mas->rx_rem_bytes, rx_bytes)`. -/
def geni_spi_handle_rx_bytes (gcfg : GeniConfig) (mas : spi_geni_master) (regs : IrqRegs) :
    Int :=
  let fifo_width : Int := ((mas.tx_fifo_width >>> 3 : Nat) : Int)
  let rx_fifo_status := regs.rx_fifo_status % 2 ^ 32
  let rx_wc0 : Int := s32 ((rx_fifo_status &&& gcfg.RX_FIFO_WC_MSK : Nat) : Int)
  let rx_last_byte_valid : Int :=
    s32 (((rx_fifo_status &&& gcfg.RX_LAST_BYTE_VALID_MSK) >>> gcfg.RX_LAST_BYTE_VALID_SHFT
      : Nat) : Int)
  let adjust : Bool := decide (rx_fifo_status &&& gcfg.RX_LAST ≠ 0) &&
    decide (rx_last_byte_valid ≠ 0) && decide (rx_last_byte_valid < 4)
  let rx_wc : Int := if adjust then rx_wc0 - 1 else rx_wc0
  let rx_bytes0 : Int := if adjust then rx_last_byte_valid else 0
  let rx_bytes1 : Int :=
    if mas.tx_fifo_width % mas.cur_word_len = 0 then rx_bytes0 + rx_wc * fifo_width
    else rx_bytes0 + rx_wc * ((mas.cur_word_len / BITS_PER_BYTE + 1 : Nat) : Int)
  min (s32 mas.rx_rem_bytes) rx_bytes1

/-- The C function `geni_spi_handle_rx`. -/
def geni_spi_handle_rx (gcfg : GeniConfig) (mas : spi_geni_master) (regs : IrqRegs) :
    spi_geni_master × List SpiEv :=
  match mas.cur_xfer with
  | none => (mas, [])
  | some cur_xfer =>
    let rx_bytes := geni_spi_handle_rx_bytes gcfg mas regs
    let stored := geni_spi_handle_rx_loop (geni_spi_handle_tx_bytes_per_fifo mas) rx_bytes
      regs.rx_fifo rx_bytes.toNat 0 0
    ({ mas with rx_rem_bytes := u32 ((mas.rx_rem_bytes : Int) - rx_bytes) },
      if cur_xfer.rx_buf.isSome ∧ stored ≠ [] then
        [SpiEv.rx_buf_store (cur_xfer.len - mas.rx_rem_bytes) stored]
      else [])

/-- The C function `handle_dma_xfer` (the writes that acknowledge the interrupt status are not
recorded). -/
def handle_dma_xfer (gcfg : GeniConfig) (dma_tx_status dma_rx_status : Nat) (regs : IrqRegs)
    (mas : spi_geni_master) : spi_geni_master :=
  if dma_tx_status ≠ 0 ∧ dma_tx_status &&& gcfg.DMA_TX_ERROR_STATUS ≠ 0 then
    { mas with is_dma_err := true, cmd_done := true }
  else if dma_tx_status ≠ 0 ∧ dma_tx_status &&& gcfg.TX_RESET_DONE ≠ 0 then
    { mas with cmd_done := true }
  else
    let mas1 : spi_geni_master :=
      if dma_tx_status ≠ 0 ∧ dma_tx_status &&& gcfg.TX_DMA_DONE ≠ 0 then
        { mas with tx_rem_bytes := 0 }
      else mas
    if dma_rx_status ≠ 0 ∧ dma_rx_status &&& gcfg.DMA_RX_ERROR_STATUS ≠ 0 then
      { mas1 with is_dma_err := true, cmd_done := true }
    else if dma_rx_status ≠ 0 ∧ dma_rx_status &&& gcfg.RX_RESET_DONE ≠ 0 then
      { mas1 with cmd_done := true }
    else
      let mas2 : spi_geni_master :=
        if dma_rx_status ≠ 0 ∧ dma_rx_status &&& gcfg.RX_DMA_DONE ≠ 0 then
          if regs.dma_rx_len % 2 ^ 32 ≠ regs.dma_rx_len_in % 2 ^ 32 then
            { mas1 with
              cmd_done := true,
              rx_rem_bytes := u32 ((regs.dma_rx_len : Int) - regs.dma_rx_len_in),
              is_dma_err := true }
          else { mas1 with cmd_done := true, rx_rem_bytes := 0 }
        else mas1
      if mas2.tx_rem_bytes = 0 ∧ mas2.rx_rem_bytes = 0 then { mas2 with cmd_done := true }
      else mas2

/-- Result of one run of `geni_spi_irq`: whether it called `complete(&mas->xfer_done)`, the
controller state afterwards, trace. -/
structure IrqOut where
  completed : Bool
  mas : spi_geni_master
  out : List SpiEv
  deriving DecidableEq, Repr

/-- The branch `mas->cur_xfer_mode == FIFO_MODE` of `geni_spi_irq`. -/
def geni_spi_irq_fifo (gcfg : GeniConfig) (mas : spi_geni_master) (regs : IrqRegs) :
    spi_geni_master × List SpiEv :=
  let m_irq := regs.m_irq % 2 ^ 32
  let rx : spi_geni_master × List SpiEv :=
    if m_irq &&& gcfg.M_RX_FIFO_WATERMARK_EN ≠ 0 ∨ m_irq &&& gcfg.M_RX_FIFO_LAST_EN ≠ 0 then
      geni_spi_handle_rx gcfg mas regs
    else (mas, [])
  let tx : spi_geni_master × List SpiEv :=
    if m_irq &&& gcfg.M_TX_FIFO_WATERMARK_EN ≠ 0 then geni_spi_handle_tx rx.1
    else (rx.1, [])
  if m_irq &&& gcfg.M_CMD_DONE_EN ≠ 0 ∨ m_irq &&& gcfg.M_CMD_CANCEL_EN ≠ 0 ∨
      m_irq &&& gcfg.M_CMD_ABORT_EN ≠ 0 then
    ({ tx.1 with cmd_done := true },
      rx.2 ++ tx.2 ++ (if tx.1.tx_rem_bytes ≠ 0 then [SpiEv.tx_watermark_clear] else []))
  else (tx.1, rx.2 ++ tx.2)

/-- The branch `mas->cur_xfer_mode == SE_DMA` of `geni_spi_irq`. -/
def geni_spi_irq_dma (gcfg : GeniConfig) (mas : spi_geni_master) (regs : IrqRegs) :
    spi_geni_master :=
  let m_irq := regs.m_irq % 2 ^ 32
  let m := handle_dma_xfer gcfg (regs.dma_tx_status % 2 ^ 32) (regs.dma_rx_status % 2 ^ 32)
    regs mas
  if m_irq &&& gcfg.M_CMD_CANCEL_EN ≠ 0 ∨ m_irq &&& gcfg.M_CMD_ABORT_EN ≠ 0 then
    { m with cmd_done := true }
  else m

/-- The part of `geni_spi_irq` before the label `exit_geni_spi_irq`. -/
def geni_spi_irq_body (gcfg : GeniConfig) (mas : spi_geni_master) (regs : IrqRegs) :
    spi_geni_master × List SpiEv :=
  if regs.pm_suspended then (mas, [])
  else if mas.cur_xfer_mode = gcfg.FIFO_MODE then geni_spi_irq_fifo gcfg mas regs
  else if mas.cur_xfer_mode = gcfg.SE_DMA then (geni_spi_irq_dma gcfg mas regs, [])
  else (mas, [])

/-- The C function `geni_spi_irq` (the write that clears the interrupt status is not
recorded). -/
def geni_spi_irq (gcfg : GeniConfig) (mas : spi_geni_master) (regs : IrqRegs) : IrqOut :=
  let r := geni_spi_irq_body gcfg mas regs
  if r.1.cmd_done then ⟨true, { r.1 with cmd_done := false }, r.2⟩
  else ⟨false, r.1, r.2⟩

/-- Result of a wait on `xfer_done`: whether the completion arrived before the timeout, the
controller state when the wait returns, trace. -/
structure WaitRes where
  done : Bool
  mas : spi_geni_master
  out : List SpiEv
  deriving DecidableEq, Repr

/-- The interrupts handled while a caller sleeps in
`wait_for_completion_timeout(&mas->xfer_done, ...)` after a `reinit_completion`: they are
served by `geni_spi_irq` in order; the wait ends at the first one that calls
`complete(&mas->xfer_done)`, and it times out when none of them does. -/
def xfer_done_irqs (gcfg : GeniConfig) : spi_geni_master → List IrqRegs → WaitRes
  | mas, [] => ⟨false, mas, []⟩
  | mas, regs :: rest =>
    let r := geni_spi_irq gcfg mas regs
    if r.completed then ⟨true, r.mas, r.out⟩
    else
      let w := xfer_done_irqs gcfg r.mas rest
      ⟨w.done, w.mas, r.out ++ w.out⟩

/-- One `reinit_completion(&mas->xfer_done)` ... `wait_for_completion_timeout(&mas->xfer_done,
...)` pair; `irqs` are the interrupts raised in between. -/
def wait_xfer_done (gcfg : GeniConfig) (mas : spi_geni_master) (irqs : List IrqRegs) :
    WaitRes :=
  let w := xfer_done_irqs gcfg mas irqs
  ⟨w.done, w.mas, w.out ++ [SpiEv.wait_xfer_done w.done]⟩

/-! ## The FIFO / SE-DMA branch of `spi_geni_transfer_one` -/

/-- Results of the collaborators of the FIFO / SE-DMA branch of `spi_geni_transfer_one` for
one transfer, on top of those of the clock lookup. -/
structure FifoEnv extends GsiEnv where
  /-- Value of register `SE_SPI_TRANS_CFG`. -/
  reg_trans_cfg : Nat
  /-- Return value of `geni_se_rx_dma_prep`. -/
  rx_dma_prep_ret : Int
  /-- The address that a successful `geni_se_rx_dma_prep` stores in `xfer->rx_dma`. -/
  rx_dma_addr : Nat
  /-- Return value of `geni_se_tx_dma_prep`. -/
  tx_dma_prep_ret : Int
  /-- The address that a successful `geni_se_tx_dma_prep` stores in `xfer->tx_dma`. -/
  tx_dma_addr : Nat
  /-- Interrupts raised while `spi_geni_transfer_one` waits for the transfer. -/
  irqs_xfer : List IrqRegs
  /-- Value of register `SE_DMA_TX_IRQ_STAT` read after a timeout. -/
  dma_tx_irq_stat : Nat
  /-- Value of register `SE_DMA_RX_IRQ_STAT` read after a timeout. -/
  dma_rx_irq_stat : Nat
  /-- Value of register `SE_GENI_RX_FIFO_STATUS` read by `handle_fifo_timeout`. -/
  rx_fifo_status : Nat
  /-- Interrupts raised while `handle_fifo_timeout` waits after the cancel. -/
  irqs_cancel : List IrqRegs
  /-- Interrupts raised while `handle_fifo_timeout` waits after the abort. -/
  irqs_abort : List IrqRegs
  /-- Interrupts raised while `geni_spi_dma_unprepare` waits after the TX FSM reset. -/
  irqs_tx_rst : List IrqRegs
  /-- Interrupts raised while `geni_spi_dma_unprepare` waits after the RX FSM reset. -/
  irqs_rx_rst : List IrqRegs
  /-- Interrupts raised while `geni_spi_dma_unprepare` waits after the abort of a slave. -/
  irqs_slv_abort : List IrqRegs

/-- Result of `setup_fifo_xfer`: return value, controller state and transfer afterwards
(`xfer->tx_dma` and `xfer->rx_dma` are written), trace. -/
structure FifoSetupRes where
  ret : Int
  mas : spi_geni_master
  xfer : spi_transfer
  out : List SpiEv
  deriving DecidableEq, Repr

/-- The `trans_len` that `setup_fifo_xfer` computes: the number of SPI words of the
transfer. -/
def fifo_trans_len (xfer : spi_transfer) (cur_word_len : Nat) : Nat :=
  if cur_word_len % MIN_WORD_LEN = 0 then
    (((xfer.len <<< 3) % 2 ^ 32) / cur_word_len) &&& TRANS_LEN_MSK
  else (xfer.len / (cur_word_len / BITS_PER_BYTE + 1)) &&& TRANS_LEN_MSK

/-- The second half of `setup_fifo_xfer`, from `mas->tx_rem_bytes = 0` to the end; `mas` is
the state and `out0` the trace after the word-length and clock set-up. -/
def setup_fifo_xfer_cmd (gcfg : GeniConfig) (xfer : spi_transfer) (mas : spi_geni_master)
    (slave is_last : Bool) (env : FifoEnv) (out0 : List SpiEv) : FifoSetupRes :=
  let m_cmd := gsi_cmd xfer
  let spi_tx_cfg := if !slave then (env.reg_trans_cfg % 2 ^ 32) &&& NOT32 CS_TOGGLE
    else env.reg_trans_cfg % 2 ^ 32
  let trans_len := fifo_trans_len xfer mas.cur_word_len
  let m_param : Nat := if !xfer.cs_change && !is_last then FRAGMENTATION else 0
  let tx : Bool := m_cmd &&& SPI_TX_ONLY ≠ 0
  let rx : Bool := m_cmd &&& SPI_RX_ONLY ≠ 0
  let fifo_size := (mas.tx_fifo_depth * mas.tx_fifo_width / mas.cur_word_len) % 2 ^ 32
  let mode1 : Int := if slave then gcfg.SE_DMA else mas.cur_xfer_mode
  let mode : Int := if mas.disable_dma ∨ trans_len ≤ fifo_size then gcfg.FIFO_MODE else mode1
  let mas1 : spi_geni_master :=
    { mas with
      tx_rem_bytes := if tx then xfer.len else 0,
      rx_rem_bytes := if rx then xfer.len else 0,
      cur_xfer_mode := mode }
  let out1 : List SpiEv := out0 ++
    (if tx then [SpiEv.write_reg .SE_SPI_TX_TRANS_LEN trans_len] else []) ++
    (if rx then [SpiEv.write_reg .SE_SPI_RX_TRANS_LEN trans_len] else []) ++
    [SpiEv.select_mode mode] ++
    (if !slave then [SpiEv.write_reg .SE_SPI_TRANS_CFG spi_tx_cfg] else []) ++
    [SpiEv.setup_m_cmd m_cmd m_param]
  if rx ∧ mode = gcfg.SE_DMA ∧ (env.rx_dma_prep_ret ≠ 0 ∨ xfer.rx_buf.isNone) then
    let xfer1 := { xfer with rx_dma := 0 }
    ⟨env.rx_dma_prep_ret, { mas1 with cur_xfer := some xfer1 }, xfer1,
      out1 ++ [SpiEv.rx_dma_prep xfer.len env.rx_dma_prep_ret]⟩
  else
    let xfer1 : spi_transfer :=
      if rx ∧ mode = gcfg.SE_DMA then { xfer with rx_dma := env.rx_dma_addr } else xfer
    let out2 : List SpiEv := out1 ++
      (if rx ∧ mode = gcfg.SE_DMA then [SpiEv.rx_dma_prep xfer.len env.rx_dma_prep_ret]
       else [])
    if tx ∧ mode = gcfg.FIFO_MODE then
      ⟨0, { mas1 with cur_xfer := some xfer1 }, xfer1,
        out2 ++ [SpiEv.write_reg .SE_GENI_TX_WATERMARK_REG mas.tx_wm]⟩
    else if tx ∧ mode = gcfg.SE_DMA then
      if env.tx_dma_prep_ret ≠ 0 ∨ xfer.tx_buf.isNone then
        let xfer2 := { xfer1 with tx_dma := 0 }
        ⟨env.tx_dma_prep_ret, { mas1 with cur_xfer := some xfer2 }, xfer2,
          out2 ++ [SpiEv.tx_dma_prep xfer.len env.tx_dma_prep_ret]⟩
      else
        let xfer2 := { xfer1 with tx_dma := env.tx_dma_addr }
        ⟨0, { mas1 with cur_xfer := some xfer2 }, xfer2,
          out2 ++ [SpiEv.tx_dma_prep xfer.len env.tx_dma_prep_ret]⟩
    else ⟨0, { mas1 with cur_xfer := some xfer1 }, xfer1, out2⟩

/-- The part of `setup_fifo_xfer` that programs the clock when the speed of the transfer
differs from the current one, followed by the rest of the function; `mas` is the state and
`out0` the trace after the word-length set-up. -/
def setup_fifo_xfer_clk (gcfg : GeniConfig) (xfer : spi_transfer) (mas : spi_geni_master)
    (slave is_last : Bool) (env : FifoEnv) (out0 : List SpiEv) : FifoSetupRes :=
  if xfer.speed_hz ≠ mas.cur_speed_hz then
    let c := get_spi_clk_cfg xfer.speed_hz mas env.toGsiEnv
    if c.1 ≠ 0 then ⟨c.1, mas, xfer, out0⟩
    else
      let clk_sel := u32 c.2.1 &&& gcfg.CLK_SEL_MSK
      let m_clk_cfg := (((u32 c.2.2) <<< gcfg.CLK_DIV_SHFT) % 2 ^ 32) ||| gcfg.SER_CLK_EN
      setup_fifo_xfer_cmd gcfg xfer { mas with cur_speed_hz := xfer.speed_hz } slave is_last
        env (out0 ++ [SpiEv.write_reg .SE_GENI_CLK_SEL clk_sel,
          SpiEv.write_reg .GENI_SER_M_CLK_CFG m_clk_cfg])
  else setup_fifo_xfer_cmd gcfg xfer mas slave is_last env out0

/-- The C function `setup_fifo_xfer`; `slave` is `spi->slave`, `is_last` is
`list_is_last(&xfer->transfer_list, &spi->cur_msg->transfers)`.  Its first step: the word
length of the transfer.  `mas->cur_xfer` points to the transfer, so it shows the DMA
addresses that the function stores in it. -/
def setup_fifo_xfer (gcfg : GeniConfig) (xfer : spi_transfer) (mas : spi_geni_master)
    (mode : Nat) (slave is_last : Bool) (env : FifoEnv) : FifoSetupRes :=
  if xfer.bits_per_word ≠ mas.cur_word_len then
    setup_fifo_xfer_clk gcfg xfer { mas with cur_word_len := xfer.bits_per_word } slave is_last
      env [SpiEv.setup_word_len mode xfer.bits_per_word]
  else setup_fifo_xfer_clk gcfg xfer mas slave is_last env []

/-- The C function `geni_spi_dma_unprepare`. -/
def geni_spi_dma_unprepare (gcfg : GeniConfig) (slave : Bool) (mas : spi_geni_master)
    (xfer : spi_transfer) (env : FifoEnv) : spi_geni_master × List SpiEv :=
  if mas.cur_xfer_mode = gcfg.SE_DMA then
    let tx : Bool := xfer.tx_buf.isSome && xfer.tx_dma != 0
    let rx : Bool := xfer.rx_buf.isSome && xfer.rx_dma != 0
    let w1 : spi_geni_master × List SpiEv :=
      if tx then
        let w := wait_xfer_done gcfg mas env.irqs_tx_rst
        (w.mas, SpiEv.write_reg .SE_DMA_TX_FSM_RST 1 :: w.out)
      else (mas, [])
    let w2 : spi_geni_master × List SpiEv :=
      if rx then
        let w := wait_xfer_done gcfg w1.1 env.irqs_rx_rst
        (w.mas, SpiEv.write_reg .SE_DMA_RX_FSM_RST 1 :: w.out)
      else (w1.1, [])
    let w3 : spi_geni_master × List SpiEv :=
      if slave && w2.1.is_dma_not_done then
        let w := wait_xfer_done gcfg { w2.1 with is_dma_not_done := false } env.irqs_slv_abort
        (w.mas, SpiEv.abort_m_cmd :: w.out)
      else (w2.1, [])
    (w3.1, w1.2 ++ w2.2 ++ w3.2 ++
      (if tx then [SpiEv.tx_dma_unprep xfer.tx_dma xfer.len] else []) ++
      (if rx then [SpiEv.rx_dma_unprep xfer.rx_dma xfer.len] else []))
  else (mas, [])

/-- The C function `handle_fifo_timeout`. -/
def handle_fifo_timeout (gcfg : GeniConfig) (slave : Bool) (mas : spi_geni_master)
    (xfer : spi_transfer) (env : FifoEnv) : spi_geni_master × List SpiEv :=
  let out0 : List SpiEv := SpiEv.dump_dbg_regs ::
    (if mas.cur_xfer_mode = gcfg.FIFO_MODE then [SpiEv.tx_watermark_clear] else [])
  if slave then
    let u := geni_spi_dma_unprepare gcfg slave mas xfer env
    (u.1, out0 ++ u.2 ++
      (if !mas.dis_autosuspend then [SpiEv.pm_runtime_put_sync_suspend] else []))
  else
    let rx_wc : Int := s32 (((env.rx_fifo_status % 2 ^ 32) &&& gcfg.RX_FIFO_WC_MSK : Nat) : Int)
    let dummy : List SpiEv :=
      if xfer.rx_buf.isSome then List.replicate rx_wc.toNat SpiEv.rx_fifo_dummy_read else []
    let w1 := wait_xfer_done gcfg mas env.irqs_cancel
    if !w1.done then
      let w2 := wait_xfer_done gcfg w1.mas env.irqs_abort
      let u := geni_spi_dma_unprepare gcfg slave w2.mas xfer env
      (u.1, out0 ++ dummy ++ SpiEv.cancel_m_cmd :: w1.out ++ SpiEv.abort_m_cmd :: w2.out ++ u.2)
    else
      let u := geni_spi_dma_unprepare gcfg slave w1.mas xfer env
      (u.1, out0 ++ dummy ++ SpiEv.cancel_m_cmd :: w1.out ++ u.2)

/-- Result of `spi_geni_transfer_one`: return value, controller state and transfer
afterwards, trace. -/
structure FifoXferRes where
  ret : Int
  mas : spi_geni_master
  xfer : spi_transfer
  out : List SpiEv
  deriving DecidableEq, Repr

/-- The wait of `spi_geni_transfer_one` for the transfer that `setup_fifo_xfer` started, with
the updates of `mas->slave_state` around it; `mas` is the state after the set-up. -/
def spi_geni_transfer_one_wait (gcfg : GeniConfig) (slave : Bool) (mas : spi_geni_master)
    (env : FifoEnv) : WaitRes :=
  let mas1 : spi_geni_master := if slave then { mas with slave_state := true } else mas
  let w := wait_xfer_done gcfg mas1 env.irqs_xfer
  ⟨w.done, if slave then { w.mas with slave_state := false } else w.mas, w.out⟩

/-- The C function `spi_geni_transfer_one` for a controller that is not in GSI mode
(`mas->cur_xfer_mode != GSI_DMA`): the argument checks and the `if` branch, with the label
`err_fifo_geni_transfer_one`.  The length of the timeout is not modelled: the interrupts of
`env.irqs_xfer` are those raised before it expires. -/
def spi_geni_transfer_one_fifo (gcfg : GeniConfig) (slave : Bool) (mas : spi_geni_master)
    (slv : spi_device) (xfer : spi_transfer) (is_last : Bool) (env : FifoEnv) : FifoXferRes :=
  if xfer.tx_buf.isNone && xfer.rx_buf.isNone then ⟨- EINVAL, mas, xfer, []⟩
  else if xfer.len < 1 then ⟨- EINVAL, mas, xfer, []⟩
  else if env.pm_suspended then ⟨- EACCES, mas, xfer, []⟩
  else
    let s := setup_fifo_xfer gcfg xfer mas slv.mode slave is_last env
    if s.ret ≠ 0 then
      let h := handle_fifo_timeout gcfg slave { s.mas with cur_xfer := none } s.xfer env
      ⟨s.ret, h.1, s.xfer, s.out ++ h.2⟩
    else
      let w := spi_geni_transfer_one_wait gcfg slave s.mas env
      if !w.done then
        let dma_tx_status := env.dma_tx_irq_stat % 2 ^ 32
        let dma_rx_status := env.dma_rx_irq_stat % 2 ^ 32
        let mas3 : spi_geni_master :=
          if dma_tx_status &&& gcfg.TX_DMA_DONE ≠ gcfg.TX_DMA_DONE ∧
              dma_rx_status &&& gcfg.RX_DMA_DONE ≠ gcfg.RX_DMA_DONE then
            { w.mas with is_dma_not_done := true }
          else w.mas
        let h := handle_fifo_timeout gcfg slave { mas3 with cur_xfer := none } s.xfer env
        ⟨- ETIMEDOUT, h.1, s.xfer, s.out ++ w.out ++ h.2⟩
      else if w.mas.is_dma_err then
        let h := handle_fifo_timeout gcfg slave
          { w.mas with is_dma_err := false, cur_xfer := none } s.xfer env
        ⟨s.ret, h.1, s.xfer, s.out ++ w.out ++ h.2⟩
      else
        ⟨s.ret, w.mas, s.xfer, s.out ++ w.out ++
          (if w.mas.cur_xfer_mode = gcfg.SE_DMA then
            (if s.xfer.tx_buf.isSome then [SpiEv.tx_dma_unprep s.xfer.tx_dma s.xfer.len]
             else []) ++
            (if s.xfer.rx_buf.isSome then [SpiEv.rx_dma_unprep s.xfer.rx_dma s.xfer.len]
             else [])
           else [])⟩

/-- An interrupt in which no status bit is set. -/
def irq_none : IrqRegs where
  pm_suspended := false
  m_irq := 0
  dma_tx_status := 0
  dma_rx_status := 0
  dma_rx_len := 0
  dma_rx_len_in := 0
  rx_fifo_status := 0
  rx_fifo := []

/-- The interrupt of a finished DMA transfer: `TX_DMA_DONE` and `RX_DMA_DONE`, all `len`
bytes received. -/
def irq_dma_done (len : Nat) : IrqRegs :=
  { irq_none with dma_tx_status := 0x1, dma_rx_status := 0x1, dma_rx_len := len,
                  dma_rx_len_in := len }

/-- The interrupt of a TX DMA bus error (`TX_SBE`, one of the bits of
`DMA_TX_ERROR_STATUS`). -/
def irq_dma_tx_err : IrqRegs := { irq_none with dma_tx_status := 0x4 }

/-- The interrupt of a finished RX DMA that received `got` bytes where `len` were
programmed. -/
def irq_dma_rx_short (len got : Nat) : IrqRegs :=
  { irq_none with dma_tx_status := 0x1, dma_rx_status := 0x1, dma_rx_len := len,
                  dma_rx_len_in := got }

/-- The interrupt that reports a finished cancel (`M_CMD_CANCEL_EN`). -/
def irq_cancel_done : IrqRegs := { irq_none with m_irq := 0x10 }

/-- The interrupt that reports a finished abort (`M_CMD_ABORT_EN`). -/
def irq_abort_done : IrqRegs := { irq_none with m_irq := 0x20 }

/-- The interrupt that reports a finished reset of both DMA state machines. -/
def irq_reset_done : IrqRegs := { irq_none with dma_tx_status := 0x8, dma_rx_status := 0x8 }

/-- Collaborators of a transfer in which both DMA mappings succeed and the resets of the
error path complete; `irqs_xfer`, `irqs_cancel` and `irqs_abort` are the interrupts seen by
the three waits of the transfer. -/
def env_fifo (irqs_xfer irqs_cancel irqs_abort : List IrqRegs) : FifoEnv :=
  { env_ok with
    reg_trans_cfg := 0
    rx_dma_prep_ret := 0
    rx_dma_addr := 0x2000
    tx_dma_prep_ret := 0
    tx_dma_addr := 0x1000
    irqs_xfer := irqs_xfer
    dma_tx_irq_stat := 0
    dma_rx_irq_stat := 0
    rx_fifo_status := 0
    irqs_cancel := irqs_cancel
    irqs_abort := irqs_abort
    irqs_tx_rst := [irq_reset_done]
    irqs_rx_rst := [irq_reset_done]
    irqs_slv_abort := [irq_abort_done] }

/-- A controller as `spi_geni_prepare_message` leaves it when the FIFO interface is enabled:
mode `SE_DMA`, 8 bits per word at 1 MHz, a FIFO of 16 words of 32 bits (64 SPI words). -/
def mas_se_dma : spi_geni_master :=
  { mas_gsi with cur_xfer_mode := 1, cur_speed_hz := 1000000, cur_word_len := 8 }

/-- A full-duplex transfer of 256 bytes, 8 bits per word at 1 MHz, whose DMA addresses are
`tx_dma` and `rx_dma` on entry. -/
def xfer_duplex (tx_dma rx_dma : Nat) : spi_transfer where
  tx_buf := some (List.replicate 256 0x5A)
  rx_buf := some (List.replicate 256 0)
  len := 256
  speed_hz := 1000000
  bits_per_word := 8
  cs_change := false
  tx_dma := tx_dma
  rx_dma := rx_dma

/-- Whether a trace entry is a software cancel or a hardware abort of the main command. -/
def SpiEv.is_cancel_or_abort : SpiEv → Bool
  | .cancel_m_cmd => true
  | .abort_m_cmd => true
  | _ => false

/-- Whether a trace entry is a wait on `xfer_done`. -/
def SpiEv.is_wait : SpiEv → Bool
  | .wait_xfer_done _ => true
  | _ => false

/-- A trace without cancel, abort and wait entries. -/
def quiet (l : List SpiEv) : Prop := ∀ e ∈ l, e.is_cancel_or_abort = false ∧ e.is_wait = false

/-- A trace without cancel and abort entries. -/
def no_cancel_abort (l : List SpiEv) : Prop := ∀ e ∈ l, e.is_cancel_or_abort = false

/-- Number of successful `geni_se_tx_dma_prep` calls in a trace. -/
def tx_prepared (out : List SpiEv) : Nat :=
  out.countP (fun e => match e with | .tx_dma_prep _ 0 => true | _ => false)

/-- Number of successful `geni_se_rx_dma_prep` calls in a trace. -/
def rx_prepared (out : List SpiEv) : Nat :=
  out.countP (fun e => match e with | .rx_dma_prep _ 0 => true | _ => false)

/-- Number of `geni_se_tx_dma_unprep` calls in a trace. -/
def tx_unprepared (out : List SpiEv) : Nat :=
  out.countP (fun e => match e with | .tx_dma_unprep _ _ => true | _ => false)

/-- Number of `geni_se_rx_dma_unprep` calls in a trace. -/
def rx_unprepared (out : List SpiEv) : Nat :=
  out.countP (fun e => match e with | .rx_dma_unprep _ _ => true | _ => false)

/-- The C function `spi_geni_transfer_one`: the argument checks come first on both branches,
then the branch on `mas->cur_xfer_mode != GSI_DMA`. -/
def spi_geni_transfer_one (gcfg : GeniConfig) (slave : Bool) (mas : spi_geni_master)
    (slv : spi_device) (xfer : spi_transfer) (is_last : Bool) (env : FifoEnv) : FifoXferRes :=
  if mas.cur_xfer_mode ≠ gcfg.GSI_DMA then
    spi_geni_transfer_one_fifo gcfg slave mas slv xfer is_last env
  else
    let r := spi_geni_transfer_one_gsi gcfg mas slv xfer is_last env.toGsiEnv
    ⟨r.ret, r.mas, xfer, r.out⟩

/-- Error number `ENOMEM`. -/
def ENOMEM : Int := 12

/-- The collaborators of a transfer whose RX DMA mapping fails with `-ENOMEM`. -/
def env_fifo_rx_prep_fails : FifoEnv :=
  { env_fifo [] [irq_cancel_done] [] with rx_dma_prep_ret := - ENOMEM }

/-- First use of a full-duplex `spi_transfer` whose DMA addresses are zero: the DMA transfer
completes. -/
def first_use : FifoXferRes :=
  spi_geni_transfer_one geni_config false mas_se_dma slv0 (xfer_duplex 0 0) true
    (env_fifo [irq_dma_done 256] [] [])

/-- Second use of the same `spi_transfer`, as the first use left it, in a later message: the
RX DMA mapping fails. -/
def second_use : FifoXferRes :=
  spi_geni_transfer_one geni_config false mas_se_dma slv0 first_use.xfer true
    env_fifo_rx_prep_fails

/-! ## `select_xfer_mode` and `spi_geni_prepare_message` -/

/-- Mask `LOOPBACK_MSK` (`GENMASK(1, 0)`). -/
def LOOPBACK_MSK : Nat := 3
/-- Value `LOOPBACK_ENABLE`. -/
def LOOPBACK_ENABLE : Nat := 1
/-- Register bit `CPOL` (`BIT(2)`). -/
def CPOL : Nat := 4
/-- Register bit `CPHA` (`BIT(0)`). -/
def CPHA : Nat := 1
/-- Mode bit `SPI_CS_HIGH` (`linux/spi/spi.h`). -/
def SPI_CS_HIGH : Nat := 0x04
/-- Mask `SPI_INTER_WORDS_DELAY_MSK` (`GENMASK(9, 0)`). -/
def SPI_INTER_WORDS_DELAY_MSK : Nat := 0x3FF
/-- Mask `SPI_CS_CLK_DELAY_MSK` (`GENMASK(19, 10)`). -/
def SPI_CS_CLK_DELAY_MSK : Nat := 0xFFC00
/-- Shift `SPI_CS_CLK_DELAY_SHFT`. -/
def SPI_CS_CLK_DELAY_SHFT : Nat := 10

/-- Results of the collaborators of `spi_geni_prepare_message` for one message, on top of
those of the bus lock and of the clock lookup. -/
structure PrepEnv extends GsiEnv where
  /-- Value of `pm_runtime_enabled(mas->dev)` in the `shared_ee` block. -/
  pm_enabled_shared : Bool
  /-- Return value of `pm_runtime_get_sync(mas->dev)` in the `shared_ee` block. -/
  pm_get_sync_ret_shared : Int
  /-- Value of `pm_runtime_enabled(mas->dev)` when the device is found suspended. -/
  pm_enabled : Bool
  /-- Return value of `pm_runtime_get_sync(mas->dev)` when the device is found suspended. -/
  pm_get_sync_ret : Int
  /-- Value of register `GENI_IF_FIFO_DISABLE_RO`. -/
  reg_fifo_disable : Nat
  /-- Return value of the `k`-th call of `geni_se_iommu_map_buf`. -/
  iommu_map_ret : Nat → Int
  /-- The address that the `k`-th call of `geni_se_iommu_map_buf` stores. -/
  iommu_map_addr : Nat → Nat
  /-- Value of register `SE_SPI_LOOPBACK`. -/
  reg_loopback : Nat
  /-- Value of register `SE_SPI_CPOL`. -/
  reg_cpol : Nat
  /-- Value of register `SE_SPI_CPHA`. -/
  reg_cpha : Nat

/-- The local `fifo_disable` of `select_xfer_mode`: the register value masked with
`FIFO_IF_DISABLE`, as an `int`. -/
def fifo_disable (gcfg : GeniConfig) (reg_fifo_disable : Nat) : Int :=
  s32 (((reg_fifo_disable % 2 ^ 32) &&& gcfg.FIFO_IF_DISABLE : Nat) : Int)

/-- The local `dma_chan_valid` of `select_xfer_mode`. -/
def dma_chan_valid (mas : spi_geni_master) : Bool :=
  !(!mas.tx_chan_valid || !mas.rx_chan_valid)

/-- The C function `select_xfer_mode`. -/
def select_xfer_mode (gcfg : GeniConfig) (mas : spi_geni_master) (reg_fifo_disable : Nat) :
    Int :=
  if fifo_disable gcfg reg_fifo_disable ≠ 0 ∧ dma_chan_valid mas = false then - EINVAL
  else if fifo_disable gcfg reg_fifo_disable = 0 then gcfg.SE_DMA
  else if dma_chan_valid mas then gcfg.GSI_DMA
  else gcfg.SE_DMA

/-- The C function `spi_geni_map_buf`, over the transfers that are left; `k` counts the calls
of `geni_se_iommu_map_buf` made so far.  It returns the error of the first mapping that
fails, and the transfers with the addresses stored so far. -/
def spi_geni_map_buf (env : PrepEnv) : List spi_transfer → Nat → Int × List spi_transfer
  | [], _ => (0, [])
  | xfer :: rest, k =>
    if xfer.rx_buf.isSome ∧ env.iommu_map_ret k ≠ 0 then (env.iommu_map_ret k, xfer :: rest)
    else
      let x1 : spi_transfer :=
        if xfer.rx_buf.isSome then { xfer with rx_dma := env.iommu_map_addr k } else xfer
      let k1 := if xfer.rx_buf.isSome then k + 1 else k
      if xfer.tx_buf.isSome ∧ env.iommu_map_ret k1 ≠ 0 then (env.iommu_map_ret k1, x1 :: rest)
      else
        let x2 : spi_transfer :=
          if xfer.tx_buf.isSome then { x1 with tx_dma := env.iommu_map_addr k1 } else x1
        let k2 := if xfer.tx_buf.isSome then k1 + 1 else k1
        let r := spi_geni_map_buf env rest k2
        (r.1, x2 :: r.2)

/-- The C function `setup_fifo_params`; `slave` is `spi->slave`. -/
def setup_fifo_params (gcfg : GeniConfig) (spi_slv : spi_device) (slave : Bool)
    (mas : spi_geni_master) (env : PrepEnv) : Int × spi_geni_master × List SpiEv :=
  let mode := spi_slv.mode % 2 ^ 16
  let loopback_cfg := ((env.reg_loopback % 2 ^ 32) &&& NOT32 LOOPBACK_MSK) |||
    (if mode &&& SPI_LOOP ≠ 0 then LOOPBACK_ENABLE else 0)
  let cpol := ((env.reg_cpol % 2 ^ 32) &&& NOT32 CPOL) |||
    (if mode &&& SPI_CPOL ≠ 0 then CPOL else 0)
  let cpha := ((env.reg_cpha % 2 ^ 32) &&& NOT32 CPHA) |||
    (if mode &&& SPI_CPHA ≠ 0 then CPHA else 0)
  if slave = true ∧ ¬(cpol = 0 ∧ cpha = 1) then (- EINVAL, mas, [])
  else
    let demux_output_inv : Nat :=
      if spi_slv.mode &&& SPI_CS_HIGH ≠ 0 then BIT spi_slv.chip_select % 2 ^ 32 else 0
    let spi_delay_params : Nat :=
      match spi_slv.controller_data with
      | some d =>
        (d.2 &&& SPI_INTER_WORDS_DELAY_MSK) |||
          (((d.1 <<< SPI_CS_CLK_DELAY_SHFT) % 2 ^ 32) &&& SPI_CS_CLK_DELAY_MSK)
      | none => 0
    let mas1 : spi_geni_master :=
      { mas with cur_speed_hz := spi_slv.max_speed_hz, cur_word_len := spi_slv.bits_per_word }
    let c := get_spi_clk_cfg mas1.cur_speed_hz mas1 env.toGsiEnv
    if c.1 ≠ 0 then (c.1, mas1, [])
    else
      let clk_sel := u32 c.2.1 &&& gcfg.CLK_SEL_MSK
      let m_clk_cfg := (((u32 c.2.2) <<< gcfg.CLK_DIV_SHFT) % 2 ^ 32) ||| gcfg.SER_CLK_EN
      (0, mas1,
        [SpiEv.setup_word_len spi_slv.mode spi_slv.bits_per_word,
         SpiEv.write_reg .SE_SPI_LOOPBACK loopback_cfg,
         SpiEv.write_reg .SE_SPI_DEMUX_SEL spi_slv.chip_select,
         SpiEv.write_reg .SE_SPI_CPHA cpha,
         SpiEv.write_reg .SE_SPI_CPOL cpol,
         SpiEv.write_reg .SE_SPI_DEMUX_OUTPUT_INV demux_output_inv,
         SpiEv.write_reg .SE_GENI_CLK_SEL clk_sel,
         SpiEv.write_reg .GENI_SER_M_CLK_CFG m_clk_cfg,
         SpiEv.write_reg .SE_SPI_DELAY_COUNTERS spi_delay_params])

/-- Result of `spi_geni_prepare_message`: return value, controller state and the transfers
of the message afterwards, trace. -/
structure PrepRes where
  ret : Int
  mas : spi_geni_master
  xfers : List spi_transfer
  out : List SpiEv
  deriving DecidableEq, Repr

/-- The last part of `spi_geni_prepare_message`, from `mas->cur_xfer_mode =
select_xfer_mode(spi, spi_msg)` on; `out0` is the trace so far. -/
def spi_geni_prepare_message_mode (gcfg : GeniConfig) (slave : Bool) (mas : spi_geni_master)
    (spi_slv : spi_device) (xfers : List spi_transfer) (env : PrepEnv) (out0 : List SpiEv) :
    PrepRes :=
  let mode := select_xfer_mode gcfg mas env.reg_fifo_disable
  let mas1 : spi_geni_master := { mas with cur_xfer_mode := mode }
  if mode < 0 then ⟨- EINVAL, mas1, xfers, out0⟩
  else if mode = gcfg.GSI_DMA then
    let m := spi_geni_map_buf env xfers 0
    ⟨m.1, mas1, m.2, out0 ++ [SpiEv.select_mode gcfg.GSI_DMA, SpiEv.map_buf]⟩
  else
    let p := setup_fifo_params gcfg spi_slv slave mas1 env
    ⟨p.1, p.2.1, xfers, out0 ++ SpiEv.select_mode mode :: p.2.2⟩

/-- The middle part of `spi_geni_prepare_message`: the runtime-PM resume of a suspended
device, then the mode selection. -/
def spi_geni_prepare_message_pm (gcfg : GeniConfig) (slave : Bool) (mas : spi_geni_master)
    (spi_slv : spi_device) (xfers : List spi_transfer) (env : PrepEnv) (out0 : List SpiEv) :
    PrepRes :=
  if env.pm_suspended && !mas.is_le_vm then
    if !env.pm_enabled then ⟨- EACCES, mas, xfers, out0⟩
    else if env.pm_get_sync_ret < 0 then
      ⟨env.pm_get_sync_ret, mas, xfers, out0 ++ [SpiEv.pm_runtime_get_sync]⟩
    else
      spi_geni_prepare_message_mode gcfg slave mas spi_slv xfers env
        (out0 ++ [SpiEv.pm_runtime_get_sync])
  else spi_geni_prepare_message_mode gcfg slave mas spi_slv xfers env out0

/-- The bus lock of `spi_geni_prepare_message` for a serial engine shared between execution
environments, then the rest of the function. -/
def spi_geni_prepare_message_lock (gcfg : GeniConfig) (slave : Bool) (mas : spi_geni_master)
    (spi_slv : spi_device) (xfers : List spi_transfer) (env : PrepEnv) (out0 : List SpiEv) :
    PrepRes :=
  if mas.shared_se then
    let l := spi_geni_lock_bus env.toGsiEnv
    if l.1 ≠ 0 then ⟨l.1, mas, xfers, out0 ++ l.2⟩
    else spi_geni_prepare_message_pm gcfg slave mas spi_slv xfers env (out0 ++ l.2)
  else spi_geni_prepare_message_pm gcfg slave mas spi_slv xfers env out0

/-- The C function `spi_geni_prepare_message`; `slave` is `spi->slave`, `spi_slv` is
`spi_msg->spi` and `xfers` are the transfers of the message. -/
def spi_geni_prepare_message (gcfg : GeniConfig) (slave : Bool) (mas : spi_geni_master)
    (spi_slv : spi_device) (xfers : List spi_transfer) (env : PrepEnv) : PrepRes :=
  if mas.shared_ee then
    if mas.setup then
      if !env.pm_enabled_shared then ⟨- EACCES, mas, xfers, []⟩
      else if env.pm_get_sync_ret_shared < 0 then
        ⟨env.pm_get_sync_ret_shared, mas, xfers, [SpiEv.pm_runtime_get_sync]⟩
      else
        spi_geni_prepare_message_lock gcfg slave mas spi_slv xfers env
          [SpiEv.pm_runtime_get_sync]
    else spi_geni_prepare_message_lock gcfg slave { mas with setup := true } spi_slv xfers env []
  else spi_geni_prepare_message_pm gcfg slave mas spi_slv xfers env []

/-- Collaborators of `spi_geni_prepare_message` that all succeed, for a device that is awake
and whose FIFO interface register reads `reg_fifo_disable`. -/
def env_prep (reg_fifo_disable : Nat) : PrepEnv :=
  { env_ok with
    pm_enabled_shared := true
    pm_get_sync_ret_shared := 0
    pm_enabled := true
    pm_get_sync_ret := 0
    reg_fifo_disable := reg_fifo_disable
    iommu_map_ret := fun _ => 0
    iommu_map_addr := fun k => 0x1000 * (k + 1)
    reg_loopback := 0
    reg_cpol := 0
    reg_cpha := 0 }

/-- The SPI device on chip select 0, mode 0, 8 bits per word at 1 MHz. -/
def slv_mode0 : spi_device :=
  { slv0 with max_speed_hz := 1000000, bits_per_word := 8 }

/-- Platform data with ten touch points and one key, code 158, centred at (100, 2000). -/
def pdata_key : fts_ts_platform_data :=
  { pdata_10 with have_key := true, key_number := 1, keys := [158], key_x_coords := [100],
                  key_y_coords := [2000] }

/-- An awake device with one key that decodes one event per frame, with the given mask of
fingers that are down. -/
def ts_key (touch_points : Nat) : fts_ts_data :=
  { ts_awake touch_points with pdata := pdata_key, touch_event_num := 1 }

/-- Whether a trace entry reports a touch position: an `input_report_abs` call, a slot that
is reported active, or the entry into one of the three touch-report functions of
`fts_irq_read_report`. -/
def Ev.is_touch_report : Ev → Bool
  | .input (.report_abs _ _) => true
  | .input (.mt_report_slot_state true) => true
  | .pen (.report_abs _ _) => true
  | .call .fts_input_report_touch => true
  | .call .fts_input_report_touch_pv2 => true
  | .call .fts_input_pen_report => true
  | _ => false

/-- A trace in which no touch position is reported. -/
def no_touch_report (l : List Ev) : Prop := ∀ e ∈ l, e.is_touch_report = false

/-- A suspended device with gestures enabled in the bitmask of the host (double tap armed),
gesture data multiplexed into the touch frame, and the given mask of fingers that are
down. -/
def ts_suspended (touch_points : Nat) : fts_ts_data :=
  { ts_awake touch_points with suspended := true, gesture_support := true,
                               gesture_bmode := 1, gesture_status := 1 }

/-- A frame read without bus error that carries a double-click gesture (id `0x24`) behind
the 62 bytes of touch data; the gesture-enable register reads `ENABLE`. -/
def env_gesture : ParseEnv :=
  { env_fw_init with
    touch_buf := Buf.ofList (([0x00, 0x01, 0x00, 0x64, 0x00, 0xC8, 0x10, 0x09] ++
      List.replicate 54 0xFF) ++ [0x00, 0x00, 0x24, 0x00]) }

/-! ## Suspend and resume -/

/-- Results of the collaborators of `fts_ts_suspend` and `fts_ts_resume`. -/
structure PmEnv where
  /-- The value that the `i`-th `fts_read_reg(FTS_REG_GESTURE_EN, &state)` of a retry loop
  leaves in `state`. -/
  gesture_en_state : Nat → Nat
  /-- Return value of `enable_irq_wake`. -/
  enable_irq_wake_ret : Int
  /-- Return value of `disable_irq_wake`. -/
  disable_irq_wake_ret : Int

/-- The retry loop of `fts_gesture_suspend`, over the attempt numbers in the list: the
register writes that arm the gesture mode, the read-back, and the `break` when the register
reads `ENABLE`. -/
def fts_gesture_suspend_loop (cfg : FtsConfig) (env : PmEnv) : List Nat → List Ev
  | [] => []
  | i :: rest =>
    [Ev.call (.fts_write_reg 0xD1 0xFF), Ev.call (.fts_write_reg 0xD2 0xFF),
     Ev.call (.fts_write_reg 0xD5 0xFF), Ev.call (.fts_write_reg 0xD6 0xFF),
     Ev.call (.fts_write_reg 0xD7 0xFF), Ev.call (.fts_write_reg 0xD8 0xFF),
     Ev.call (.fts_write_reg cfg.FTS_REG_GESTURE_EN cfg.ENABLE), Ev.call (.fts_msleep 1),
     Ev.call (.fts_read_reg cfg.FTS_REG_GESTURE_EN)] ++
    (if env.gesture_en_state i % 256 = cfg.ENABLE then []
     else fts_gesture_suspend_loop cfg env rest)

/-- The C function `fts_gesture_suspend` (it returns 0 on every path). -/
def fts_gesture_suspend (cfg : FtsConfig) (ts_data : fts_ts_data) (env : PmEnv) : List Ev :=
  (if ts_data.gesture_support then
    fts_gesture_suspend_loop cfg env (List.range cfg.FTS_MAX_RETRIES_WRITEREG)
   else []) ++
  (if ts_data.pdata.fod_status ≠ 0 ∧ ts_data.pdata.fod_status ≠ 3 then
    [Ev.call (.fts_write_reg cfg.FTS_REG_FOD_MODE_EN cfg.FTS_VAL_FOD_ENABLE)]
   else [])

/-- The retry loop of `fts_gesture_resume`, over the attempt numbers in the list. -/
def fts_gesture_resume_loop (cfg : FtsConfig) (env : PmEnv) : List Nat → List Ev
  | [] => []
  | i :: rest =>
    [Ev.call (.fts_write_reg cfg.FTS_REG_GESTURE_EN cfg.DISABLE), Ev.call (.fts_msleep 1),
     Ev.call (.fts_read_reg cfg.FTS_REG_GESTURE_EN)] ++
    (if env.gesture_en_state i % 256 = cfg.DISABLE then []
     else fts_gesture_resume_loop cfg env rest)

/-- The C function `fts_gesture_resume` (it returns 0 on every path). -/
def fts_gesture_resume (cfg : FtsConfig) (ts_data : fts_ts_data) (env : PmEnv) : List Ev :=
  fts_gesture_resume_loop cfg env (List.range cfg.FTS_MAX_RETRIES_WRITEREG) ++
  (if ts_data.pdata.fod_status ≠ cfg.FTS_FOD_DISABLE ∧ ts_data.pdata.fod_status ≠ 3 then
    [Ev.call (.fts_write_reg cfg.FTS_REG_FOD_MODE_EN cfg.FTS_VAL_FOD_ENABLE)]
   else [])

/-- The C function `fts_irq_disable`. -/
def fts_irq_disable (ts_data : fts_ts_data) : fts_ts_data × List Ev :=
  if !ts_data.irq_disabled then
    ({ ts_data with irq_disabled := true }, [Ev.call .disable_irq_nosync])
  else (ts_data, [])

/-- The C function `fts_irq_enable`. -/
def fts_irq_enable (ts_data : fts_ts_data) : fts_ts_data × List Ev :=
  if ts_data.irq_disabled then ({ ts_data with irq_disabled := false }, [Ev.call .enable_irq])
  else (ts_data, [])

/-- The C function `fts_fod_checkdown`. -/
def fts_fod_checkdown (ts_data : fts_ts_data) : Bool :=
  decide (ts_data.pdata.fod_status ≠ 0) && ts_data.fod_fp_down

/-- The C function `fts_power_suspend`: the register write that puts the chip to sleep (its
result is only logged); the pin and regulator steps under `FTS_POWER_SUSPEND_OFF_EN` are not
modelled.  It returns 0. -/
def fts_power_suspend (cfg : FtsConfig) : List Ev :=
  [Ev.call (.fts_write_reg cfg.FTS_REG_POWER_MODE cfg.FTS_REG_POWER_MODE_SLEEP)]

/-- Result of `fts_ts_suspend` and `fts_ts_resume`: return value, driver state afterwards,
trace. -/
structure PmRes where
  ret : Int
  ts_data : fts_ts_data
  out : List Ev
  deriving DecidableEq, Repr

/-- The part of `fts_ts_suspend` after the proximity branch: gesture arming, the choice
between the wake-up interrupt and power-down, release of all fingers. -/
def fts_ts_suspend_touch (cfg : FtsConfig) (ts_data : fts_ts_data) (env : PmEnv)
    (out0 : List Ev) : PmRes :=
  let gest : Bool := ts_data.gesture_support || decide (ts_data.pdata.fod_status ≠ 0)
  let ts2 : fts_ts_data :=
    if gest then { ts_data with need_work_in_suspend := true } else ts_data
  let o2 : List Ev :=
    if gest then Ev.call .fts_gesture_suspend :: fts_gesture_suspend cfg ts_data env else []
  let o3 : List Ev := if ts2.fwdbg_support then [Ev.call (.fts_write_reg 0x9E 0)] else []
  let path : fts_ts_data × List Ev :=
    if ts2.need_work_in_suspend then (ts2, [Ev.call (.enable_irq_wake env.enable_irq_wake_ret)])
    else
      let d := fts_irq_disable ts2
      (d.1, Ev.call .fts_irq_disable :: d.2 ++ Ev.call .fts_power_suspend ::
        fts_power_suspend cfg)
  let r := fts_release_all_finger cfg path.1
  ⟨0, { r.1 with suspended := true },
    out0 ++ o2 ++ o3 ++ path.2 ++ Ev.call .fts_release_all_finger :: r.2⟩

/-- The C function `fts_ts_suspend`. -/
def fts_ts_suspend (cfg : FtsConfig) (ts_data : fts_ts_data) (env : PmEnv) : PmRes :=
  let ts0 : fts_ts_data := { ts_data with lcd_status := 0 }
  if ts0.suspended then ⟨0, ts0, []⟩
  else if ts0.fw_loading then ⟨0, ts0, []⟩
  else
    let ts1 : fts_ts_data := { ts0 with need_work_in_suspend := false }
    if cfg.FTS_PSENSOR_EN ∧ ts1.proximity_mode = true then
      let r := fts_release_all_finger cfg { ts1 with need_work_in_suspend := true }
      ⟨0, { r.1 with suspended := true },
        [Ev.call .fts_esdcheck_suspend, Ev.call .fts_proximity_suspend,
          Ev.call .fts_release_all_finger] ++ r.2⟩
    else fts_ts_suspend_touch cfg ts1 env [Ev.call .fts_esdcheck_suspend]

/-- The part of `fts_ts_resume` after the proximity branch. -/
def fts_ts_resume_touch (cfg : FtsConfig) (ts_data : fts_ts_data) (env : PmEnv)
    (out0 : List Ev) : PmRes :=
  let o1 : List Ev :=
    if ts_data.need_work_in_suspend then
      if cfg.FTS_FOD_EN then
        if !ts_data.ic_info.is_incell && !fts_fod_checkdown ts_data then
          [Ev.call (.fts_reset_proc false cfg.FTS_DELAY_RESUME_RESET)]
        else []
      else if !ts_data.ic_info.is_incell then
        [Ev.call (.fts_reset_proc false cfg.FTS_DELAY_RESUME_RESET)]
      else []
    else [Ev.call .fts_power_resume]
  let o2 : List Ev := Ev.call .fts_enter_normal_fw ::
    (if ts_data.gesture_support || decide (ts_data.pdata.fod_status ≠ 0) then
      Ev.call .fts_gesture_resume :: fts_gesture_resume cfg ts_data env
     else [])
  let o3 : List Ev := [Ev.call .fts_ex_mode_recovery, Ev.call .fts_fwdbg_recovery,
    Ev.call .fts_esdcheck_resume]
  let irq : fts_ts_data × List Ev :=
    if ts_data.need_work_in_suspend then
      (ts_data, [Ev.call (.disable_irq_wake env.disable_irq_wake_ret)])
    else
      let e := fts_irq_enable ts_data
      (e.1, Ev.call .fts_irq_enable :: e.2)
  let pocket : fts_ts_data × List Ev :=
    if irq.1.pocket_mode ≠ 0 then
      ({ irq.1 with pocket_mode := cfg.DISABLE },
        [Ev.call (.fts_write_reg cfg.FTS_REG_POWER_MODE 0)])
    else (irq.1, [])
  ⟨0, pocket.1, out0 ++ o1 ++ o2 ++ o3 ++ irq.2 ++ pocket.2⟩

/-- The C function `fts_ts_resume` (the time stamp `resume_time` is not modelled). -/
def fts_ts_resume (cfg : FtsConfig) (ts_data : fts_ts_data) (env : PmEnv) : PmRes :=
  let ts0 : fts_ts_data := { ts_data with lcd_status := 1 }
  if !ts0.suspended then ⟨0, ts0, []⟩
  else if ts0.fw_loading then ⟨0, ts0, []⟩
  else
    let r := fts_release_all_finger cfg { ts0 with suspended := false }
    let o0 : List Ev := Ev.call .fts_release_all_finger :: r.2
    if cfg.FTS_PSENSOR_EN ∧ r.1.proximity_mode = true then
      ⟨0, r.1, o0 ++ [Ev.call .fts_wait_tp_to_valid, Ev.call .fts_proximity_resume,
        Ev.call .fts_esdcheck_resume] ++
        (if r.1.gesture_support then Ev.call .fts_gesture_resume :: fts_gesture_resume cfg r.1 env
         else [])⟩
    else fts_ts_resume_touch cfg r.1 env o0

/-- Collaborators of suspend and resume in which the gesture register never confirms and
the wake-up interrupt cannot be armed. -/
def env_pm_failing : PmEnv where
  gesture_en_state := fun _ => 0xFF
  enable_irq_wake_ret := - EINVAL
  disable_irq_wake_ret := - EINVAL

/-- Number of calls of `f` in a trace. -/
def calls (f : Fn) (out : List Ev) : Nat := out.count (Ev.call f)

/-- Whether a recorded call is a bus transaction with the chip or a delay. -/
def Fn.is_bus : Fn → Bool
  | .fts_write_reg _ _ => true
  | .fts_read_reg _ => true
  | .fts_msleep _ => true
  | _ => false

/-- A build of the driver with the proximity sensor enabled. -/
def psensor_config : FtsConfig := { ft3683g_config with FTS_PSENSOR_EN := true }

/-- An awake device in proximity mode with fingers 0 and 1 down. -/
def ts_proximity : fts_ts_data := { ts_awake 3 with proximity_mode := true }

/-- The functions called in a trace, in order, bus transactions and delays left out. -/
def pm_calls (out : List Ev) : List Fn :=
  out.filterMap (fun e => match e with
    | .call f => if f.is_bus then none else some f
    | _ => none)

/-! ## The flags of the go TRE -/

/-- The flags of a go TRE, the first argument of `MSM_GPI_SPI_GO_TRE_DWORD0`; `none` for the
other TREs. -/
def Tre.go_flags : Tre → Option Nat
  | .go flags _ _ _ _ _ _ _ => some flags
  | _ => none

/-- The flags of the go TREs of a scatterlist, in order. -/
def sg_go_flags (sg : List Tre) : List Nat := sg.filterMap Tre.go_flags

/-- A 4-byte TX transfer at 1 MHz that asks for a chip-select change after it. -/
def xfer_tx_cs_change : spi_transfer := { xfer_tx 1000000 with cs_change := true }

/-! ## Touch modes -/

/-- The gesture ids that `fts_gesture_report` turns into a key, with the key of each
(`GESTURE_LEFT` to `GESTURE_C` and the `KEY_GESTURE_*` code of the same name). -/
def gesture_keys : List (Nat × Key) :=
  [(0x20, .KEY_GESTURE_LEFT), (0x21, .KEY_GESTURE_RIGHT), (0x22, .KEY_GESTURE_UP),
   (0x23, .KEY_GESTURE_DOWN), (0x30, .KEY_GESTURE_O), (0x31, .KEY_GESTURE_W),
   (0x32, .KEY_GESTURE_M), (0x33, .KEY_GESTURE_E), (0x44, .KEY_GESTURE_L),
   (0x46, .KEY_GESTURE_S), (0x54, .KEY_GESTURE_V), (0x41, .KEY_GESTURE_Z),
   (0x34, .KEY_GESTURE_C)]

/-! ## Waiting for the chip after a reset -/

/-- The C function `fts_check_cid`: 0 when `id_h` is the non-zero high byte of one of the
custom chip ids, else `-ENODATA`. -/
def fts_check_cid (cfg : FtsConfig) (ts_data : fts_ts_data) (id_h : Nat) : Int :=
  let cid := ts_data.ic_info.cid
  if cid.type = 0 then - ENODATA
  else if (List.range cfg.FTS_MAX_CHIP_IDS).any (fun i =>
      let cid_h := ((cid.chip_ids.getD i 0 >>> 8) &&& 0x00FF) % 256
      cid_h != 0 && id_h % 256 == cid_h) then 0
  else - ENODATA

/-- The test `(idh == chip_idh) || (fts_check_cid(ts_data, idh) == 0)` of
`fts_wait_tp_to_valid` on the byte `idh`. -/
def tp_id_valid (cfg : FtsConfig) (ts_data : fts_ts_data) (idh : Nat) : Bool :=
  idh % 256 == ts_data.ic_info.ids.chip_idh % 256 || fts_check_cid cfg ts_data idh == 0

/-- The loop `for (i = 0; i < FTS_MAX_RETRIES_READID; i++)` of `fts_wait_tp_to_valid` from
index `i` on, with `n` iterations left; `idh i` is the byte that the read of attempt `i`
leaves in `idh` (the old byte when the read fails). -/
def fts_wait_tp_to_valid_loop (cfg : FtsConfig) (ts_data : fts_ts_data) (idh : Nat → Nat) :
    Nat → Nat → Int × List Ev
  | 0, _ => (- EIO, [])
  | n + 1, i =>
    if tp_id_valid cfg ts_data (idh i) then (0, [Ev.call (.fts_read_reg cfg.FTS_REG_CHIP_ID)])
    else
      let r := fts_wait_tp_to_valid_loop cfg ts_data idh n (i + 1)
      (r.1, Ev.call (.fts_read_reg cfg.FTS_REG_CHIP_ID) ::
        (if i + 1 < cfg.FTS_MAX_RETRIES_READID then [Ev.call (.fts_msleep ((i + 1) * 20))]
          else []) ++ r.2)

/-- The C function `fts_wait_tp_to_valid`: return value and trace. -/
def fts_wait_tp_to_valid (cfg : FtsConfig) (ts_data : fts_ts_data) (idh : Nat → Nat) :
    Int × List Ev :=
  fts_wait_tp_to_valid_loop cfg ts_data idh cfg.FTS_MAX_RETRIES_READID 0

/-- The delays of the `fts_msleep` calls of a trace, in order. -/
def msleeps (out : List Ev) : List Nat :=
  out.filterMap (fun e => match e with
    | .call (.fts_msleep msecs) => some msecs
    | _ => none)

/-- The trace of `k` failed attempts of `fts_wait_tp_to_valid` that are each followed by a
sleep: a read of the chip id and a sleep of `(j + 1) * 20` ms for attempt `j`. -/
def failed_attempts (cfg : FtsConfig) (i k : Nat) : List Ev :=
  (List.range' i k).flatMap (fun j =>
    [Ev.call (.fts_read_reg cfg.FTS_REG_CHIP_ID), Ev.call (.fts_msleep ((j + 1) * 20))])

/-- Read results of a chip that answers with its id `0x56` at the third attempt. -/
def idh_third_attempt : Nat → Nat := fun i => if i < 2 then 0xFF else 0x56

/-- An awake device whose chip id is `0x56 0x72`. -/
def ts_ft3683g : fts_ts_data :=
  { ts_awake 0 with
    ic_info := { (ts_awake 0).ic_info with
      ids := ⟨0x90, 0x56, 0x72, 0x36, 0xB3, 0x00, 0x00, 0x00, 0x00⟩ } }

/-! ## Point slots of a touch frame -/

/-- The id nibble of point slot `i` of a protocol-v1 frame: `pointid` in iteration `i` of
the loop of `fts_input_report_touch`. -/
def pointid_v1 (cfg : FtsConfig) (touch_buf : Buf) (i : Nat) : Nat :=
  rd touch_buf (cfg.FTS_TOUCH_OFF_ID_YH + (cfg.FTS_ONE_TCH_LEN * i + 2)) >>> 4

/-- The id nibble of point slot `i` of a protocol-v2 frame: `pointid` in iteration `i` of
the loop of `fts_input_report_touch_pv2`. -/
def pointid_v2 (cfg : FtsConfig) (touch_buf : Buf) (i : Nat) : Nat :=
  rd touch_buf (cfg.FTS_TOUCH_OFF_ID_YH + (cfg.FTS_ONE_TCH_LEN_V2 * i + 4)) >>> 4

/-- Platform data with five touch points and no keys. -/
def pdata_5 : fts_ts_platform_data := { pdata_10 with max_touch_number := 5 }

/-- An awake SPI device with five touch points and the given mask of fingers that are
down. -/
def ts_awake_5 (touch_points : Nat) : fts_ts_data := { ts_awake touch_points with pdata := pdata_5 }

/-- A protocol-v1 frame with the given header count whose slot 0 is a DOWN point with id 0,
whose slot 1 carries id 7 and whose slot 2 carries the end mark. -/
def frame_v1_down_then_id7 (count : Nat) : Buf :=
  Buf.ofList [0x00, count, 0x00, 0x64, 0x00, 0xC8, 0x10, 0x09,
    0x00, 0x64, 0x70, 0xC8, 0x10, 0x09]

/-- A build of the driver with high-resolution coordinates. -/
def hires_config : FtsConfig := { ft3683g_config with FTS_TOUCH_HIRES_EN := true }

/-- A protocol-v1 frame with one point, id 0, whose byte at `FTS_TOUCH_OFF_PRE` is
`0x12`. -/
def frame_v1_pressure_0x12 : Buf :=
  Buf.ofList [0x00, 0x01, 0x00, 0x64, 0x00, 0xC8, 0x12, 0x09]

/-- A protocol-v1 frame with one point, id 0, whose pressure and area bytes are 0. -/
def frame_v1_zero_pressure : Buf :=
  Buf.ofList [0x00, 0x01, 0x00, 0x64, 0x00, 0xC8, 0x00, 0x00]

/-! ## Transfer mode and word count of a FIFO transfer -/

/-- The local `pack_words` of `spi_setup_word_len`: the number of SPI words that the
packing configuration puts in one FIFO word. -/
def spi_setup_word_len_pack_words (mas : spi_geni_master) (bits_per_word : Nat) : Nat :=
  if mas.tx_fifo_width % bits_per_word = 0 then mas.tx_fifo_width / bits_per_word else 1

/-- A TX-only transfer of `len` bytes, 8 bits per word at 1 MHz. -/
def xfer_tx_len (len : Nat) : spi_transfer where
  tx_buf := some (List.replicate len 0x5A)
  rx_buf := none
  len := len
  speed_hz := 1000000
  bits_per_word := 8
  cs_change := false
  tx_dma := 0
  rx_dma := 0

/-- The first transfer of a message on the controller `mas_se_dma`: 4 bytes, which fit the
FIFO of 64 words. -/
def small_first : FifoSetupRes :=
  setup_fifo_xfer geni_config (xfer_tx_len 4) mas_se_dma 0 false false (env_fifo [] [] [])

/-- A full-duplex transfer of 6 bytes with 12 bits per word at 1 MHz. -/
def xfer_12_bits : spi_transfer where
  tx_buf := some [1, 2, 3, 4, 5, 6]
  rx_buf := some [0, 0, 0, 0, 0, 0]
  len := 6
  speed_hz := 1000000
  bits_per_word := 12
  cs_change := false
  tx_dma := 0
  rx_dma := 0

/-- A FIFO-mode controller at the start of the transfer `xfer_12_bits`. -/
def mas_12_bits : spi_geni_master :=
  { mas_fifo 12 with tx_rem_bytes := 6, rx_rem_bytes := 6, cur_xfer := some xfer_12_bits }

/-- An RX interrupt with `wc` words in the RX FIFO. -/
def irq_rx_words (wc : Nat) (rx_fifo : List (List Nat)) : IrqRegs :=
  { irq_none with rx_fifo_status := wc, rx_fifo := rx_fifo }

/-! ## The FIFO words of a TX buffer -/

/-- The FIFO writes that carry `bytes`, `bytes_per_fifo` bytes to a FIFO word and the last
word padded with zeros: word `k` holds the bytes from offset `k * bytes_per_fifo` on, and
there are `ceil(length / bytes_per_fifo)` words. -/
def spec_tx_fifo_words (bytes_per_fifo : Nat) (bytes : List Nat) : List SpiEv :=
  (List.range ((bytes.length + bytes_per_fifo - 1) / bytes_per_fifo)).map (fun k =>
    SpiEv.tx_fifo_write ((bytes.drop (k * bytes_per_fifo)).take bytes_per_fifo ++
      List.replicate (4 - ((bytes.drop (k * bytes_per_fifo)).take bytes_per_fifo).length) 0))

/-- Whether a trace entry is a write to the TX FIFO. -/
def SpiEv.is_tx_fifo_write : SpiEv → Bool
  | .tx_fifo_write _ => true
  | _ => false

/-- Number of writes to the TX FIFO in a trace. -/
def tx_fifo_writes (out : List SpiEv) : Nat := out.countP SpiEv.is_tx_fifo_write

/-- Successive calls of `geni_spi_handle_tx`, one for each TX watermark interrupt, up to the
call that leaves `tx_rem_bytes` at 0 (it clears the watermark, which ends the interrupts);
at most `n` calls. -/
def geni_spi_handle_tx_calls : Nat → spi_geni_master → spi_geni_master × List SpiEv
  | 0, mas => (mas, [])
  | n + 1, mas =>
    let r := geni_spi_handle_tx mas
    if r.1.tx_rem_bytes = 0 then r
    else
      let r2 := geni_spi_handle_tx_calls n r.1
      (r2.1, r.2 ++ r2.2)
/-! Theorems -/

theorem up_reports_append (f : Nat) (a b : List Ev) (cur : Option Nat) :
    up_reports f cur (a ++ b) = up_reports f cur a + up_reports f (slot_after cur a) b := by
  induction a generalizing cur with
  | nil => simp [up_reports, slot_after]
  | cons e a ih =>
    cases e with
    | input ie =>
      cases ie with
      | mt_slot s => simp [up_reports, slot_after, ih]
      | mt_report_slot_state active =>
        cases active <;> simp [up_reports, slot_after, ih, Nat.add_assoc]
      | report_abs c v => simp [up_reports, slot_after, ih]
      | report_key c v => simp [up_reports, slot_after, ih]
      | mt_sync => simp [up_reports, slot_after, ih]
      | sync => simp [up_reports, slot_after, ih]
    | pen ie => simp [up_reports, slot_after, ih]
    | hook h => simp [up_reports, slot_after, ih]
    | call c => simp [up_reports, slot_after, ih]

theorem BIT_and_ne_zero (i d : Nat) : ((BIT i &&& d) != 0) = d.testBit i := by
  unfold BIT
  rw [Nat.one_shiftLeft, Nat.and_comm, Nat.and_two_pow]
  cases h : d.testBit i <;> simp

theorem testBit_or_BIT (a j f : Nat) (h : j ≠ f) : (a ||| BIT j).testBit f = a.testBit f := by
  unfold BIT
  rw [Nat.testBit_or, Nat.one_shiftLeft, Nat.testBit_two_pow]
  simp [h]

theorem testBit_and_NOT32_BIT (a j f : Nat) (h : j ≠ f) (hf : f < 32) :
    (a &&& NOT32 (BIT j)).testBit f = a.testBit f := by
  unfold BIT NOT32
  rw [Nat.testBit_and, Nat.testBit_xor, Nat.one_shiftLeft, Nat.testBit_two_pow]
  have h1 : (0xFFFFFFFF : Nat).testBit f = true := by
    have := Nat.testBit_two_pow_sub_one 32 f
    simpa [hf] using this
  simp [h, h1]


theorem keys_only_up_reports (f : Nat) (l : List Ev) (h : keys_only l) (cur : Option Nat) :
    up_reports f cur l = 0 ∧ slot_after cur l = cur ∧ Ev.input .sync ∉ l := by
  induction l with
  | nil => simp [up_reports, slot_after]
  | cons e l ih =>
    obtain ⟨c, v, rfl⟩ := h e (List.mem_cons_self _ _)
    have ih' := ih (fun e he => h e (List.mem_cons_of_mem _ he))
    simp [up_reports, slot_after, ih']

theorem fts_input_report_key_scan_keys_only (cfg : FtsConfig) (ts_data : fts_ts_data)
    (kevent : ts_event) (l : List Nat) :
    keys_only (fts_input_report_key_scan cfg ts_data kevent l).out := by
  induction l with
  | nil => simp [fts_input_report_key_scan, keys_only]
  | cons i rest ih =>
    unfold fts_input_report_key_scan
    split_ifs <;> simp_all [keys_only]

theorem fts_input_report_key_keys_only (cfg : FtsConfig) (ts_data : fts_ts_data)
    (kevent : ts_event) : keys_only (fts_input_report_key cfg ts_data kevent).out := by
  unfold fts_input_report_key
  split_ifs
  · simp [keys_only]
  · exact fts_input_report_key_scan_keys_only _ _ _ _

theorem report_b_down_up_reports (cfg : FtsConfig) (e : ts_event) (f : Nat) (cur : Option Nat) :
    up_reports f cur (report_b_down cfg e) = 0 ∧ Ev.input .sync ∉ report_b_down cfg e := by
  unfold report_b_down
  cases cfg.FTS_REPORT_PRESSURE_EN <;> simp [up_reports]

theorem fts_input_report_b_events_absent (cfg : FtsConfig) (f : Nat) (hf : f < 32)
    (es : List ts_event) (h : ∀ e ∈ es, e.id ≠ f) (ts_data : fts_ts_data) (l : report_b_locals)
    (cur : Option Nat) :
    up_reports f cur (fts_input_report_b_events cfg es ts_data l).2.2 = 0 ∧
    (fts_input_report_b_events cfg es ts_data l).2.1.touch_point_pre.testBit f
      = l.touch_point_pre.testBit f ∧
    (fts_input_report_b_events cfg es ts_data l).2.1.touch_down_point_cur.testBit f
      = l.touch_down_point_cur.testBit f ∧
    Ev.input .sync ∉ (fts_input_report_b_events cfg es ts_data l).2.2 := by
  induction es generalizing ts_data l cur with
  | nil => simp [fts_input_report_b_events, up_reports]
  | cons e rest ih =>
    have hid : e.id ≠ f := h e (List.mem_cons_self _ _)
    have hrest : ∀ e ∈ rest, e.id ≠ f := fun e he => h e (List.mem_cons_of_mem _ he)
    have hk := fts_input_report_key_keys_only cfg ts_data e
    unfold fts_input_report_b_events
    simp only []
    split_ifs with h1 h2
    · obtain ⟨a, b, c, d⟩ := ih hrest (fts_input_report_key cfg ts_data e).ts_data l
        (slot_after cur (fts_input_report_key cfg ts_data e).out)
      obtain ⟨k1, k2, k3⟩ := keys_only_up_reports f _ hk cur
      refine ⟨?_, b, c, ?_⟩
      · rw [up_reports_append, k1, a]
      · simp [k3, d]
    · obtain ⟨k1, k2, k3⟩ := keys_only_up_reports f _ hk cur
      obtain ⟨d1, d2⟩ := report_b_down_up_reports cfg e f
        (slot_after cur (fts_input_report_key cfg ts_data e).out)
      obtain ⟨a, b, c, d⟩ := ih hrest (fts_input_report_key cfg ts_data e).ts_data
        { touch_down_point_cur := l.touch_down_point_cur ||| BIT e.id,
          touch_point_pre := l.touch_point_pre ||| BIT e.id,
          touch_event_coordinate := true }
        (slot_after (slot_after cur (fts_input_report_key cfg ts_data e).out)
          (report_b_down cfg e))
      refine ⟨?_, ?_, ?_, ?_⟩
      · rw [List.append_assoc, up_reports_append, up_reports_append, k1, d1, a]
      · rw [b]; exact testBit_or_BIT _ _ _ hid
      · rw [c]; exact testBit_or_BIT _ _ _ hid
      · simp [k3, d2, d]
    · obtain ⟨k1, k2, k3⟩ := keys_only_up_reports f _ hk cur
      obtain ⟨a, b, c, d⟩ := ih hrest (fts_input_report_key cfg ts_data e).ts_data
        { touch_down_point_cur := l.touch_down_point_cur,
          touch_point_pre := l.touch_point_pre &&& NOT32 (BIT e.id),
          touch_event_coordinate := true }
        (some e.id)
      refine ⟨?_, ?_, ?_, ?_⟩
      · rw [List.append_assoc, up_reports_append, k1]
        simp [up_reports, hid, a]
      · rw [b]; exact testBit_and_NOT32_BIT _ _ _ hid hf
      · rw [c]
      · simp [k3, d]

theorem fts_input_report_b_lift_up_reports (diff f : Nat) (l : List Nat) (cur : Option Nat) :
    up_reports f cur (fts_input_report_b_lift diff l)
      = List.count f (l.filter (fun i => diff.testBit i)) ∧
    Ev.input .sync ∉ fts_input_report_b_lift diff l := by
  induction l generalizing cur with
  | nil => simp [fts_input_report_b_lift, up_reports]
  | cons i rest ih =>
    unfold fts_input_report_b_lift
    rw [BIT_and_ne_zero]
    cases hb : diff.testBit i
    · simpa [hb, List.filter_cons] using ih cur
    · have := ih (some i)
      by_cases hif : i = f
      · subst hif
        simp [hb, List.filter_cons, up_reports, this, Nat.add_comm]
      · have hne : ¬ (f = i) := fun h => hif h.symm
        simp [hb, List.filter_cons, up_reports, this, hif, List.count_cons, hne]


/-- C1. For every driver state whose `touch_points` (a 32-bit mask) has all set bits below
`max_touch_number`, and every frame passed to `fts_input_report_b`: a finger id `f` whose bit
is set in `touch_points` and which is the id of none of the frame's events is reported UP
(slot `f` selected, slot state false) exactly once, before the single `input_sync` that ends
the frame, and its bit is clear in `touch_points` afterwards. -/
theorem fts_input_report_b_lifts_vanished_finger (cfg : FtsConfig) (ts_data : fts_ts_data)
    (events : List ts_event) (f : Nat) (cur : Option Nat)
    (h32 : ts_data.touch_points < 2 ^ 32)
    (hbits : ∀ i, ts_data.touch_points.testBit i = true → i < ts_data.pdata.max_touch_number)
    (hf : ts_data.touch_points.testBit f = true)
    (habs : ∀ e ∈ events.take ts_data.touch_event_num, e.id ≠ f) :
    ∃ pre, (fts_input_report_b cfg ts_data events).out = pre ++ [Ev.input .sync] ∧
      Ev.input .sync ∉ pre ∧ up_reports f cur pre = 1 ∧
      (fts_input_report_b cfg ts_data events).ts_data.touch_points.testBit f = false := by
  have hf32 : f < 32 := by
    by_contra hge
    have hle : 2 ^ 32 ≤ 2 ^ f := Nat.pow_le_pow_right (by decide) (by omega)
    have := Nat.testBit_lt_two_pow (lt_of_lt_of_le h32 hle)
    rw [hf] at this
    exact Bool.noConfusion this
  have hfmax : f < ts_data.pdata.max_touch_number := hbits f hf
  obtain ⟨a, b, c, d⟩ := fts_input_report_b_events_absent cfg f hf32
    (events.take ts_data.touch_event_num) habs ts_data
    { touch_down_point_cur := 0, touch_point_pre := ts_data.touch_points,
      touch_event_coordinate := false } cur
  simp only [Nat.zero_testBit] at c
  simp only [] at b
  rw [hf] at b
  unfold fts_input_report_b
  simp only []
  generalize fts_input_report_b_events cfg (events.take ts_data.touch_event_num) ts_data
    { touch_down_point_cur := 0, touch_point_pre := ts_data.touch_points,
      touch_event_coordinate := false } = r at a b c d
  have hdiff : (r.2.1.touch_point_pre ^^^ r.2.1.touch_down_point_cur).testBit f = true := by
    rw [Nat.testBit_xor, b, c]; rfl
  have hne : ((r.2.1.touch_point_pre ^^^ r.2.1.touch_down_point_cur) != 0) = true := by
    simp only [bne_iff_ne, ne_eq]
    intro h0
    rw [h0, Nat.zero_testBit] at hdiff
    exact Bool.noConfusion hdiff
  rw [if_pos hne]
  refine ⟨_, rfl, ?_, ?_, c⟩
  · have hl := (fts_input_report_b_lift_up_reports
      (r.2.1.touch_point_pre ^^^ r.2.1.touch_down_point_cur) f
      (List.range ts_data.pdata.max_touch_number) cur).2
    simp only [List.mem_append, not_or]
    refine ⟨⟨d, hl⟩, ?_⟩
    split_ifs <;> simp
  · have hbtn : ∀ s, up_reports f s
        (if (r.2.1.touch_down_point_cur != 0) = true then
          [Ev.input (.report_key .BTN_TOUCH 1)]
        else if (r.2.1.touch_event_coordinate || r.1.touch_points != 0) = true then
          [Ev.input (.report_key .BTN_TOUCH 0)]
        else []) = 0 := by
      intro s
      split_ifs <;> simp [up_reports]
    have hl := (fts_input_report_b_lift_up_reports
      (r.2.1.touch_point_pre ^^^ r.2.1.touch_down_point_cur) f
      (List.range ts_data.pdata.max_touch_number) (slot_after cur r.2.2)).1
    have hcount : List.count f ((List.range ts_data.pdata.max_touch_number).filter
        (fun i => (r.2.1.touch_point_pre ^^^ r.2.1.touch_down_point_cur).testBit i)) = 1 := by
      apply List.count_eq_one_of_mem
      · exact (List.nodup_range _).filter _
      · exact List.mem_filter.mpr ⟨List.mem_range.mpr hfmax, by simpa using hdiff⟩
    rw [up_reports_append, up_reports_append, a, hl, hcount, hbtn]


/-- Witness for C1: fingers 1 and 2 are down and the frame holds a CONTACT event of
finger 2 only; finger 1 is lifted exactly once before the sync. -/
theorem fts_input_report_b_lifts_vanished_finger_witness :
    (ts_awake 6).touch_points.testBit 1 = true ∧
    ∃ pre, (fts_input_report_b ft3683g_config { ts_awake 6 with touch_event_num := 1 }
        [⟨100, 200, 0x3F, 2, 2, 9, 9⟩]).out = pre ++ [Ev.input .sync] ∧
      Ev.input .sync ∉ pre ∧ up_reports 1 none pre = 1 ∧
      (fts_input_report_b ft3683g_config { ts_awake 6 with touch_event_num := 1 }
        [⟨100, 200, 0x3F, 2, 2, 9, 9⟩]).ts_data.touch_points.testBit 1 = false :=
  ⟨by decide,
    fts_input_report_b_lifts_vanished_finger ft3683g_config
      { ts_awake 6 with touch_event_num := 1 } [⟨100, 200, 0x3F, 2, 2, 9, 9⟩] 1 none
      (by decide)
      (by
        intro i hi
        by_contra hge
        have hge' : 10 ≤ i := Nat.le_of_not_lt hge
        have h6 : (6 : Nat) < 2 ^ i :=
          lt_of_lt_of_le (by decide : (6 : Nat) < 2 ^ 10)
            (Nat.pow_le_pow_right (by decide) hge')
        have := Nat.testBit_lt_two_pow h6
        simp only [ts_awake] at hi
        rw [hi] at this
        exact Bool.noConfusion this)
      (by decide)
      (by decide)⟩

/-- C2. For every v1 or v2 touch frame whose header event count (low 4 bits of byte
`FTS_TOUCH_E_NUM`) is greater than `max_touch_number`, `fts_input_report_touch` and
`fts_input_report_touch_pv2` return `-EIO`, emit nothing and leave the whole driver state,
`touch_points` included, unchanged. -/
theorem fts_input_report_touch_rejects_count_above_max (cfg : FtsConfig) (ts_data : fts_ts_data)
    (touch_buf : Buf)
    (h : rd touch_buf cfg.FTS_TOUCH_E_NUM &&& 0x0F > ts_data.pdata.max_touch_number) :
    fts_input_report_touch cfg ts_data touch_buf = ⟨- EIO, ts_data, []⟩ ∧
    fts_input_report_touch_pv2 cfg ts_data touch_buf = ⟨- EIO, ts_data, []⟩ := by
  constructor
  · unfold fts_input_report_touch
    simp only []
    rw [if_pos h]
  · unfold fts_input_report_touch_pv2
    simp only []
    rw [if_pos]
    simp only [Bool.or_eq_true, decide_eq_true_eq]
    exact Or.inr h

/-- Witness for C2: a frame announcing 11 points on a 10-point panel with fingers 0 and 1
down. -/
theorem fts_input_report_touch_rejects_count_above_max_witness :
    rd (Buf.ofList [0x00, 0x0B]) ft3683g_config.FTS_TOUCH_E_NUM &&& 0x0F
      > (ts_awake 3).pdata.max_touch_number ∧
    fts_input_report_touch ft3683g_config (ts_awake 3) (Buf.ofList [0x00, 0x0B])
      = ⟨- EIO, ts_awake 3, []⟩ ∧
    fts_input_report_touch_pv2 ft3683g_config (ts_awake 3) (Buf.ofList [0x00, 0x0B])
      = ⟨- EIO, ts_awake 3, []⟩ :=
  ⟨by decide,
    fts_input_report_touch_rejects_count_above_max ft3683g_config (ts_awake 3)
      (Buf.ofList [0x00, 0x0B]) (by decide)⟩

theorem and_0x0F (a : Nat) : a &&& 0x0F = a % 16 := Nat.and_pow_two_sub_one_eq_mod a 4

theorem and_0xFF (a : Nat) : a &&& 0xFF = a % 256 := Nat.and_pow_two_sub_one_eq_mod a 8

theorem encode_v1_single_reads (cfg : FtsConfig) (id flag x y pressure area : Nat)
    (hl : v1_layout cfg) :
    encode_v1_single cfg id flag x y pressure area cfg.FTS_TOUCH_E_NUM = 0x01 ∧
    encode_v1_single cfg id flag x y pressure area (cfg.FTS_TOUCH_OFF_E_XH + 2)
      = flag * 64 + x / 256 ∧
    encode_v1_single cfg id flag x y pressure area (cfg.FTS_TOUCH_OFF_XL + 2) = x % 256 ∧
    encode_v1_single cfg id flag x y pressure area (cfg.FTS_TOUCH_OFF_ID_YH + 2)
      = id * 16 + y / 256 ∧
    encode_v1_single cfg id flag x y pressure area (cfg.FTS_TOUCH_OFF_YL + 2) = y % 256 ∧
    encode_v1_single cfg id flag x y pressure area (cfg.FTS_TOUCH_OFF_PRE + 2) = pressure ∧
    encode_v1_single cfg id flag x y pressure area (cfg.FTS_TOUCH_OFF_AREA + 2) = area ∧
    encode_v1_single cfg id flag x y pressure area
      (cfg.FTS_TOUCH_OFF_ID_YH + (cfg.FTS_ONE_TCH_LEN + 2)) = 0xFF := by
  obtain ⟨_, _, h0, h1, h2, h3, h4, h5, h6, hn⟩ := hl
  simp only [List.nodup_cons, List.mem_cons, List.mem_singleton, not_or, List.not_mem_nil,
    not_false_eq_true, List.nodup_nil, and_true] at hn
  obtain ⟨⟨n1, n2, n3, n4, n5⟩, ⟨n6, n7, n8, n9⟩, ⟨n10, n11, n12⟩, ⟨n13, n14⟩, n15⟩ := hn
  unfold encode_v1_single
  refine ⟨?_, ?_, ?_, ?_, ?_, ?_, ?_, ?_⟩
  · rw [if_pos rfl]
  · rw [if_neg (by omega), if_pos rfl]
  · rw [if_neg (by omega), if_neg (by omega), if_pos rfl]
  · rw [if_neg (by omega), if_neg (by omega), if_neg (by omega), if_pos rfl]
  · rw [if_neg (by omega), if_neg (by omega), if_neg (by omega), if_neg (by omega), if_pos rfl]
  · rw [if_neg (by omega), if_neg (by omega), if_neg (by omega), if_neg (by omega),
      if_neg (by omega), if_pos rfl]
  · rw [if_neg (by omega), if_neg (by omega), if_neg (by omega), if_neg (by omega),
      if_neg (by omega), if_neg (by omega), if_pos rfl]
  · rw [if_neg (by omega), if_neg (by omega), if_neg (by omega), if_neg (by omega),
      if_neg (by omega), if_neg (by omega), if_neg (by omega)]

/-- C3. Round trip of the protocol-v1 wire format with `FTS_TOUCH_HIRES_EN` off: for
every id below `min(max_touch_number, FTS_MAX_ID)`, every 2-bit flag and every `x`, `y` below
4096, the buffer that encodes exactly that one point is decoded by `fts_input_report_touch`
to exactly one event with the same id, flag, `x` and `y`; a zero pressure byte becomes
pressure `0x3F` (and a zero area byte area `0x09`); the call returns 0 after handing that one
event to the reporting stage. -/
theorem fts_input_report_touch_round_trip (cfg : FtsConfig) (ts_data : fts_ts_data)
    (id flag x y pressure area : Nat) (hl : v1_layout cfg)
    (hid : id < min ts_data.pdata.max_touch_number cfg.FTS_MAX_ID)
    (hflag : flag < 4) (hx : x < 4096) (hy : y < 4096)
    (hp : pressure < 256) (ha : area < 256) :
    fts_input_report_touch_scan cfg ts_data.pdata.max_touch_number 1
        (encode_v1_single cfg id flag x y pressure area)
        (List.range ts_data.pdata.max_touch_number)
      = .ok [{ x := x, y := y, p := if pressure = 0 then 0x3F else pressure, flag := flag,
               id := id, area := if area = 0 then 0x09 else area,
               minor := if area = 0 then 0x09 else area }] ∧
    fts_input_report_touch cfg ts_data (encode_v1_single cfg id flag x y pressure area)
      = ⟨0,
         (fts_input_report cfg { ts_data with touch_event_num := 1 }
           [{ x := x, y := y, p := if pressure = 0 then 0x3F else pressure, flag := flag,
              id := id, area := if area = 0 then 0x09 else area,
              minor := if area = 0 then 0x09 else area }]).ts_data,
         (fts_input_report cfg { ts_data with touch_event_num := 1 }
           [{ x := x, y := y, p := if pressure = 0 then 0x3F else pressure, flag := flag,
              id := id, area := if area = 0 then 0x09 else area,
              minor := if area = 0 then 0x09 else area }]).out⟩ := by
  obtain ⟨r0, r1, r2, r3, r4, r5, r6, r7⟩ :=
    encode_v1_single_reads cfg id flag x y pressure area hl
  have hhires : cfg.FTS_TOUCH_HIRES_EN = false := hl.1
  have hmaxid : cfg.FTS_MAX_ID ≤ 15 := hl.2.1
  have hidmax : id < ts_data.pdata.max_touch_number := lt_of_lt_of_le hid (min_le_left _ _)
  have hidid : id < cfg.FTS_MAX_ID := lt_of_lt_of_le hid (min_le_right _ _)
  have hpoint : touch_point_v1 cfg (encode_v1_single cfg id flag x y pressure area) 0 id
      = { x := x, y := y, p := if pressure = 0 then 0x3F else pressure, flag := flag,
          id := id, area := if area = 0 then 0x09 else area,
          minor := if area = 0 then 0x09 else area } := by
    unfold touch_point_v1
    simp only [rd, Nat.mul_zero, Nat.zero_add, r1, r2, r3, r4, r5, r6, hhires,
      Bool.false_eq_true, if_false, and_0x0F, and_0xFF, Nat.shiftRight_eq_div_pow,
      Nat.shiftLeft_eq, Nat.le_zero_eq]
    have e1 : (flag * 64 + x / 256) % 256 / 2 ^ 6 = flag := by omega
    have e2 : (flag * 64 + x / 256) % 256 % 16 * 2 ^ 8 + x % 256 % 256 % 256 = x := by omega
    have e3 : (id * 16 + y / 256) % 256 % 16 * 2 ^ 8 + y % 256 % 256 % 256 = y := by omega
    have e4 : pressure % 256 = pressure := Nat.mod_eq_of_lt hp
    have e5 : area % 256 = area := Nat.mod_eq_of_lt ha
    rw [e1, e2, e3, e4, e5]
  have hscan : fts_input_report_touch_scan cfg ts_data.pdata.max_touch_number 1
        (encode_v1_single cfg id flag x y pressure area)
        (List.range ts_data.pdata.max_touch_number)
      = .ok [{ x := x, y := y, p := if pressure = 0 then 0x3F else pressure, flag := flag,
               id := id, area := if area = 0 then 0x09 else area,
               minor := if area = 0 then 0x09 else area }] := by
    have hid0 : rd (encode_v1_single cfg id flag x y pressure area)
        (cfg.FTS_TOUCH_OFF_ID_YH + (cfg.FTS_ONE_TCH_LEN * 0 + 2)) >>> 4 = id := by
      simp only [rd, Nat.mul_zero, Nat.zero_add, r3, Nat.shiftRight_eq_div_pow]
      omega
    have hid1 : rd (encode_v1_single cfg id flag x y pressure area)
        (cfg.FTS_TOUCH_OFF_ID_YH + (cfg.FTS_ONE_TCH_LEN * 1 + 2)) >>> 4 = 15 := by
      simp only [rd, Nat.mul_one, r7, Nat.shiftRight_eq_div_pow]
    obtain ⟨n, hn⟩ : ∃ n, ts_data.pdata.max_touch_number = n + 1 :=
      ⟨ts_data.pdata.max_touch_number - 1, by omega⟩
    have htail : fts_input_report_touch_scan cfg ts_data.pdata.max_touch_number 1
        (encode_v1_single cfg id flag x y pressure area) (List.map Nat.succ (List.range n))
        = .ok [] := by
      cases n with
      | zero => simp [fts_input_report_touch_scan]
      | succ m =>
        rw [List.range_succ_eq_map, List.map_cons]
        unfold fts_input_report_touch_scan
        simp only [hid1]
        rw [if_pos (show 15 ≥ cfg.FTS_MAX_ID from hmaxid)]
    conv_lhs => rw [hn, List.range_succ_eq_map]
    unfold fts_input_report_touch_scan
    simp only [hid0]
    rw [if_neg (by omega), if_neg (by omega), hpoint]
    have hdown : ((cfg.EVENT_DOWN flag && (1 == 0)) = true) = False := by simp
    simp only [hdown, if_false]
    rw [← hn, htail]
  refine ⟨hscan, ?_⟩
  have h1 : rd (encode_v1_single cfg id flag x y pressure area) cfg.FTS_TOUCH_E_NUM &&& 0x0F
      = 1 := by
    simp only [rd, r0]
    decide
  unfold fts_input_report_touch
  simp only [h1]
  rw [if_neg (by omega), hscan]
  simp

/-- Witness for C3: id 3, flag DOWN (0), x = 100, y = 200, pressure byte 0 decode to
`{id 3, DOWN, 100, 200, pressure 0x3F}`. -/
theorem fts_input_report_touch_round_trip_witness :
    v1_layout ft3683g_config ∧
    fts_input_report_touch_scan ft3683g_config 10 1
        (encode_v1_single ft3683g_config 3 0 100 200 0 0) (List.range 10)
      = .ok [{ x := 100, y := 200, p := 0x3F, flag := 0, id := 3, area := 0x09,
               minor := 0x09 }] :=
  ⟨by unfold v1_layout; decide,
    (fts_input_report_touch_round_trip ft3683g_config (ts_awake 0) 3 0 100 200 0 0
      (by unfold v1_layout; decide) (by decide) (by decide) (by decide) (by decide)
      (by decide) (by decide)).1⟩

theorem fts_release_all_finger_slots_no_call (l : List Nat) (f : Fn) :
    Ev.call f ∉ fts_release_all_finger_slots l := by
  induction l with
  | nil => simp [fts_release_all_finger_slots]
  | cons i rest ih => simp [fts_release_all_finger_slots, ih]

theorem fts_release_all_finger_no_call (cfg : FtsConfig) (ts_data : fts_ts_data) (f : Fn) :
    Ev.call f ∉ (fts_release_all_finger cfg ts_data).2 := by
  unfold fts_release_all_finger
  have := fts_release_all_finger_slots_no_call (List.range ts_data.pdata.max_touch_number) f
  cases cfg.FTS_MT_PROTOCOL_B_EN <;> cases cfg.FTS_PEN_EN <;> simp [this]

/-- C4. For every successfully read touch buffer whose first five bytes are all `0xFF`,
whatever the remaining bytes, the suspended flag and the gesture/FOD settings:
`fts_read_parse_touchdata` classifies the frame as `TOUCH_FW_INIT`, and `fts_irq_read_report`
then calls `fts_release_all_finger` and `fts_tp_state_recovery`, whose first action is the
chip-readiness wait `fts_wait_tp_to_valid`, and calls neither `fts_input_report_touch` nor
`fts_input_report_touch_pv2`.  (`hlabels`: the `case` labels of the `switch` are distinct.) -/
theorem fts_irq_read_report_fw_init (cfg : FtsConfig) (ts_data : fts_ts_data)
    (gesture : fts_gesture_st) (env : ParseEnv)
    (hlabels : cfg.TOUCH_FW_INIT ≠ cfg.TOUCH_DEFAULT ∧
      cfg.TOUCH_FW_INIT ≠ cfg.TOUCH_PROTOCOL_v2 ∧ cfg.TOUCH_FW_INIT ≠ cfg.TOUCH_PEN)
    (hread : (fts_read_touchdata cfg ts_data env).1 = 0)
    (hff : ∀ i < 5, rd env.touch_buf i = 0xFF) :
    (fts_read_parse_touchdata cfg ts_data gesture env).ret = cfg.TOUCH_FW_INIT ∧
    (∃ rest, (fts_irq_read_report cfg ts_data gesture env).out =
      Ev.call .fts_release_all_finger ::
        (fts_release_all_finger cfg (fts_read_touchdata cfg ts_data env).2).2 ++
        Ev.call .fts_tp_state_recovery :: Ev.call .fts_wait_tp_to_valid :: rest) ∧
    Ev.call .fts_input_report_touch ∉ (fts_irq_read_report cfg ts_data gesture env).out ∧
    Ev.call .fts_input_report_touch_pv2 ∉ (fts_irq_read_report cfg ts_data gesture env).out := by
  have hparse : fts_read_parse_touchdata cfg ts_data gesture env
      = ⟨cfg.TOUCH_FW_INIT, (fts_read_touchdata cfg ts_data env).2, gesture, []⟩ := by
    unfold fts_read_parse_touchdata
    simp only [hread]
    rw [if_neg (by decide), if_neg (by simp),
      if_pos ⟨hff 1 (by decide), hff 2 (by decide), hff 3 (by decide), hff 4 (by decide)⟩]
  have hirq : (fts_irq_read_report cfg ts_data gesture env).out =
      Ev.call .fts_release_all_finger ::
        (fts_release_all_finger cfg (fts_read_touchdata cfg ts_data env).2).2 ++
        Ev.call .fts_tp_state_recovery ::
          fts_tp_state_recovery cfg
            (fts_release_all_finger cfg (fts_read_touchdata cfg ts_data env).2).1 := by
    unfold fts_irq_read_report
    simp only [hparse]
    rw [if_neg hlabels.1, if_neg hlabels.2.1, if_neg (fun h => hlabels.2.2 h.2)]
    simp
  refine ⟨by rw [hparse], ?_, ?_, ?_⟩
  · rw [hirq]
    unfold fts_tp_state_recovery
    exact ⟨_, rfl⟩
  · rw [hirq]
    have := fts_release_all_finger_no_call cfg (fts_read_touchdata cfg ts_data env).2
      .fts_input_report_touch
    unfold fts_tp_state_recovery
    split_ifs <;> simp [this]
  · rw [hirq]
    have := fts_release_all_finger_no_call cfg (fts_read_touchdata cfg ts_data env).2
      .fts_input_report_touch_pv2
    unfold fts_tp_state_recovery
    split_ifs <;> simp [this]

/-- Witness for C4: a suspended device with gestures enabled and fingers 0 and 1 down reads
`FF FF FF FF FF 12 34 FF ...`. -/
theorem fts_irq_read_report_fw_init_witness :
    (fts_read_parse_touchdata ft3683g_config
        { ts_awake 3 with suspended := true, gesture_support := true } gesture_zero
        env_fw_init).ret = ft3683g_config.TOUCH_FW_INIT ∧
    (∃ rest, (fts_irq_read_report ft3683g_config
        { ts_awake 3 with suspended := true, gesture_support := true } gesture_zero
        env_fw_init).out =
      Ev.call .fts_release_all_finger ::
        (fts_release_all_finger ft3683g_config (fts_read_touchdata ft3683g_config
          { ts_awake 3 with suspended := true, gesture_support := true } env_fw_init).2).2 ++
        Ev.call .fts_tp_state_recovery :: Ev.call .fts_wait_tp_to_valid :: rest) ∧
    Ev.call .fts_input_report_touch ∉ (fts_irq_read_report ft3683g_config
        { ts_awake 3 with suspended := true, gesture_support := true } gesture_zero
        env_fw_init).out ∧
    Ev.call .fts_input_report_touch_pv2 ∉ (fts_irq_read_report ft3683g_config
        { ts_awake 3 with suspended := true, gesture_support := true } gesture_zero
        env_fw_init).out :=
  fts_irq_read_report_fw_init ft3683g_config
    { ts_awake 3 with suspended := true, gesture_support := true } gesture_zero env_fw_init
    (by decide) (by decide) (by decide)

theorem and_BIT_eq_zero (d i : Nat) (h : d.testBit i = false) : d &&& BIT i = 0 := by
  have := BIT_and_ne_zero i d
  rw [h, Nat.and_comm] at this
  simpa using this

/-- C5. For each of the gesture ids `0x24` (double click), `0x25` (click) and `0x26` (FOD
press): when the gesture-enable register reads `ENABLE`, the gesture buffer was obtained
and carries that id, and the corresponding bit of `gesture_status` (`GESTURE_DOUBLETAP`,
`GESTURE_SINGLETAP`, `GESTURE_FOD`) is clear, `fts_gesture_readdata` emits no key event,
calls no notification hook (its trace is empty) and returns 1, not a negative error code. -/
theorem fts_gesture_readdata_not_armed (cfg : FtsConfig) (ts_data : fts_ts_data)
    (gesture : fts_gesture_st) (touch_buf : Option Buf) (gesture_en : Nat) (read_ret : Int)
    (read_data buf : Buf)
    (hen : gesture_en % 256 = cfg.ENABLE)
    (hbuf : fts_gesture_readdata_buf cfg ts_data touch_buf read_ret read_data = .ok buf)
    (hcase : (buf 2 = 0x24 ∧ ts_data.gesture_status.testBit cfg.GESTURE_DOUBLETAP = false) ∨
      (buf 2 = 0x25 ∧ ts_data.gesture_status.testBit cfg.GESTURE_SINGLETAP = false) ∨
      (buf 2 = 0x26 ∧ ts_data.gesture_status.testBit cfg.GESTURE_FOD = false)) :
    (fts_gesture_readdata cfg ts_data gesture touch_buf gesture_en read_ret read_data).ret = 1 ∧
    (fts_gesture_readdata cfg ts_data gesture touch_buf gesture_en read_ret read_data).out
      = [] := by
  unfold fts_gesture_readdata
  rw [if_neg (not_not.mpr hen), hbuf]
  simp only [GESTURE_DOUBLECLICK, GESTURE_CLICK, GESTURE_FODPRESS, GESTURE_DOUBLETAP_EN,
    GESTURE_SINGLETAP_EN, GESTURE_FOD_EN]
  rcases hcase with ⟨hid, hb⟩ | ⟨hid, hb⟩ | ⟨hid, hb⟩
  · rw [if_pos ⟨hid, and_BIT_eq_zero _ _ hb⟩]
    exact ⟨rfl, rfl⟩
  · rw [if_neg (by rw [hid]; simp), if_pos ⟨hid, and_BIT_eq_zero _ _ hb⟩]
    exact ⟨rfl, rfl⟩
  · rw [if_neg (by rw [hid]; simp), if_neg (by rw [hid]; simp),
      if_pos ⟨hid, and_BIT_eq_zero _ _ hb⟩]
    exact ⟨rfl, rfl⟩

/-- Witness for C5: gesture id `0x24` read over the bus while only the single-tap and FOD
bits of `gesture_status` are set. -/
theorem fts_gesture_readdata_not_armed_witness :
    (fts_gesture_readdata ft3683g_config
      { ts_awake 0 with suspended := true, gesture_support := true, gesture_status := 6 }
      gesture_zero none 1 0 (Buf.ofList [0x24, 0x00])).ret = 1 ∧
    (fts_gesture_readdata ft3683g_config
      { ts_awake 0 with suspended := true, gesture_support := true, gesture_status := 6 }
      gesture_zero none 1 0 (Buf.ofList [0x24, 0x00])).out = [] :=
  fts_gesture_readdata_not_armed ft3683g_config
    { ts_awake 0 with suspended := true, gesture_support := true, gesture_status := 6 }
    gesture_zero none 1 0 (Buf.ofList [0x24, 0x00])
    (fun i => if i < 2 then 0 else rd (Buf.ofList [0x24, 0x00]) (i - 2))
    (by decide) (by rfl) (Or.inl ⟨by decide, by decide⟩)

theorem fts_release_all_finger_slots_up_reports (f : Nat) (l : List Nat) (cur : Option Nat) :
    up_reports f cur (fts_release_all_finger_slots l ++ [Ev.input (.report_key .BTN_TOUCH 0)])
      = List.count f l := by
  induction l generalizing cur with
  | nil => simp [fts_release_all_finger_slots, up_reports]
  | cons i rest ih =>
    have a := ih (some i)
    unfold fts_release_all_finger_slots
    by_cases hif : i = f
    · subst hif
      simp [up_reports, a, Nat.add_comm]
    · have hne : ¬ (f = i) := fun h => hif h.symm
      simp [up_reports, a, hif, List.count_cons, hne]

theorem fts_release_all_finger_up_reports (cfg : FtsConfig) (ts_data : fts_ts_data) (f : Nat)
    (cur : Option Nat) :
    up_reports f cur (fts_release_all_finger cfg ts_data).2 =
      if cfg.FTS_MT_PROTOCOL_B_EN = true ∧ f < ts_data.pdata.max_touch_number then 1 else 0 := by
  unfold fts_release_all_finger
  simp only []
  have hcount : List.count f (List.range ts_data.pdata.max_touch_number)
      = if f < ts_data.pdata.max_touch_number then 1 else 0 := by
    split_ifs with h
    · exact List.count_eq_one_of_mem (List.nodup_range _) (List.mem_range.mpr h)
    · exact List.count_eq_zero_of_not_mem (fun hm => h (List.mem_range.mp hm))
  have hs := fts_release_all_finger_slots_up_reports f
    (List.range ts_data.pdata.max_touch_number) cur
  rw [up_reports_append] at hs
  have htail : ∀ (c : Option Nat) (l : List Ev),
      up_reports f c (l ++ [Ev.input (.report_key .BTN_TOUCH 0), Ev.input .sync] ++
        (if cfg.FTS_PEN_EN = true then
          [Ev.pen (.report_key .BTN_TOOL_PEN 0), Ev.pen (.report_key .BTN_TOUCH 0),
            Ev.pen .sync]
        else [])) = up_reports f c l := by
    intro c l
    rw [up_reports_append, up_reports_append]
    cases cfg.FTS_PEN_EN <;> simp [up_reports]
  rw [htail]
  cases hb : cfg.FTS_MT_PROTOCOL_B_EN
  · simp [up_reports]
  · simp only [if_true, true_and]
    rw [← hcount]
    simpa [up_reports] using hs

/-- C6, counterexample. On a 10-point protocol-B panel with fingers 0 and 1 down, finger 0
is UP after the first `fts_release_all_finger` (its bit in `touch_points` is clear), yet the
second call reports slot 0 UP once more. -/
theorem fts_release_all_finger_twice_repeats_up :
    (fts_release_all_finger ft3683g_config (ts_awake 3)).1.touch_points.testBit 0 = false ∧
    up_reports 0 none (fts_release_all_finger ft3683g_config
      (fts_release_all_finger ft3683g_config (ts_awake 3)).1).2 = 1 := by
  decide

/-- C6, amended. Calling `fts_release_all_finger` twice in a row: for every starting state
the second call leaves the driver state exactly as the first call left it
(`touch_points = 0`, `key_state = 0`) and makes the same calls as the first; with
`FTS_MT_PROTOCOL_B_EN` these include exactly one UP report (slot state false) for every slot
id below `max_touch_number`, whether or not that id was already UP, and none for other ids;
without protocol B there is no UP report at all. -/
theorem fts_release_all_finger_twice (cfg : FtsConfig) (ts_data : fts_ts_data) :
    (fts_release_all_finger cfg (fts_release_all_finger cfg ts_data).1).1
      = (fts_release_all_finger cfg ts_data).1 ∧
    (fts_release_all_finger cfg (fts_release_all_finger cfg ts_data).1).2
      = (fts_release_all_finger cfg ts_data).2 ∧
    (fts_release_all_finger cfg ts_data).1.touch_points = 0 ∧
    (fts_release_all_finger cfg ts_data).1.key_state = 0 ∧
    ∀ (f : Nat) (cur : Option Nat),
      up_reports f cur (fts_release_all_finger cfg (fts_release_all_finger cfg ts_data).1).2 =
        if cfg.FTS_MT_PROTOCOL_B_EN = true ∧ f < ts_data.pdata.max_touch_number then 1 else 0 := by
  refine ⟨rfl, rfl, rfl, rfl, ?_⟩
  intro f cur
  exact fts_release_all_finger_up_reports cfg _ f cur

/-- C7. For every `id_h`, `id_l` with `id_h = 0` or `id_l = 0`, either value of `fw_valid`
and whatever the chip tables hold, `fts_get_chip_types` returns `-EINVAL` without consulting
the 3683g table, the 3681 table or the custom-id table (no `fts_match_cid` call), and leaves
the driver state (`ic_info`, `ic_type_flag`) and `FTS_CHIP_TYPE` unchanged. -/
theorem fts_get_chip_types_zero_id (cfg : FtsConfig) (ts_data : fts_ts_data)
    (FTS_CHIP_TYPE : Int) (id_h id_l : Nat) (fw_valid : Bool) (h : id_h = 0 ∨ id_l = 0) :
    fts_get_chip_types cfg ts_data FTS_CHIP_TYPE id_h id_l fw_valid
      = ⟨- EINVAL, ts_data, FTS_CHIP_TYPE, []⟩ := by
  unfold fts_get_chip_types
  rw [if_pos (h.imp Eq.symm Eq.symm)]

/-- Witness for C7: `id_h = 0`, `id_l = 0`. -/
theorem fts_get_chip_types_zero_id_witness :
    fts_get_chip_types ft3683g_config (ts_awake 0) 0x3683 0 0 true
      = ⟨- EINVAL, ts_awake 0, 0x3683, []⟩ :=
  fts_get_chip_types_zero_id ft3683g_config (ts_awake 0) 0x3683 0 0 true (Or.inl rfl)

theorem s32_of_lt (n : Nat) (h : n < 2 ^ 31) : s32 (n : Int) = n := by
  unfold s32
  norm_num at h ⊢
  omega

/-- C8: the code at `bits_per_word = 4`, which is not a multiple of 8.  With FIFO width 32,
depth 16, watermark 1 and 100 bytes left, `spi_setup_word_len` packs 8 SPI words in a FIFO
word and `geni_spi_handle_tx` budgets 60 bytes, the byte-aligned `(16 - 1) * (32 / 8)`, and
not the `(16 - 1) * ceil(4 / 8) = 15` of per-word packing that the claim and the comments
of the two functions give for a word length that is not byte aligned. -/
theorem geni_spi_handle_tx_word_len_4_is_byte_aligned :
    (mas_fifo 4).cur_word_len % 8 ≠ 0 ∧
    spi_setup_word_len_pack_words (mas_fifo 4) 4 = 8 ∧
    geni_spi_handle_tx_max_bytes (mas_fifo 4) = 60 ∧
    spec_max_bytes (mas_fifo 4) = 15 ∧
    aligned_max_bytes (mas_fifo 4) = 60 ∧
    (geni_spi_handle_tx (mas_fifo 4)).1.tx_rem_bytes = 40 := by
  decide

/-- The byte budget for the other word lengths.  For every FIFO-mode transfer with FIFO
width 32 whose word length
(`cur_word_len`, the transfer's `bits_per_word`, 4..32) is not a multiple of 8:
when the word length does not divide the FIFO width, i.e. for every such value other than 4,
`geni_spi_handle_tx` computes its byte budget with per-word packing of
`ceil(bits_per_word / 8)` bytes per FIFO word,
`max_bytes = min(tx_rem_bytes, (tx_fifo_depth - tx_wm) * ceil(bits_per_word / 8))`;
for word length 4, which divides the FIFO width, it uses the byte-aligned
`min(tx_rem_bytes, (tx_fifo_depth - tx_wm) * (tx_fifo_width / 8))`. -/
theorem geni_spi_handle_tx_max_bytes_per_word (mas : spi_geni_master)
    (hw : mas.tx_fifo_width = 32) (hlo : 4 ≤ mas.cur_word_len) (hhi : mas.cur_word_len ≤ 32)
    (hna : mas.cur_word_len % 8 ≠ 0) (hrem : mas.tx_rem_bytes < 2 ^ 31) :
    (mas.cur_word_len ≠ 4 → geni_spi_handle_tx_max_bytes mas = spec_max_bytes mas) ∧
    (mas.cur_word_len = 4 → geni_spi_handle_tx_max_bytes mas = aligned_max_bytes mas) := by
  unfold geni_spi_handle_tx_max_bytes spec_max_bytes aligned_max_bytes
  rw [s32_of_lt _ hrem, hw]
  generalize mas.cur_word_len = w at hlo hhi hna
  interval_cases w <;> simp [BITS_PER_BYTE] at hna ⊢

/-- The byte budget at `bits_per_word = 12`, FIFO width 32. -/
theorem geni_spi_handle_tx_max_bytes_per_word_witness :
    ((mas_fifo 12).cur_word_len ≠ 4 →
      geni_spi_handle_tx_max_bytes (mas_fifo 12) = spec_max_bytes (mas_fifo 12)) ∧
    ((mas_fifo 12).cur_word_len = 4 →
      geni_spi_handle_tx_max_bytes (mas_fifo 12) = aligned_max_bytes (mas_fifo 12)) :=
  geni_spi_handle_tx_max_bytes_per_word (mas_fifo 12) (by decide) (by decide) (by decide)
    (by decide) (by decide)

theorem config0_submitted_append (a b : List SpiEv) :
    config0_submitted (a ++ b) = config0_submitted a + config0_submitted b := by
  induction a with
  | nil => simp [config0_submitted]
  | cons e a ih => cases e <;> simp [config0_submitted, ih, Nat.add_assoc]

theorem spi_geni_lock_bus_config0 (env : GsiEnv) :
    config0_submitted (spi_geni_lock_bus env).2 = 0 := by
  unfold spi_geni_lock_bus
  split_ifs <;> simp [config0_submitted]

theorem gsi_wait_loop_config0 (ok : Nat → Bool) (ev : SpiEv) (hev : ∀ sg, ev ≠ SpiEv.submit_tx sg)
    (l : List Nat) : config0_submitted (gsi_wait_loop ok ev l).2 = 0 := by
  induction l with
  | nil => simp [gsi_wait_loop, config0_submitted]
  | cons i rest ih =>
    unfold gsi_wait_loop
    split_ifs
    · cases ev <;> simp_all [config0_submitted]
    · cases ev <;> simp_all [config0_submitted]


theorem setup_gsi_xfer_chain_ok (xfer : spi_transfer) (mas : spi_geni_master)
    (spi_slv : spi_device) (is_last : Bool) (env : GsiEnv) (c0_tre : Option Tre)
    (out0 : List SpiEv)
    (hok : (setup_gsi_xfer_chain xfer mas spi_slv is_last env c0_tre out0).ret = 0) :
    (setup_gsi_xfer_chain xfer mas spi_slv is_last env c0_tre out0).tx_sg.countP Tre.is_config0
      = (match c0_tre with | some t => [t] | none => []).countP Tre.is_config0 ∧
    SpiEv.submit_tx (setup_gsi_xfer_chain xfer mas spi_slv is_last env c0_tre out0).tx_sg
      ∈ (setup_gsi_xfer_chain xfer mas spi_slv is_last env c0_tre out0).out ∧
    config0_submitted (setup_gsi_xfer_chain xfer mas spi_slv is_last env c0_tre out0).out
      = config0_submitted out0 +
        (setup_gsi_xfer_chain xfer mas spi_slv is_last env c0_tre out0).tx_sg.countP
          Tre.is_config0 ∧
    (setup_gsi_xfer_chain xfer mas spi_slv is_last env c0_tre out0).mas.cur_word_len
      = mas.cur_word_len ∧
    (setup_gsi_xfer_chain xfer mas spi_slv is_last env c0_tre out0).mas.cur_speed_hz
      = mas.cur_speed_hz := by
  unfold setup_gsi_xfer_chain at hok ⊢
  simp only [] at hok ⊢
  cases c0_tre <;> split_ifs at hok ⊢ <;>
    first
    | (simp [ EIO] at hok; done)
    | (clear hok
       simp [config0_submitted_append, config0_submitted, setup_go_tre, setup_dma_tre,
        Tre.is_config0, List.countP_append, List.countP_cons])

theorem setup_gsi_xfer_chain_countP (xfer : spi_transfer) (mas : spi_geni_master)
    (spi_slv : spi_device) (is_last : Bool) (env : GsiEnv) (c0_tre : Option Tre)
    (out0 : List SpiEv) :
    (setup_gsi_xfer_chain xfer mas spi_slv is_last env c0_tre out0).tx_sg.countP Tre.is_config0
      ≤ (match c0_tre with | some _ => 1 | none => 0) := by
  unfold setup_gsi_xfer_chain
  simp only []
  cases c0_tre with
  | none =>
    split_ifs <;>
      simp [setup_go_tre, setup_dma_tre, Tre.is_config0, List.countP_append, List.countP_cons]
  | some t =>
    have hle : ∀ (l : List Tre), l.countP Tre.is_config0 = 0 →
        (t :: l).countP Tre.is_config0 ≤ 1 := by
      intro l hl
      rw [List.countP_cons, hl]
      split_ifs <;> simp
    split_ifs <;> exact hle _ (by simp [setup_go_tre, setup_dma_tre, Tre.is_config0])

theorem setup_gsi_xfer_countP_le (gcfg : GeniConfig) (xfer : spi_transfer)
    (mas : spi_geni_master) (spi_slv : spi_device) (is_last : Bool) (env : GsiEnv) :
    (setup_gsi_xfer gcfg xfer mas spi_slv is_last env).tx_sg.countP Tre.is_config0
      ≤ (if xfer.bits_per_word ≠ mas.cur_word_len ∨ xfer.speed_hz ≠ mas.cur_speed_hz
          then 1 else 0) := by
  unfold setup_gsi_xfer
  simp only []
  have hm0 : (if (mas.is_le_vm && mas.le_gpi_reset_done) = true then
        { mas with le_gpi_reset_done := false } else mas).cur_word_len = mas.cur_word_len ∧
      (if (mas.is_le_vm && mas.le_gpi_reset_done) = true then
        { mas with le_gpi_reset_done := false } else mas).cur_speed_hz = mas.cur_speed_hz := by
    split_ifs <;> exact ⟨rfl, rfl⟩
  generalize (if (mas.is_le_vm && mas.le_gpi_reset_done) = true then spi_geni_lock_bus env
        else (0, [])) = lock
  generalize (if (mas.is_le_vm && mas.le_gpi_reset_done) = true then
        { mas with le_gpi_reset_done := false } else mas) = mas0 at hm0 ⊢
  rw [← hm0.1, ← hm0.2]
  by_cases hl : lock.1 ≠ 0
  · rw [if_pos hl]
    simp
  · rw [if_neg hl]
    by_cases hch : xfer.bits_per_word ≠ mas0.cur_word_len ∨ xfer.speed_hz ≠ mas0.cur_speed_hz
    · rw [if_pos hch, if_pos hch]
      generalize setup_config0_tre _ _ _ _ _ _ _ = c
      cases c with
      | error r => simp
      | ok t =>
        have := setup_gsi_xfer_chain_countP xfer
          { mas0 with cur_word_len := xfer.bits_per_word, cur_speed_hz := xfer.speed_hz }
          spi_slv is_last env (some t) lock.2
        simpa using this
    · rw [if_neg hch, if_neg hch]
      have := setup_gsi_xfer_chain_countP xfer mas0 spi_slv is_last env none lock.2
      simpa using this

theorem setup_config0_tre_cases (gcfg : GeniConfig) (xfer : spi_transfer) (mas : spi_geni_master)
    (mode cs_clk_delay inter_words_delay : Nat) (env : GsiEnv) :
    (∃ r, r ≠ 0 ∧ setup_config0_tre gcfg xfer mas mode cs_clk_delay inter_words_delay env
      = .error r) ∨
    (∃ t, t.is_config0 = true ∧
      setup_config0_tre gcfg xfer mas mode cs_clk_delay inter_words_delay env = .ok t) := by
  unfold setup_config0_tre
  simp only []
  by_cases h1 : mas.is_le_vm = true
  · rw [if_pos h1]
    refine Or.inr ⟨_, ?_, rfl⟩
    rfl
  · rw [if_neg h1]
    by_cases h2 : (get_spi_clk_cfg mas.cur_speed_hz mas env).1 ≠ 0
    · rw [if_pos h2]
      exact Or.inl ⟨_, h2, rfl⟩
    · rw [if_neg h2]
      refine Or.inr ⟨_, ?_, rfl⟩
      rfl

theorem setup_gsi_xfer_ok (gcfg : GeniConfig) (xfer : spi_transfer) (mas : spi_geni_master)
    (spi_slv : spi_device) (is_last : Bool) (env : GsiEnv)
    (hok : (setup_gsi_xfer gcfg xfer mas spi_slv is_last env).ret = 0) :
    (setup_gsi_xfer gcfg xfer mas spi_slv is_last env).tx_sg.countP Tre.is_config0
      = (if xfer.bits_per_word ≠ mas.cur_word_len ∨ xfer.speed_hz ≠ mas.cur_speed_hz
          then 1 else 0) ∧
    SpiEv.submit_tx (setup_gsi_xfer gcfg xfer mas spi_slv is_last env).tx_sg
      ∈ (setup_gsi_xfer gcfg xfer mas spi_slv is_last env).out ∧
    config0_submitted (setup_gsi_xfer gcfg xfer mas spi_slv is_last env).out
      = (setup_gsi_xfer gcfg xfer mas spi_slv is_last env).tx_sg.countP Tre.is_config0 ∧
    (setup_gsi_xfer gcfg xfer mas spi_slv is_last env).mas.cur_word_len = xfer.bits_per_word ∧
    (setup_gsi_xfer gcfg xfer mas spi_slv is_last env).mas.cur_speed_hz = xfer.speed_hz := by
  unfold setup_gsi_xfer at hok ⊢
  simp only [] at hok ⊢
  have hlock0 : config0_submitted
      (if (mas.is_le_vm && mas.le_gpi_reset_done) = true then spi_geni_lock_bus env
        else (0, [])).2 = 0 := by
    split_ifs
    · exact spi_geni_lock_bus_config0 env
    · rfl
  have hm0 : (if (mas.is_le_vm && mas.le_gpi_reset_done) = true then
        { mas with le_gpi_reset_done := false } else mas).cur_word_len = mas.cur_word_len ∧
      (if (mas.is_le_vm && mas.le_gpi_reset_done) = true then
        { mas with le_gpi_reset_done := false } else mas).cur_speed_hz = mas.cur_speed_hz := by
    split_ifs <;> exact ⟨rfl, rfl⟩
  generalize (if (mas.is_le_vm && mas.le_gpi_reset_done) = true then spi_geni_lock_bus env
        else (0, [])) = lock at hok hlock0 ⊢
  generalize (if (mas.is_le_vm && mas.le_gpi_reset_done) = true then
        { mas with le_gpi_reset_done := false } else mas) = mas0 at hok hm0 ⊢
  rw [← hm0.1, ← hm0.2]
  by_cases hl : lock.1 ≠ 0
  · rw [if_pos hl] at hok
    exact absurd hok hl
  · rw [if_neg hl] at hok ⊢
    by_cases hch : xfer.bits_per_word ≠ mas0.cur_word_len ∨ xfer.speed_hz ≠ mas0.cur_speed_hz
    · rw [if_pos hch] at hok ⊢
      generalize hc : setup_config0_tre _ _ _ _ _ _ _ = c at hok ⊢
      have hcs : (∃ r, r ≠ 0 ∧ c = .error r) ∨ (∃ t, t.is_config0 = true ∧ c = .ok t) := by
        rw [← hc]
        exact setup_config0_tre_cases _ _ _ _ _ _ _
      rcases hcs with ⟨r, hr, he⟩ | ⟨t, ht, he⟩
      · rw [he] at hok
        exact absurd hok hr
      · rw [he] at hok ⊢
        simp only [] at hok ⊢
        obtain ⟨a, b, c, d, e⟩ := setup_gsi_xfer_chain_ok xfer _ spi_slv is_last env (some t)
          lock.2 hok
        rw [hlock0, Nat.zero_add] at c
        refine ⟨?_, b, c, d, e⟩
        rw [a, if_pos hch]
        simp [List.countP_cons, ht]
    · rw [if_neg hch] at hok ⊢
      obtain ⟨a, b, c, d, e⟩ := setup_gsi_xfer_chain_ok xfer _ spi_slv is_last env none
        lock.2 hok
      rw [hlock0, Nat.zero_add] at c
      have hch' : xfer.bits_per_word = mas0.cur_word_len ∧ xfer.speed_hz = mas0.cur_speed_hz := by
        constructor
        · by_contra h; exact hch (Or.inl h)
        · by_contra h; exact hch (Or.inr h)
      refine ⟨?_, b, c, ?_, ?_⟩
      · rw [a, if_neg hch]; rfl
      · rw [d]; exact hch'.1.symm
      · rw [e]; exact hch'.2.symm

theorem spi_geni_transfer_one_gsi_ok (gcfg : GeniConfig) (mas : spi_geni_master)
    (slv : spi_device) (xfer : spi_transfer) (is_last : Bool) (env : GsiEnv)
    (hok : (spi_geni_transfer_one_gsi gcfg mas slv xfer is_last env).ret = 0) :
    (setup_gsi_xfer gcfg xfer
      { mas with num_tx_eot := 0, num_rx_eot := 0, num_xfers := 0, qn_err := false }
      slv is_last env).ret = 0 ∧
    config0_submitted (spi_geni_transfer_one_gsi gcfg mas slv xfer is_last env).out
      = config0_submitted (setup_gsi_xfer gcfg xfer
          { mas with num_tx_eot := 0, num_rx_eot := 0, num_xfers := 0, qn_err := false }
          slv is_last env).out ∧
    (spi_geni_transfer_one_gsi gcfg mas slv xfer is_last env).mas.cur_word_len
      = (setup_gsi_xfer gcfg xfer
          { mas with num_tx_eot := 0, num_rx_eot := 0, num_xfers := 0, qn_err := false }
          slv is_last env).mas.cur_word_len ∧
    (spi_geni_transfer_one_gsi gcfg mas slv xfer is_last env).mas.cur_speed_hz
      = (setup_gsi_xfer gcfg xfer
          { mas with num_tx_eot := 0, num_rx_eot := 0, num_xfers := 0, qn_err := false }
          slv is_last env).mas.cur_speed_hz := by
  unfold spi_geni_transfer_one_gsi at hok ⊢
  simp only [] at hok ⊢
  generalize setup_gsi_xfer gcfg xfer
      { mas with num_tx_eot := 0, num_rx_eot := 0, num_xfers := 0, qn_err := false }
      slv is_last env = s at hok ⊢
  have hw1 := gsi_wait_loop_config0 env.tx_wait_ok SpiEv.wait_tx_cb (by intro sg h; cases h)
    (List.range s.mas.num_tx_eot)
  have hw2 := gsi_wait_loop_config0 env.rx_wait_ok SpiEv.wait_rx_cb (by intro sg h; cases h)
    (List.range s.mas.num_rx_eot)
  by_cases h1 : (xfer.tx_buf.isNone && xfer.rx_buf.isNone) = true
  · rw [if_pos h1] at hok; simp [err_gsi_geni_transfer_one, EINVAL, EACCES, ETIMEDOUT, EIO] at hok
  rw [if_neg h1] at hok ⊢
  by_cases h2 : xfer.len < 1
  · rw [if_pos h2] at hok; simp [err_gsi_geni_transfer_one, EINVAL, EACCES, ETIMEDOUT, EIO] at hok
  rw [if_neg h2] at hok ⊢
  by_cases h3 : env.pm_suspended = true
  · rw [if_pos h3] at hok; simp [err_gsi_geni_transfer_one, EINVAL, EACCES, ETIMEDOUT, EIO] at hok
  rw [if_neg h3] at hok ⊢
  by_cases h4 : s.ret ≠ 0
  · rw [if_pos h4] at hok; exact absurd hok h4
  rw [if_neg h4] at hok ⊢
  have h4' : s.ret = 0 := not_not.mp h4
  by_cases h5 : (decide (s.mas.num_xfers ≥ NUM_SPI_XFER) || is_last) = true
  · rw [if_pos h5] at hok ⊢
    by_cases h6 : (!(gsi_wait_loop env.tx_wait_ok SpiEv.wait_tx_cb
        (List.range s.mas.num_tx_eot)).1) = true
    · rw [if_pos h6] at hok; simp [err_gsi_geni_transfer_one, EINVAL, EACCES, ETIMEDOUT, EIO] at hok
    rw [if_neg h6] at hok ⊢
    by_cases h7 : (!(gsi_wait_loop env.rx_wait_ok SpiEv.wait_rx_cb
        (List.range s.mas.num_rx_eot)).1) = true
    · rw [if_pos h7] at hok; simp [err_gsi_geni_transfer_one, EINVAL, EACCES, ETIMEDOUT, EIO] at hok
    rw [if_neg h7] at hok ⊢
    by_cases h8 : env.qn_err = true
    · rw [if_pos h8] at hok; simp [err_gsi_geni_transfer_one, EINVAL, EACCES, ETIMEDOUT, EIO] at hok
    rw [if_neg h8] at hok ⊢
    refine ⟨h4', ?_, rfl, rfl⟩
    simp only [config0_submitted_append, hw1, hw2, Nat.add_zero]
  · rw [if_neg h5] at hok ⊢
    exact ⟨h4', rfl, rfl, rfl⟩

/-- C9. In GSI mode `setup_gsi_xfer` places a config0 TRE in a transfer's TX chain if and
only if the transfer's `bits_per_word` differs from `cur_word_len` or its `speed_hz` differs
from `cur_speed_hz` at entry: no call puts a config0 TRE in the TX scatterlist unless one of
them differs, and never more than one; every call that builds and submits its TX chain
(returns 0) puts exactly one there when one of them differs, and leaves the transfer's
values recorded as current.  Consequently, for a message of two transfers handed to
`spi_geni_transfer_one` where the first changes the speed and the second has the same
`bits_per_word` and `speed_hz` as the first, exactly one config0 TRE is submitted for
transfer 1 and none for transfer 2. -/
theorem setup_gsi_xfer_config0_iff_changed (gcfg : GeniConfig) (mas : spi_geni_master)
    (slv : spi_device) (x1 x2 : spi_transfer) (is_last : Bool) (env1 env2 : GsiEnv) :
    (setup_gsi_xfer gcfg x1 mas slv is_last env1).tx_sg.countP Tre.is_config0
      ≤ (if x1.bits_per_word ≠ mas.cur_word_len ∨ x1.speed_hz ≠ mas.cur_speed_hz
          then 1 else 0) ∧
    ((setup_gsi_xfer gcfg x1 mas slv is_last env1).ret = 0 →
      SpiEv.submit_tx (setup_gsi_xfer gcfg x1 mas slv is_last env1).tx_sg
        ∈ (setup_gsi_xfer gcfg x1 mas slv is_last env1).out ∧
      (setup_gsi_xfer gcfg x1 mas slv is_last env1).tx_sg.countP Tre.is_config0
        = (if x1.bits_per_word ≠ mas.cur_word_len ∨ x1.speed_hz ≠ mas.cur_speed_hz
            then 1 else 0) ∧
      (setup_gsi_xfer gcfg x1 mas slv is_last env1).mas.cur_word_len = x1.bits_per_word ∧
      (setup_gsi_xfer gcfg x1 mas slv is_last env1).mas.cur_speed_hz = x1.speed_hz) ∧
    (x1.speed_hz ≠ mas.cur_speed_hz → x2.bits_per_word = x1.bits_per_word →
      x2.speed_hz = x1.speed_hz →
      (spi_geni_transfer_one_gsi gcfg mas slv x1 false env1).ret = 0 →
      (spi_geni_transfer_one_gsi gcfg
        (spi_geni_transfer_one_gsi gcfg mas slv x1 false env1).mas slv x2 true env2).ret = 0 →
      config0_submitted (spi_geni_transfer_one_gsi gcfg mas slv x1 false env1).out = 1 ∧
      config0_submitted (spi_geni_transfer_one_gsi gcfg
        (spi_geni_transfer_one_gsi gcfg mas slv x1 false env1).mas slv x2 true env2).out
        = 0) := by
  refine ⟨setup_gsi_xfer_countP_le gcfg x1 mas slv is_last env1, ?_, ?_⟩
  · intro hok
    obtain ⟨a, b, _, d, e⟩ := setup_gsi_xfer_ok gcfg x1 mas slv is_last env1 hok
    exact ⟨b, a, d, e⟩
  · intro hsp hb hs h1 h2
    obtain ⟨s1ok, c1, w1, sp1⟩ := spi_geni_transfer_one_gsi_ok gcfg mas slv x1 false env1 h1
    obtain ⟨a1, _, k1, d1, e1⟩ := setup_gsi_xfer_ok gcfg x1 _ slv false env1 s1ok
    obtain ⟨s2ok, c2, _, _⟩ := spi_geni_transfer_one_gsi_ok gcfg _ slv x2 true env2 h2
    obtain ⟨a2, _, k2, _, _⟩ := setup_gsi_xfer_ok gcfg x2 _ slv true env2 s2ok
    constructor
    · rw [c1, k1, a1]
      exact if_pos (Or.inr hsp)
    · rw [c2, k2, a2]
      apply if_neg
      simp only [not_or, not_not]
      exact ⟨by rw [hb, w1, d1], by rw [hs, sp1, e1]⟩

/-- Witness for C9: a message of two TX-only transfers at 1 MHz, 8 bits per word, on a
controller whose current speed and word length were reset to 0 by
`spi_geni_unprepare_message`. -/
theorem setup_gsi_xfer_config0_iff_changed_witness :
    (spi_geni_unprepare_message mas_gsi).2 = mas_gsi ∧
    (setup_gsi_xfer geni_config (xfer_tx 1000000) mas_gsi slv0 false env_ok).ret = 0 ∧
    (setup_gsi_xfer geni_config (xfer_tx 1000000) mas_gsi slv0 false env_ok).tx_sg.countP
      Tre.is_config0 = 1 ∧
    config0_submitted
      (spi_geni_transfer_one_gsi geni_config mas_gsi slv0 (xfer_tx 1000000) false env_ok).out
      = 1 ∧
    config0_submitted (spi_geni_transfer_one_gsi geni_config
      (spi_geni_transfer_one_gsi geni_config mas_gsi slv0 (xfer_tx 1000000) false env_ok).mas
      slv0 (xfer_tx 1000000) true env_ok).out = 0 :=
  ⟨by decide, by decide,
    ((setup_gsi_xfer_config0_iff_changed geni_config mas_gsi slv0 (xfer_tx 1000000)
      (xfer_tx 1000000) false env_ok env_ok).2.1 (by decide)).2.1,
    (setup_gsi_xfer_config0_iff_changed geni_config mas_gsi slv0 (xfer_tx 1000000)
      (xfer_tx 1000000) false env_ok env_ok).2.2 (by decide) rfl rfl (by decide) (by decide)⟩

/-- C10, the code at the failing input. A GSI-mode message of two TX-only transfers, with
every descriptor prepared and every completion arriving in time, is carried out with return
value 0; `setup_gsi_xfer` submits two TX data descriptors over the message, but
`spi_geni_transfer_one`, which sets `num_tx_eot`, `num_rx_eot` and `num_xfers` back to 0
on every call, waits for one TX completion only. -/
theorem spi_geni_transfer_one_gsi_waits_for_last_transfer_only :
    (gsi_message geni_config slv0 env_ok mas_gsi [xfer_tx 1000000, xfer_tx 1000000]).ret = 0 ∧
    tx_data_submitted
      (gsi_message geni_config slv0 env_ok mas_gsi [xfer_tx 1000000, xfer_tx 1000000]).out
      = 2 ∧
    tx_waits
      (gsi_message geni_config slv0 env_ok mas_gsi [xfer_tx 1000000, xfer_tx 1000000]).out
      = 1 ∧
    (gsi_message geni_config slv0 env_ok mas_gsi
      [xfer_tx 1000000, xfer_tx 1000000]).mas.num_xfers = 1 := by
  decide

/-! ## The FIFO / SE-DMA branch of `spi_geni_transfer_one` -/

theorem quiet_nil : quiet [] := by intro e h; cases h

theorem quiet_append {a b : List SpiEv} (ha : quiet a) (hb : quiet b) : quiet (a ++ b) := by
  intro e h
  rcases List.mem_append.mp h with h | h
  · exact ha e h
  · exact hb e h

theorem quiet_ite {c : Prop} [Decidable c] {a b : List SpiEv} (ha : quiet a) (hb : quiet b) :
    quiet (if c then a else b) := by
  split
  · exact ha
  · exact hb

theorem quiet_singleton {e : SpiEv} (h1 : e.is_cancel_or_abort = false)
    (h2 : e.is_wait = false) : quiet [e] := by
  intro x hx
  rcases List.mem_singleton.mp hx with rfl
  exact ⟨h1, h2⟩

theorem no_cancel_abort_nil : no_cancel_abort [] := by intro e h; cases h

theorem no_cancel_abort_append {a b : List SpiEv} (ha : no_cancel_abort a)
    (hb : no_cancel_abort b) : no_cancel_abort (a ++ b) := by
  intro e h
  rcases List.mem_append.mp h with h | h
  · exact ha e h
  · exact hb e h

theorem quiet_no_cancel_abort {a : List SpiEv} (ha : quiet a) : no_cancel_abort a :=
  fun e h => (ha e h).1

theorem geni_spi_handle_tx_loop_quiet (bpf mb : Int) (buf : List Nat) (fuel : Nat) (i : Int) :
    quiet (geni_spi_handle_tx_loop bpf mb buf fuel i) := by
  induction fuel generalizing i with
  | zero => exact quiet_nil
  | succ n ih =>
    unfold geni_spi_handle_tx_loop
    split
    · intro e h
      rcases List.mem_cons.mp h with h | h
      · subst h; exact ⟨rfl, rfl⟩
      · exact ih _ e h
    · exact quiet_nil

theorem geni_spi_handle_tx_quiet (mas : spi_geni_master) : quiet (geni_spi_handle_tx mas).2 := by
  unfold geni_spi_handle_tx
  split
  · exact quiet_nil
  · apply quiet_append (geni_spi_handle_tx_loop_quiet _ _ _ _ _)
    split
    · intro e h
      rcases List.mem_singleton.mp h with rfl
      exact ⟨rfl, rfl⟩
    · exact quiet_nil

theorem geni_spi_handle_rx_quiet (gcfg : GeniConfig) (mas : spi_geni_master) (regs : IrqRegs) :
    quiet (geni_spi_handle_rx gcfg mas regs).2 := by
  unfold geni_spi_handle_rx
  split
  · exact quiet_nil
  · show quiet (if _ then _ else _)
    split
    · intro e h
      rcases List.mem_singleton.mp h with rfl
      exact ⟨rfl, rfl⟩
    · exact quiet_nil

theorem geni_spi_irq_fifo_quiet (gcfg : GeniConfig) (mas : spi_geni_master) (regs : IrqRegs) :
    quiet (geni_spi_irq_fifo gcfg mas regs).2 := by
  have hrx : quiet (if (regs.m_irq % 2 ^ 32) &&& gcfg.M_RX_FIFO_WATERMARK_EN ≠ 0 ∨
      (regs.m_irq % 2 ^ 32) &&& gcfg.M_RX_FIFO_LAST_EN ≠ 0 then
        geni_spi_handle_rx gcfg mas regs else (mas, [])).2 := by
    split
    · exact geni_spi_handle_rx_quiet _ _ _
    · exact quiet_nil
  have htx : ∀ m : spi_geni_master, quiet (if (regs.m_irq % 2 ^ 32) &&&
      gcfg.M_TX_FIFO_WATERMARK_EN ≠ 0 then geni_spi_handle_tx m else (m, [])).2 := by
    intro m
    split
    · exact geni_spi_handle_tx_quiet _
    · exact quiet_nil
  unfold geni_spi_irq_fifo
  show quiet (Prod.snd (if _ then _ else _))
  split
  · show quiet (_ ++ _ ++ _)
    exact quiet_append (quiet_append hrx (htx _)) (quiet_ite (quiet_singleton rfl rfl) quiet_nil)
  · exact quiet_append hrx (htx _)

theorem geni_spi_irq_body_quiet (gcfg : GeniConfig) (mas : spi_geni_master) (regs : IrqRegs) :
    quiet (geni_spi_irq_body gcfg mas regs).2 := by
  unfold geni_spi_irq_body
  split
  · exact quiet_nil
  · split
    · exact geni_spi_irq_fifo_quiet _ _ _
    · split <;> exact quiet_nil

theorem geni_spi_irq_quiet (gcfg : GeniConfig) (mas : spi_geni_master) (regs : IrqRegs) :
    quiet (geni_spi_irq gcfg mas regs).out := by
  unfold geni_spi_irq
  show quiet (IrqOut.out (if _ then _ else _))
  split <;> exact geni_spi_irq_body_quiet _ _ _

theorem xfer_done_irqs_quiet (gcfg : GeniConfig) (mas : spi_geni_master) (irqs : List IrqRegs) :
    quiet (xfer_done_irqs gcfg mas irqs).out := by
  induction irqs generalizing mas with
  | nil => exact quiet_nil
  | cons r rest ih =>
    unfold xfer_done_irqs
    show quiet (WaitRes.out (if _ then _ else _))
    split
    · exact geni_spi_irq_quiet _ _ _
    · exact quiet_append (geni_spi_irq_quiet _ _ _) (ih _)



theorem wait_xfer_done_out (gcfg : GeniConfig) (mas : spi_geni_master) (irqs : List IrqRegs) :
    ∃ pre, quiet pre ∧
      (wait_xfer_done gcfg mas irqs).out =
        pre ++ [SpiEv.wait_xfer_done (wait_xfer_done gcfg mas irqs).done] :=
  ⟨_, xfer_done_irqs_quiet gcfg mas irqs, rfl⟩

theorem wait_xfer_done_no_cancel_abort (gcfg : GeniConfig) (mas : spi_geni_master)
    (irqs : List IrqRegs) : no_cancel_abort (wait_xfer_done gcfg mas irqs).out := by
  obtain ⟨pre, hpre, h⟩ := wait_xfer_done_out gcfg mas irqs
  rw [h]
  apply no_cancel_abort_append (quiet_no_cancel_abort hpre)
  intro e he
  rcases List.mem_singleton.mp he with rfl
  rfl

theorem no_cancel_abort_ite {c : Prop} [Decidable c] {a b : List SpiEv} (ha : no_cancel_abort a)
    (hb : no_cancel_abort b) : no_cancel_abort (if c then a else b) := by
  split
  · exact ha
  · exact hb

theorem no_cancel_abort_cons {e : SpiEv} {a : List SpiEv} (he : e.is_cancel_or_abort = false)
    (ha : no_cancel_abort a) : no_cancel_abort (e :: a) := by
  intro x hx
  rcases List.mem_cons.mp hx with rfl | h
  · exact he
  · exact ha x h

theorem no_cancel_abort_append_iff (a b : List SpiEv) :
    no_cancel_abort (a ++ b) ↔ no_cancel_abort a ∧ no_cancel_abort b := by
  simp [no_cancel_abort, List.mem_append, or_imp, forall_and]

theorem no_cancel_abort_cons_iff (e : SpiEv) (a : List SpiEv) :
    no_cancel_abort (e :: a) ↔ e.is_cancel_or_abort = false ∧ no_cancel_abort a := by
  simp [no_cancel_abort]

theorem no_cancel_abort_ite_iff (c : Prop) [Decidable c] (a b : List SpiEv) :
    no_cancel_abort (if c then a else b) ↔ (c → no_cancel_abort a) ∧ (¬c → no_cancel_abort b) := by
  split <;> simp [*]

theorem setup_fifo_xfer_cmd_no_cancel_abort (gcfg : GeniConfig) (xfer : spi_transfer)
    (mas : spi_geni_master) (slave is_last : Bool) (env : FifoEnv) (out0 : List SpiEv)
    (h0 : no_cancel_abort out0) :
    no_cancel_abort (setup_fifo_xfer_cmd gcfg xfer mas slave is_last env out0).out := by
  unfold setup_fifo_xfer_cmd
  simp only [apply_ite FifoSetupRes.out, no_cancel_abort_ite_iff, no_cancel_abort_append_iff,
    no_cancel_abort_cons_iff, no_cancel_abort_nil, SpiEv.is_cancel_or_abort, h0, and_self,
    implies_true]



theorem setup_fifo_xfer_clk_no_cancel_abort (gcfg : GeniConfig) (xfer : spi_transfer)
    (mas : spi_geni_master) (slave is_last : Bool) (env : FifoEnv) (out0 : List SpiEv)
    (h0 : no_cancel_abort out0) :
    no_cancel_abort (setup_fifo_xfer_clk gcfg xfer mas slave is_last env out0).out := by
  unfold setup_fifo_xfer_clk
  split
  · show no_cancel_abort (FifoSetupRes.out (if _ then _ else _))
    split
    · exact h0
    · apply setup_fifo_xfer_cmd_no_cancel_abort
      simp only [no_cancel_abort_append_iff, no_cancel_abort_cons_iff, no_cancel_abort_nil,
        SpiEv.is_cancel_or_abort, h0, and_self]
  · exact setup_fifo_xfer_cmd_no_cancel_abort _ _ _ _ _ _ _ h0

theorem setup_fifo_xfer_no_cancel_abort (gcfg : GeniConfig) (xfer : spi_transfer)
    (mas : spi_geni_master) (mode : Nat) (slave is_last : Bool) (env : FifoEnv) :
    no_cancel_abort (setup_fifo_xfer gcfg xfer mas mode slave is_last env).out := by
  unfold setup_fifo_xfer
  split
  · apply setup_fifo_xfer_clk_no_cancel_abort
    simp only [no_cancel_abort_cons_iff, no_cancel_abort_nil, SpiEv.is_cancel_or_abort, and_self]
  · exact setup_fifo_xfer_clk_no_cancel_abort _ _ _ _ _ _ _ no_cancel_abort_nil

theorem geni_spi_dma_unprepare_master (gcfg : GeniConfig) (mas : spi_geni_master)
    (xfer : spi_transfer) (env : FifoEnv) :
    no_cancel_abort (geni_spi_dma_unprepare gcfg false mas xfer env).2 := by
  unfold geni_spi_dma_unprepare
  simp only [Bool.false_and, apply_ite Prod.snd, no_cancel_abort_ite_iff,
    no_cancel_abort_append_iff, no_cancel_abort_cons_iff, no_cancel_abort_nil,
    SpiEv.is_cancel_or_abort, wait_xfer_done_no_cancel_abort, and_self, implies_true,
    Bool.false_eq_true, not_false_eq_true, ite_false, if_false]

theorem transfer_one_wait_out (gcfg : GeniConfig) (slave : Bool) (mas : spi_geni_master)
    (env : FifoEnv) :
    no_cancel_abort (spi_geni_transfer_one_wait gcfg slave mas env).out :=
  wait_xfer_done_no_cancel_abort _ _ _



theorem wait_xfer_done_no_cancel (gcfg : GeniConfig) (mas : spi_geni_master)
    (irqs : List IrqRegs) : SpiEv.cancel_m_cmd ∉ (wait_xfer_done gcfg mas irqs).out := by
  intro h
  have := wait_xfer_done_no_cancel_abort gcfg mas irqs _ h
  simp [SpiEv.is_cancel_or_abort] at this

theorem no_cancel_ite_iff (c : Prop) [Decidable c] (a b : List SpiEv) :
    SpiEv.cancel_m_cmd ∉ (if c then a else b) ↔
      (c → SpiEv.cancel_m_cmd ∉ a) ∧ (¬c → SpiEv.cancel_m_cmd ∉ b) := by
  split <;> simp [*]

theorem geni_spi_dma_unprepare_no_cancel (gcfg : GeniConfig) (slave : Bool)
    (mas : spi_geni_master) (xfer : spi_transfer) (env : FifoEnv) :
    SpiEv.cancel_m_cmd ∉ (geni_spi_dma_unprepare gcfg slave mas xfer env).2 := by
  unfold geni_spi_dma_unprepare
  simp only [apply_ite Prod.snd, no_cancel_ite_iff, List.mem_append, List.mem_cons, not_or,
    wait_xfer_done_no_cancel, List.not_mem_nil, not_false_eq_true, implies_true, and_self,
    reduceCtorEq]

theorem handle_fifo_timeout_slave (gcfg : GeniConfig) (mas : spi_geni_master)
    (xfer : spi_transfer) (env : FifoEnv) :
    SpiEv.cancel_m_cmd ∉ (handle_fifo_timeout gcfg true mas xfer env).2 := by
  unfold handle_fifo_timeout
  simp only [if_true, no_cancel_ite_iff, List.mem_append, List.mem_cons, not_or,
    geni_spi_dma_unprepare_no_cancel, List.not_mem_nil, not_false_eq_true, implies_true,
    and_self, reduceCtorEq]

theorem handle_fifo_timeout_master (gcfg : GeniConfig) (mas : spi_geni_master)
    (xfer : spi_transfer) (env : FifoEnv) :
    ∃ pre irq1 c post,
      (handle_fifo_timeout gcfg false mas xfer env).2 =
        pre ++ SpiEv.cancel_m_cmd :: irq1 ++ SpiEv.wait_xfer_done c :: post ∧
      no_cancel_abort pre ∧ quiet irq1 ∧
      (c = true → no_cancel_abort post) ∧
      (c = false → ∃ irq2 a post2,
        post = SpiEv.abort_m_cmd :: irq2 ++ SpiEv.wait_xfer_done a :: post2 ∧
        quiet irq2 ∧ no_cancel_abort post2) := by
  have hpre : no_cancel_abort ((SpiEv.dump_dbg_regs ::
      (if mas.cur_xfer_mode = gcfg.FIFO_MODE then [SpiEv.tx_watermark_clear] else [])) ++
      (if xfer.rx_buf.isSome then List.replicate
        (s32 (((env.rx_fifo_status % 2 ^ 32) &&& gcfg.RX_FIFO_WC_MSK : Nat) : Int)).toNat
        SpiEv.rx_fifo_dummy_read else [])) := by
    simp only [no_cancel_abort_append_iff, no_cancel_abort_cons_iff, no_cancel_abort_ite_iff,
      no_cancel_abort_nil, SpiEv.is_cancel_or_abort, and_self, implies_true, true_and]
    refine ⟨fun _ e he => ?_, trivial⟩
    rw [List.eq_of_mem_replicate he]
    rfl
  obtain ⟨i1, hi1, hw1⟩ := wait_xfer_done_out gcfg mas env.irqs_cancel
  unfold handle_fifo_timeout
  simp only [Bool.false_eq_true, if_false]
  by_cases hc : (wait_xfer_done gcfg mas env.irqs_cancel).done = true
  · refine ⟨_, i1, true, (geni_spi_dma_unprepare gcfg false
      (wait_xfer_done gcfg mas env.irqs_cancel).mas xfer env).2, ?_, hpre, hi1,
      fun _ => geni_spi_dma_unprepare_master _ _ _ _, (fun h => by cases h)⟩
    simp only [hc, Bool.not_true, Bool.false_eq_true, if_false]
    rw [hw1, hc]
    simp
  · have hc' : (wait_xfer_done gcfg mas env.irqs_cancel).done = false := by
      simpa using hc
    obtain ⟨i2, hi2, hw2⟩ := wait_xfer_done_out gcfg
      (wait_xfer_done gcfg mas env.irqs_cancel).mas env.irqs_abort
    refine ⟨_, i1, false, SpiEv.abort_m_cmd :: i2 ++ SpiEv.wait_xfer_done (wait_xfer_done gcfg
        (wait_xfer_done gcfg mas env.irqs_cancel).mas env.irqs_abort).done ::
        (geni_spi_dma_unprepare gcfg false
        (wait_xfer_done gcfg (wait_xfer_done gcfg mas env.irqs_cancel).mas env.irqs_abort).mas
        xfer env).2, ?_, hpre, hi1, (fun h => by cases h),
      fun _ => ⟨i2, _, _, rfl, hi2, geni_spi_dma_unprepare_master _ _ _ _⟩⟩
    simp only [hc', Bool.not_false, if_true]
    rw [hw1, hw2, hc']
    simp

/-- C11 (code defect): a transfer whose completion arrives in time but with a DMA error (a
bit of `DMA_TX_ERROR_STATUS`, or an RX length mismatch, both of which make `handle_dma_xfer`
set `is_dma_err`) takes the error path of `spi_geni_transfer_one` (cancel, DMA unprepare) and
then returns 0, the value of a successful transfer; a timeout of the same transfer returns
`-ETIMEDOUT`. -/
theorem spi_geni_transfer_one_dma_error_returns_zero :
    (handle_dma_xfer geni_config 0x4 0 irq_dma_tx_err mas_se_dma).is_dma_err = true ∧
    (handle_dma_xfer geni_config 0x1 0x1 (irq_dma_rx_short 256 100) mas_se_dma).is_dma_err
      = true ∧
    (spi_geni_transfer_one geni_config false mas_se_dma slv0 (xfer_duplex 0 0) true
      (env_fifo [irq_dma_tx_err] [irq_cancel_done] [])).ret = 0 ∧
    SpiEv.cancel_m_cmd ∈ (spi_geni_transfer_one geni_config false mas_se_dma slv0
      (xfer_duplex 0 0) true (env_fifo [irq_dma_tx_err] [irq_cancel_done] [])).out ∧
    (spi_geni_transfer_one geni_config false mas_se_dma slv0 (xfer_duplex 0 0) true
      (env_fifo [irq_dma_rx_short 256 100] [irq_cancel_done] [])).ret = 0 ∧
    (spi_geni_transfer_one geni_config false mas_se_dma slv0 (xfer_duplex 0 0) true
      (env_fifo [] [irq_cancel_done] [])).ret = - ETIMEDOUT := by
  decide

/-- C12, as stated, fails on an SPI slave controller: the wait for the transfer times out and
`spi_geni_transfer_one` returns `-ETIMEDOUT`, but no software cancel is issued
(`handle_fifo_timeout` goes straight to the DMA unprepare step). -/
theorem spi_geni_transfer_one_slave_timeout_issues_no_cancel :
    SpiEv.wait_xfer_done false ∈ (spi_geni_transfer_one geni_config true mas_se_dma slv0
      (xfer_duplex 0 0) true (env_fifo [] [] [])).out ∧
    SpiEv.cancel_m_cmd ∉ (spi_geni_transfer_one geni_config true mas_se_dma slv0
      (xfer_duplex 0 0) true (env_fifo [] [] [])).out ∧
    (spi_geni_transfer_one geni_config true mas_se_dma slv0 (xfer_duplex 0 0) true
      (env_fifo [] [] [])).ret = - ETIMEDOUT := by
  decide

/-- C12 (amended): for every non-GSI transfer on which the wait for `xfer_done` times out,
`spi_geni_transfer_one` returns `-ETIMEDOUT`; when the controller is not an SPI slave its
trace holds, after a part without cancel and abort, the software cancel followed by a wait,
and then the hardware abort followed by a second wait exactly when the wait after the cancel
timed out (`c = false`), with no further cancel or abort; on an SPI slave controller no cancel
is issued at all. -/
theorem spi_geni_transfer_one_timeout_escalation (gcfg : GeniConfig) (slave : Bool)
    (mas : spi_geni_master) (slv : spi_device) (xfer : spi_transfer) (is_last : Bool)
    (env : FifoEnv)
    (hmode : mas.cur_xfer_mode ≠ gcfg.GSI_DMA)
    (hbuf : (xfer.tx_buf.isNone && xfer.rx_buf.isNone) = false) (hlen : 1 ≤ xfer.len)
    (hpm : env.pm_suspended = false)
    (hsetup : (setup_fifo_xfer gcfg xfer mas slv.mode slave is_last env).ret = 0)
    (htimeout : (spi_geni_transfer_one_wait gcfg slave
      (setup_fifo_xfer gcfg xfer mas slv.mode slave is_last env).mas env).done = false) :
    (spi_geni_transfer_one gcfg slave mas slv xfer is_last env).ret = - ETIMEDOUT ∧
    (slave = false →
      ∃ pre irq1 c post,
        (spi_geni_transfer_one gcfg slave mas slv xfer is_last env).out =
          pre ++ SpiEv.cancel_m_cmd :: irq1 ++ SpiEv.wait_xfer_done c :: post ∧
        no_cancel_abort pre ∧ quiet irq1 ∧
        (c = true → no_cancel_abort post) ∧
        (c = false → ∃ irq2 a post2,
          post = SpiEv.abort_m_cmd :: irq2 ++ SpiEv.wait_xfer_done a :: post2 ∧
          quiet irq2 ∧ no_cancel_abort post2)) ∧
    (slave = true →
      SpiEv.cancel_m_cmd ∉ (spi_geni_transfer_one gcfg slave mas slv xfer is_last env).out) := by
  have hr : spi_geni_transfer_one gcfg slave mas slv xfer is_last env =
      ⟨- ETIMEDOUT,
        (handle_fifo_timeout gcfg slave
          { (if (env.dma_tx_irq_stat % 2 ^ 32) &&& gcfg.TX_DMA_DONE ≠ gcfg.TX_DMA_DONE ∧
                (env.dma_rx_irq_stat % 2 ^ 32) &&& gcfg.RX_DMA_DONE ≠ gcfg.RX_DMA_DONE then
              { (spi_geni_transfer_one_wait gcfg slave (setup_fifo_xfer gcfg xfer mas slv.mode
                  slave is_last env).mas env).mas with is_dma_not_done := true }
            else (spi_geni_transfer_one_wait gcfg slave (setup_fifo_xfer gcfg xfer mas slv.mode
                  slave is_last env).mas env).mas) with cur_xfer := none }
          (setup_fifo_xfer gcfg xfer mas slv.mode slave is_last env).xfer env).1,
        (setup_fifo_xfer gcfg xfer mas slv.mode slave is_last env).xfer,
        (setup_fifo_xfer gcfg xfer mas slv.mode slave is_last env).out ++
          (spi_geni_transfer_one_wait gcfg slave (setup_fifo_xfer gcfg xfer mas slv.mode
            slave is_last env).mas env).out ++
          (handle_fifo_timeout gcfg slave
          { (if (env.dma_tx_irq_stat % 2 ^ 32) &&& gcfg.TX_DMA_DONE ≠ gcfg.TX_DMA_DONE ∧
                (env.dma_rx_irq_stat % 2 ^ 32) &&& gcfg.RX_DMA_DONE ≠ gcfg.RX_DMA_DONE then
              { (spi_geni_transfer_one_wait gcfg slave (setup_fifo_xfer gcfg xfer mas slv.mode
                  slave is_last env).mas env).mas with is_dma_not_done := true }
            else (spi_geni_transfer_one_wait gcfg slave (setup_fifo_xfer gcfg xfer mas slv.mode
                  slave is_last env).mas env).mas) with cur_xfer := none }
          (setup_fifo_xfer gcfg xfer mas slv.mode slave is_last env).xfer env).2⟩ := by
    unfold spi_geni_transfer_one
    rw [if_pos hmode]
    unfold spi_geni_transfer_one_fifo
    rw [if_neg (by simp [hbuf]), if_neg (by omega), if_neg (by simp [hpm])]
    simp only [hsetup, ne_eq, not_true_eq_false, if_false, htimeout, Bool.not_false, if_true]
  rw [hr]
  have hs := setup_fifo_xfer_no_cancel_abort gcfg xfer mas slv.mode slave is_last env
  have hw := transfer_one_wait_out gcfg slave
    (setup_fifo_xfer gcfg xfer mas slv.mode slave is_last env).mas env
  refine ⟨rfl, ?_, ?_⟩
  · intro hsl
    subst hsl
    obtain ⟨pre, irq1, c, post, hout, hpre, hirq, hc1, hc2⟩ := handle_fifo_timeout_master gcfg
      { (if (env.dma_tx_irq_stat % 2 ^ 32) &&& gcfg.TX_DMA_DONE ≠ gcfg.TX_DMA_DONE ∧
                (env.dma_rx_irq_stat % 2 ^ 32) &&& gcfg.RX_DMA_DONE ≠ gcfg.RX_DMA_DONE then
              { (spi_geni_transfer_one_wait gcfg false (setup_fifo_xfer gcfg xfer mas slv.mode
                  false is_last env).mas env).mas with is_dma_not_done := true }
            else (spi_geni_transfer_one_wait gcfg false (setup_fifo_xfer gcfg xfer mas slv.mode
                  false is_last env).mas env).mas) with cur_xfer := none }
      (setup_fifo_xfer gcfg xfer mas slv.mode false is_last env).xfer env
    refine ⟨(setup_fifo_xfer gcfg xfer mas slv.mode false is_last env).out ++
          (spi_geni_transfer_one_wait gcfg false (setup_fifo_xfer gcfg xfer mas slv.mode
            false is_last env).mas env).out ++ pre, irq1, c, post, ?_,
      no_cancel_abort_append (no_cancel_abort_append hs hw) hpre, hirq, hc1, hc2⟩
    show _ ++ _ ++ _ = _
    rw [hout]
    simp only [List.append_assoc, List.cons_append]
  · intro hsl
    subst hsl
    show SpiEv.cancel_m_cmd ∉ _ ++ _ ++ _
    simp only [List.mem_append, not_or]
    refine ⟨⟨fun h => ?_, fun h => ?_⟩, handle_fifo_timeout_slave _ _ _ _⟩
    · have := hs _ h
      simp [SpiEv.is_cancel_or_abort] at this
    · have := hw _ h
      simp [SpiEv.is_cancel_or_abort] at this

/-- Witness of C12 (amended): a 256-byte DMA transfer of a master controller that sees no
interrupt before the timeout and none after the cancel. -/
theorem spi_geni_transfer_one_timeout_escalation_witness :
    (spi_geni_transfer_one geni_config false mas_se_dma slv0 (xfer_duplex 0 0) true
      (env_fifo [] [] [irq_abort_done])).ret = - ETIMEDOUT :=
  (spi_geni_transfer_one_timeout_escalation geni_config false mas_se_dma slv0 (xfer_duplex 0 0)
    true (env_fifo [] [] [irq_abort_done]) (by decide) (by decide) (by decide) (by decide)
    (by decide) (by decide)).1

/-- C13 (code defect): a full-duplex `spi_transfer` is used twice.  The first transfer
succeeds: both buffers are prepared once and unprepared once, and `xfer->tx_dma` keeps the
address of the mapping.  In the second transfer the RX DMA mapping fails, so
`setup_fifo_xfer` returns before it prepares the TX buffer; the error path still calls
`geni_se_tx_dma_unprep` with the stale address. -/
theorem spi_geni_transfer_one_unprepares_stale_tx_dma :
    first_use.ret = 0 ∧
    tx_prepared first_use.out = 1 ∧ tx_unprepared first_use.out = 1 ∧
    rx_prepared first_use.out = 1 ∧ rx_unprepared first_use.out = 1 ∧
    first_use.xfer.tx_dma = 0x1000 ∧
    second_use.ret = - ENOMEM ∧
    tx_prepared second_use.out = 0 ∧ rx_prepared second_use.out = 0 ∧
    SpiEv.tx_dma_unprep 0x1000 256 ∈ second_use.out ∧
    tx_unprepared second_use.out = 1 := by
  decide

/-! ## `select_xfer_mode` and `spi_geni_prepare_message` -/

/-- C14, as stated, fails for `spi_geni_prepare_message` in both directions: an SPI slave
device in mode 0 makes it fail with `-EINVAL` although `select_xfer_mode` returned `SE_DMA`,
and a controller shared between execution environments whose runtime PM is disabled makes it
fail with `-EACCES` although the FIFO interface is disabled and the DMA channels are
missing. -/
theorem spi_geni_prepare_message_einval_is_not_the_mode_error :
    select_xfer_mode geni_config mas_gsi (env_prep 0).reg_fifo_disable = geni_config.SE_DMA ∧
    (spi_geni_prepare_message geni_config true mas_gsi slv_mode0 [xfer_tx 1000000]
      (env_prep 0)).ret = - EINVAL ∧
    select_xfer_mode geni_config { mas_gsi with shared_ee := true, setup := true }
      (env_prep 1).reg_fifo_disable = - EINVAL ∧
    (spi_geni_prepare_message geni_config false { mas_gsi with shared_ee := true, setup := true }
      slv_mode0 [xfer_tx 1000000] { env_prep 1 with pm_enabled_shared := false }).ret
      = - EACCES := by
  decide

/-- C14 (amended): `select_xfer_mode` is a function of two facts only, whether the FIFO
interface is disabled and whether both DMA channels are valid: it returns a negative error
exactly when the interface is disabled and a channel is missing, `GSI_DMA` exactly when the
interface is disabled and both channels are valid, and `SE_DMA` when the interface is
enabled (the mode constants are taken non-negative and distinct); in the error case
`spi_geni_prepare_message` fails with `-EINVAL` once it reaches the mode selection, and so
does the whole function when the steps before the selection cannot fail. -/
theorem select_xfer_mode_and_prepare (gcfg : GeniConfig) (slave : Bool) (mas : spi_geni_master)
    (spi_slv : spi_device) (xfers : List spi_transfer) (env : PrepEnv) (out0 : List SpiEv)
    (h1 : 0 ≤ gcfg.SE_DMA) (h2 : 0 ≤ gcfg.GSI_DMA) (h3 : gcfg.SE_DMA ≠ gcfg.GSI_DMA) :
    (select_xfer_mode gcfg mas env.reg_fifo_disable < 0 ↔
      fifo_disable gcfg env.reg_fifo_disable ≠ 0 ∧ dma_chan_valid mas = false) ∧
    (select_xfer_mode gcfg mas env.reg_fifo_disable = gcfg.GSI_DMA ↔
      fifo_disable gcfg env.reg_fifo_disable ≠ 0 ∧ dma_chan_valid mas = true) ∧
    (fifo_disable gcfg env.reg_fifo_disable = 0 →
      select_xfer_mode gcfg mas env.reg_fifo_disable = gcfg.SE_DMA) ∧
    (∀ (mas2 : spi_geni_master) (reg2 : Nat),
      (fifo_disable gcfg reg2 = 0 ↔ fifo_disable gcfg env.reg_fifo_disable = 0) →
      dma_chan_valid mas2 = dma_chan_valid mas →
      select_xfer_mode gcfg mas2 reg2 = select_xfer_mode gcfg mas env.reg_fifo_disable) ∧
    (fifo_disable gcfg env.reg_fifo_disable ≠ 0 ∧ dma_chan_valid mas = false →
      (spi_geni_prepare_message_mode gcfg slave mas spi_slv xfers env out0).ret = - EINVAL) ∧
    (mas.shared_ee = false → (env.pm_suspended = false ∨ mas.is_le_vm = true) →
      fifo_disable gcfg env.reg_fifo_disable ≠ 0 ∧ dma_chan_valid mas = false →
      (spi_geni_prepare_message gcfg slave mas spi_slv xfers env).ret = - EINVAL) := by
  have hE : (- EINVAL : Int) < 0 := by decide
  have key : ∀ (m : spi_geni_master) (r : Nat),
      (select_xfer_mode gcfg m r < 0 ↔ fifo_disable gcfg r ≠ 0 ∧ dma_chan_valid m = false) ∧
      (select_xfer_mode gcfg m r = gcfg.GSI_DMA ↔
        fifo_disable gcfg r ≠ 0 ∧ dma_chan_valid m = true) ∧
      (fifo_disable gcfg r = 0 → select_xfer_mode gcfg m r = gcfg.SE_DMA) := by
    intro m r
    rw [select_xfer_mode]
    by_cases hf : fifo_disable gcfg r = 0 <;> cases hv : dma_chan_valid m <;>
      simp [hf, EINVAL] <;> omega
  have hmode : fifo_disable gcfg env.reg_fifo_disable ≠ 0 ∧ dma_chan_valid mas = false →
      ∀ o, (spi_geni_prepare_message_mode gcfg slave mas spi_slv xfers env o).ret = - EINVAL := by
    intro hc o
    have := (key mas env.reg_fifo_disable).1.mpr hc
    rw [spi_geni_prepare_message_mode]
    simp only [this, if_true]
  refine ⟨(key _ _).1, (key _ _).2.1, (key _ _).2.2, ?_, fun hc => hmode hc out0, ?_⟩
  · intro mas2 reg2 hf hv
    rw [select_xfer_mode, select_xfer_mode]
    by_cases hf0 : fifo_disable gcfg env.reg_fifo_disable = 0
    · have := hf.mpr hf0
      simp [this, hf0]
    · have : fifo_disable gcfg reg2 ≠ 0 := fun h => hf0 (hf.mp h)
      simp [this, hf0, hv]
  · intro hee hpm hc
    have : (env.pm_suspended && !mas.is_le_vm) = false := by
      rcases hpm with h | h <;> simp [h]
    rw [spi_geni_prepare_message]
    simp only [hee, Bool.false_eq_true, if_false]
    rw [spi_geni_prepare_message_pm]
    simp only [this, Bool.false_eq_true, if_false]
    exact hmode hc []

/-- Witness of C14 (amended): FIFO interface disabled, no DMA channels. -/
theorem select_xfer_mode_and_prepare_witness :
    (spi_geni_prepare_message geni_config false mas_gsi slv_mode0 [xfer_tx 1000000]
      (env_prep 1)).ret = - EINVAL :=
  (select_xfer_mode_and_prepare geni_config false mas_gsi slv_mode0 [xfer_tx 1000000]
    (env_prep 1) [] (by decide) (by decide) (by decide)).2.2.2.2.2 (by decide)
    (Or.inl (by decide)) (by decide)


/-! ## Frames without a live point -/

/-- C15, as stated, fails: a v1 frame with header count zero whose first slot is empty is
rejected with `-EIO`, a negative result. -/
theorem fts_input_report_touch_empty_frame_is_an_error :
    rd (Buf.ofList [0x00, 0x00]) ft3683g_config.FTS_TOUCH_E_NUM &&& 0x0F = 0 ∧
    rd (Buf.ofList [0x00, 0x00]) (ft3683g_config.FTS_TOUCH_OFF_ID_YH +
      (ft3683g_config.FTS_ONE_TCH_LEN * 0 + 2)) >>> 4 ≥ ft3683g_config.FTS_MAX_ID ∧
    (fts_input_report_touch ft3683g_config (ts_awake 0) (Buf.ofList [0x00, 0x00])).ret = - EIO ∧
    (fts_input_report_touch ft3683g_config (ts_awake 0) (Buf.ofList [0x00, 0x00])).ret < 0 := by
  decide

/-- C15 (amended): for every protocol-v1 frame whose header point count is zero and in which
no live point is found (the first point slot carries an id `>= FTS_MAX_ID`),
`fts_input_report_touch` reports nothing and leaves the driver state unchanged, and it
returns `-EIO`: the frame is an error to the decoder. -/
theorem fts_input_report_touch_empty_frame (cfg : FtsConfig) (ts_data : fts_ts_data)
    (touch_buf : Buf)
    (hnum : rd touch_buf cfg.FTS_TOUCH_E_NUM &&& 0x0F = 0)
    (hid : 0 < ts_data.pdata.max_touch_number →
      rd touch_buf (cfg.FTS_TOUCH_OFF_ID_YH + (cfg.FTS_ONE_TCH_LEN * 0 + 2)) >>> 4
        ≥ cfg.FTS_MAX_ID) :
    fts_input_report_touch cfg ts_data touch_buf = ⟨- EIO, ts_data, []⟩ := by
  have hscan : fts_input_report_touch_scan cfg ts_data.pdata.max_touch_number
      (rd touch_buf cfg.FTS_TOUCH_E_NUM &&& 0x0F) touch_buf
      (List.range ts_data.pdata.max_touch_number) = .ok [] := by
    cases hm : ts_data.pdata.max_touch_number with
    | zero => rfl
    | succ n =>
      rw [List.range_succ_eq_map]
      rw [fts_input_report_touch_scan]
      rw [if_pos (hid (by omega))]
  rw [fts_input_report_touch]
  simp only [hscan]
  rw [if_neg (by omega)]
  rfl

/-- Witness of C15 (amended): an all-empty frame on a 10-point panel with fingers 0 and 1
down. -/
theorem fts_input_report_touch_empty_frame_witness :
    fts_input_report_touch ft3683g_config (ts_awake 3) (Buf.ofList [0x00, 0x00])
      = ⟨- EIO, ts_awake 3, []⟩ :=
  fts_input_report_touch_empty_frame ft3683g_config (ts_awake 3) (Buf.ofList [0x00, 0x00])
    (by decide) (fun _ => by decide)

/-! ## Key events in `fts_input_report_b` -/

theorem fts_input_report_key_scan_pdata (cfg : FtsConfig) (ts_data : fts_ts_data)
    (kevent : ts_event) (l : List Nat) :
    (fts_input_report_key_scan cfg ts_data kevent l).ts_data.pdata = ts_data.pdata := by
  induction l with
  | nil => rfl
  | cons i rest ih =>
    rw [fts_input_report_key_scan]
    split_ifs <;> first | rfl | exact ih

theorem fts_input_report_key_pdata (cfg : FtsConfig) (ts_data : fts_ts_data)
    (kevent : ts_event) :
    (fts_input_report_key cfg ts_data kevent).ts_data.pdata = ts_data.pdata := by
  rw [fts_input_report_key]
  split_ifs
  · rfl
  · exact fts_input_report_key_scan_pdata _ _ _ _

theorem fts_input_report_key_scan_hit (cfg : FtsConfig) (ts_data : fts_ts_data)
    (kevent : ts_event) (i : Nat) (hhit : key_hit cfg ts_data.pdata kevent i = true)
    (l : List Nat) (hi : i ∈ l) :
    (fts_input_report_key_scan cfg ts_data kevent l).ret = 0 := by
  induction l with
  | nil => cases hi
  | cons j rest ih =>
    rw [fts_input_report_key_scan]
    by_cases hj : key_hit cfg ts_data.pdata kevent j = true
    · rw [if_pos hj]
      split_ifs <;> rfl
    · rw [if_neg hj]
      rcases List.mem_cons.mp hi with rfl | h
      · exact absurd hhit hj
      · exact ih h

theorem fts_input_report_key_hit (cfg : FtsConfig) (ts_data : fts_ts_data)
    (kevent : ts_event) (i : Nat) (hkey : ts_data.pdata.have_key = true)
    (hi : i < ts_data.pdata.key_number)
    (hhit : key_hit cfg ts_data.pdata kevent i = true) :
    (fts_input_report_key cfg ts_data kevent).ret = 0 := by
  rw [fts_input_report_key, if_neg (by simp [hkey])]
  exact fts_input_report_key_scan_hit cfg ts_data kevent i hhit _ (List.mem_range.mpr hi)

theorem fts_input_report_b_events_append (cfg : FtsConfig) (a b : List ts_event)
    (ts_data : fts_ts_data) (l : report_b_locals) :
    fts_input_report_b_events cfg (a ++ b) ts_data l =
      ((fts_input_report_b_events cfg b (fts_input_report_b_events cfg a ts_data l).1
          (fts_input_report_b_events cfg a ts_data l).2.1).1,
       (fts_input_report_b_events cfg b (fts_input_report_b_events cfg a ts_data l).1
          (fts_input_report_b_events cfg a ts_data l).2.1).2.1,
       (fts_input_report_b_events cfg a ts_data l).2.2 ++
         (fts_input_report_b_events cfg b (fts_input_report_b_events cfg a ts_data l).1
          (fts_input_report_b_events cfg a ts_data l).2.1).2.2) := by
  induction a generalizing ts_data l with
  | nil => simp [fts_input_report_b_events]
  | cons e rest ih =>
    rw [List.cons_append, fts_input_report_b_events, fts_input_report_b_events]
    split_ifs <;> simp only [ih, List.append_assoc]

theorem fts_input_report_b_events_pdata (cfg : FtsConfig) (es : List ts_event)
    (ts_data : fts_ts_data) (l : report_b_locals) :
    (fts_input_report_b_events cfg es ts_data l).1.pdata = ts_data.pdata := by
  induction es generalizing ts_data l with
  | nil => rfl
  | cons e rest ih =>
    rw [fts_input_report_b_events]
    split_ifs <;> simp only [ih, fts_input_report_key_pdata]

theorem fts_input_report_b_events_cur_absent (cfg : FtsConfig) (f : Nat)
    (es : List ts_event) (h : ∀ e ∈ es, e.id ≠ f) (ts_data : fts_ts_data) (l : report_b_locals) :
    (fts_input_report_b_events cfg es ts_data l).2.1.touch_down_point_cur.testBit f
      = l.touch_down_point_cur.testBit f := by
  induction es generalizing ts_data l with
  | nil => rfl
  | cons e rest ih =>
    have hid : e.id ≠ f := h e (List.mem_cons_self _ _)
    have hrest : ∀ e ∈ rest, e.id ≠ f := fun e he => h e (List.mem_cons_of_mem _ he)
    rw [fts_input_report_b_events]
    split_ifs
    · exact ih hrest _ _
    · rw [ih hrest]
      exact testBit_or_BIT _ _ _ hid
    · rw [ih hrest]

theorem fts_input_report_b_events_key (cfg : FtsConfig) (e : ts_event) (rest : List ts_event)
    (ts_data : fts_ts_data) (l : report_b_locals)
    (hret : (fts_input_report_key cfg ts_data e).ret = 0) :
    fts_input_report_b_events cfg (e :: rest) ts_data l =
      ((fts_input_report_b_events cfg rest (fts_input_report_key cfg ts_data e).ts_data l).1,
       (fts_input_report_b_events cfg rest (fts_input_report_key cfg ts_data e).ts_data l).2.1,
       (fts_input_report_key cfg ts_data e).out ++
        (fts_input_report_b_events cfg rest (fts_input_report_key cfg ts_data e).ts_data
          l).2.2) := by
  rw [fts_input_report_b_events]
  simp only [hret, if_true]

/-- C16, as stated, fails: finger 0 is down and the next frame reports it inside the
rectangle of the key.  The event is reported as a key press, but slot 0 is lifted by the
sweep at the end of the frame and the bit of id 0 in `touch_points` goes from set to
clear. -/
theorem fts_input_report_b_key_event_clears_slot_bit :
    key_hit ft3683g_config (ts_key 1).pdata ⟨100, 2000, 0x3F, 0, 0, 9, 9⟩ 0 = true ∧
    (ts_key 1).touch_points.testBit 0 = true ∧
    (fts_input_report_b ft3683g_config (ts_key 1)
      [⟨100, 2000, 0x3F, 0, 0, 9, 9⟩]).ts_data.touch_points.testBit 0 = false ∧
    (fts_input_report_b ft3683g_config (ts_key 1) [⟨100, 2000, 0x3F, 0, 0, 9, 9⟩]).out =
      [Ev.input (.report_key (.dts 158) 1), Ev.input (.mt_slot 0),
       Ev.input (.mt_report_slot_state false), Ev.input (.report_key .BTN_TOUCH 0),
       Ev.input .sync] := by
  decide

/-- C16 (amended): in a frame passed to `fts_input_report_b`, an event whose coordinates
fall inside the hit-test rectangle of a configured key is handled by the event loop as a key
event only: the loop emits for it the calls of `fts_input_report_key`, which are
`input_report_key` calls, and hands the bookkeeping masks on unchanged; when no other event
of the frame has its id, the bit of that id in `touch_points` is clear after the frame
(whatever it was before). -/
theorem fts_input_report_b_key_event (cfg : FtsConfig) (ts_data : fts_ts_data)
    (pre post : List ts_event) (e : ts_event) (i : Nat)
    (hnum : ts_data.touch_event_num = (pre ++ e :: post).length)
    (hkey : ts_data.pdata.have_key = true) (hi : i < ts_data.pdata.key_number)
    (hhit : key_hit cfg ts_data.pdata e i = true)
    (hother : ∀ e2 ∈ pre ++ post, e2.id ≠ e.id) :
    (∀ l : report_b_locals,
      fts_input_report_b_events cfg (pre ++ e :: post) ts_data l =
        ((fts_input_report_b_events cfg post
            (fts_input_report_key cfg (fts_input_report_b_events cfg pre ts_data l).1 e).ts_data
            (fts_input_report_b_events cfg pre ts_data l).2.1).1,
         (fts_input_report_b_events cfg post
            (fts_input_report_key cfg (fts_input_report_b_events cfg pre ts_data l).1 e).ts_data
            (fts_input_report_b_events cfg pre ts_data l).2.1).2.1,
         (fts_input_report_b_events cfg pre ts_data l).2.2 ++
          (fts_input_report_key cfg (fts_input_report_b_events cfg pre ts_data l).1 e).out ++
          (fts_input_report_b_events cfg post
            (fts_input_report_key cfg (fts_input_report_b_events cfg pre ts_data l).1 e).ts_data
            (fts_input_report_b_events cfg pre ts_data l).2.1).2.2) ∧
      keys_only
        (fts_input_report_key cfg (fts_input_report_b_events cfg pre ts_data l).1 e).out) ∧
    (fts_input_report_b cfg ts_data (pre ++ e :: post)).ts_data.touch_points.testBit e.id
      = false := by
  have hloop : ∀ l : report_b_locals,
      fts_input_report_b_events cfg (pre ++ e :: post) ts_data l =
        ((fts_input_report_b_events cfg post
            (fts_input_report_key cfg (fts_input_report_b_events cfg pre ts_data l).1 e).ts_data
            (fts_input_report_b_events cfg pre ts_data l).2.1).1,
         (fts_input_report_b_events cfg post
            (fts_input_report_key cfg (fts_input_report_b_events cfg pre ts_data l).1 e).ts_data
            (fts_input_report_b_events cfg pre ts_data l).2.1).2.1,
         (fts_input_report_b_events cfg pre ts_data l).2.2 ++
          (fts_input_report_key cfg (fts_input_report_b_events cfg pre ts_data l).1 e).out ++
          (fts_input_report_b_events cfg post
            (fts_input_report_key cfg (fts_input_report_b_events cfg pre ts_data l).1 e).ts_data
            (fts_input_report_b_events cfg pre ts_data l).2.1).2.2) := by
    intro l
    have hp := fts_input_report_b_events_pdata cfg pre ts_data l
    have hret := fts_input_report_key_hit cfg (fts_input_report_b_events cfg pre ts_data l).1 e i
      (by rw [hp]; exact hkey) (by rw [hp]; exact hi) (by rw [hp]; exact hhit)
    rw [fts_input_report_b_events_append, fts_input_report_b_events_key _ _ _ _ _ hret]
    simp only [List.append_assoc]
  refine ⟨fun l => ⟨hloop l, fts_input_report_key_keys_only _ _ _⟩, ?_⟩
  rw [fts_input_report_b]
  simp only []
  rw [hnum, List.take_length, hloop]
  simp only []
  rw [fts_input_report_b_events_cur_absent cfg e.id post
    (fun e2 h2 => hother e2 (List.mem_append_right _ h2)),
    fts_input_report_b_events_cur_absent cfg e.id pre
    (fun e2 h2 => hother e2 (List.mem_append_left _ h2))]
  simp

/-- Witness of C16 (amended): the single event of a frame lies on the key while finger 0 is
down. -/
theorem fts_input_report_b_key_event_witness :
    (fts_input_report_b ft3683g_config (ts_key 1)
      ([] ++ (⟨100, 2000, 0x3F, 0, 0, 9, 9⟩ : ts_event) :: [])).ts_data.touch_points.testBit
        (⟨100, 2000, 0x3F, 0, 0, 9, 9⟩ : ts_event).id = false :=
  (fts_input_report_b_key_event ft3683g_config (ts_key 1) [] []
    ⟨100, 2000, 0x3F, 0, 0, 9, 9⟩ 0 (by decide) (by decide) (by decide) (by decide)
    (by intro e2 h2; cases h2)).2


/-! ## Frames read while the device is suspended -/

theorem no_touch_report_nil : no_touch_report [] := by intro e h; cases h

theorem no_touch_report_append_iff (a b : List Ev) :
    no_touch_report (a ++ b) ↔ no_touch_report a ∧ no_touch_report b := by
  simp [no_touch_report, List.mem_append, or_imp, forall_and]

theorem no_touch_report_cons_iff (e : Ev) (a : List Ev) :
    no_touch_report (e :: a) ↔ e.is_touch_report = false ∧ no_touch_report a := by
  simp [no_touch_report]

theorem no_touch_report_ite_iff (c : Prop) [Decidable c] (a b : List Ev) :
    no_touch_report (if c then a else b) ↔ (c → no_touch_report a) ∧ (¬c → no_touch_report b) := by
  split <;> simp [*]

theorem fts_release_all_finger_slots_no_touch_report (l : List Nat) :
    no_touch_report (fts_release_all_finger_slots l) := by
  induction l with
  | nil => exact no_touch_report_nil
  | cons i rest ih =>
    rw [fts_release_all_finger_slots]
    simp only [no_touch_report_cons_iff, Ev.is_touch_report, ih, and_self]

theorem fts_release_all_finger_no_touch_report (cfg : FtsConfig) (ts_data : fts_ts_data) :
    no_touch_report (fts_release_all_finger cfg ts_data).2 := by
  rw [fts_release_all_finger]
  simp only [no_touch_report_append_iff, no_touch_report_ite_iff, no_touch_report_cons_iff,
    no_touch_report_nil, Ev.is_touch_report, fts_release_all_finger_slots_no_touch_report,
    and_self, implies_true]

theorem fts_tp_state_recovery_no_touch_report (cfg : FtsConfig) (ts_data : fts_ts_data) :
    no_touch_report (fts_tp_state_recovery cfg ts_data) := by
  rw [fts_tp_state_recovery]
  simp only [no_touch_report_append_iff, no_touch_report_ite_iff, no_touch_report_cons_iff,
    no_touch_report_nil, Ev.is_touch_report, and_self, implies_true]

theorem fts_gesture_report_no_touch_report (gesture_id : Nat) :
    no_touch_report (fts_gesture_report gesture_id) := by
  rw [fts_gesture_report]
  simp only [no_touch_report_append_iff, no_touch_report_ite_iff, no_touch_report_cons_iff,
    no_touch_report_nil, Ev.is_touch_report, and_self, implies_true, true_and]
  split <;> simp only [no_touch_report_cons_iff, no_touch_report_nil, Ev.is_touch_report,
    and_self]

theorem fts_gesture_readdata_no_touch_report (cfg : FtsConfig) (ts_data : fts_ts_data)
    (gesture : fts_gesture_st) (touch_buf : Option Buf) (gesture_en : Nat) (read_ret : Int)
    (read_data : Buf) :
    no_touch_report
      (fts_gesture_readdata cfg ts_data gesture touch_buf gesture_en read_ret read_data).out := by
  rw [fts_gesture_readdata]
  split
  · exact no_touch_report_nil
  · split
    · exact no_touch_report_nil
    · simp only []
      split
      · exact no_touch_report_nil
      · split
        · exact no_touch_report_nil
        · split
          · exact no_touch_report_nil
          · exact fts_gesture_report_no_touch_report _

theorem fts_fod_report_key_no_touch_report (ts_data : fts_ts_data) :
    no_touch_report (fts_fod_report_key ts_data).2 := by
  rw [fts_fod_report_key]
  split
  · exact no_touch_report_nil
  · split
    · simp only [no_touch_report_cons_iff, no_touch_report_nil, Ev.is_touch_report, and_self]
    · exact no_touch_report_nil

theorem fts_fod_report_key_suspended (ts_data : fts_ts_data) :
    (fts_fod_report_key ts_data).1.suspended = ts_data.suspended := by
  rw [fts_fod_report_key]
  split
  · rfl
  · split <;> rfl

theorem fts_fod_report_key_gesture_support (ts_data : fts_ts_data) :
    (fts_fod_report_key ts_data).1.gesture_support = ts_data.gesture_support := by
  rw [fts_fod_report_key]
  split
  · rfl
  · split <;> rfl

theorem fts_fod_readdata_suspended (ts_data : fts_ts_data) (read_ret : Int) (fod_val : Buf) :
    (fts_fod_readdata ts_data read_ret fod_val).2.suspended = ts_data.suspended := by
  rw [fts_fod_readdata]
  split
  · rfl
  · split <;> rfl

theorem fts_fod_readdata_gesture_support (ts_data : fts_ts_data) (read_ret : Int)
    (fod_val : Buf) :
    (fts_fod_readdata ts_data read_ret fod_val).2.gesture_support = ts_data.gesture_support := by
  rw [fts_fod_readdata]
  split
  · rfl
  · split <;> rfl

theorem fts_read_touchdata_gesture_support (cfg : FtsConfig) (ts_data : fts_ts_data)
    (env : ParseEnv) :
    (fts_read_touchdata cfg ts_data env).2.gesture_support = ts_data.gesture_support := by
  rw [fts_read_touchdata]
  split
  · rw [fts_read_touchdata_spi]
    split <;> rfl
  · split
    · rw [fts_read_touchdata_i2c]
      simp only []
      split_ifs <;> rfl
    · rfl

theorem fts_read_touchdata_suspended (cfg : FtsConfig) (ts_data : fts_ts_data)
    (env : ParseEnv) :
    (fts_read_touchdata cfg ts_data env).2.suspended = ts_data.suspended := by
  rw [fts_read_touchdata]
  split
  · rw [fts_read_touchdata_spi]
    split <;> rfl
  · split
    · rw [fts_read_touchdata_i2c]
      simp only []
      split_ifs <;> rfl
    · rfl


theorem fts_read_parse_touchdata_tail (cfg : FtsConfig) (gesture : fts_gesture_st)
    (env : ParseEnv) (fod : fts_ts_data × List Ev) (hsus : fod.1.suspended = true) :
    (if fod.1.suspended ∧ fod.1.gesture_support then
      if (fts_gesture_readdata cfg fod.1 gesture (some env.touch_buf) env.gesture_en
          env.gesture_read_ret env.gesture_data).ret = cfg.FTS_RETVAL_IGNORE_TOUCHES then
        (⟨cfg.TOUCH_IGNORE, fod.1, (fts_gesture_readdata cfg fod.1 gesture (some env.touch_buf)
          env.gesture_en env.gesture_read_ret env.gesture_data).gesture,
          fod.2 ++ (fts_gesture_readdata cfg fod.1 gesture (some env.touch_buf)
          env.gesture_en env.gesture_read_ret env.gesture_data).out⟩ : IrqRes)
      else if fod.1.suspended then
        ⟨cfg.TOUCH_IGNORE, fod.1, (fts_gesture_readdata cfg fod.1 gesture (some env.touch_buf)
          env.gesture_en env.gesture_read_ret env.gesture_data).gesture,
          fod.2 ++ (fts_gesture_readdata cfg fod.1 gesture (some env.touch_buf)
          env.gesture_en env.gesture_read_ret env.gesture_data).out⟩
      else ⟨(((rd env.touch_buf cfg.FTS_TOUCH_E_NUM >>> 4) &&& 0x0F : Nat) : Int), fod.1,
        (fts_gesture_readdata cfg fod.1 gesture (some env.touch_buf)
          env.gesture_en env.gesture_read_ret env.gesture_data).gesture,
        fod.2 ++ (fts_gesture_readdata cfg fod.1 gesture (some env.touch_buf)
          env.gesture_en env.gesture_read_ret env.gesture_data).out⟩
    else if fod.1.suspended then ⟨cfg.TOUCH_IGNORE, fod.1, gesture, fod.2⟩
    else ⟨(((rd env.touch_buf cfg.FTS_TOUCH_E_NUM >>> 4) &&& 0x0F : Nat) : Int), fod.1, gesture,
      fod.2⟩) = (⟨cfg.TOUCH_IGNORE, fod.1,
        if fod.1.gesture_support then (fts_gesture_readdata cfg fod.1 gesture
          (some env.touch_buf) env.gesture_en env.gesture_read_ret env.gesture_data).gesture
        else gesture,
        if fod.1.gesture_support then fod.2 ++ (fts_gesture_readdata cfg fod.1 gesture
          (some env.touch_buf) env.gesture_en env.gesture_read_ret env.gesture_data).out
        else fod.2⟩ : IrqRes) := by
  simp only [hsus, true_and, if_true]
  cases fod.1.gesture_support
  · simp
  · simp

theorem fts_read_parse_touchdata_suspended (cfg : FtsConfig) (ts_data : fts_ts_data)
    (gesture : fts_gesture_st) (env : ParseEnv)
    (hs : ts_data.suspended = true)
    (hread : (fts_read_touchdata cfg ts_data env).1 = 0) :
    ((rd env.touch_buf 1 = 0xFF ∧ rd env.touch_buf 2 = 0xFF ∧
        rd env.touch_buf 3 = 0xFF ∧ rd env.touch_buf 4 = 0xFF) ∧
      fts_read_parse_touchdata cfg ts_data gesture env =
        ⟨cfg.TOUCH_FW_INIT, (fts_read_touchdata cfg ts_data env).2, gesture, []⟩) ∨
    ((fts_read_parse_touchdata cfg ts_data gesture env).ret = cfg.TOUCH_IGNORE ∧
      no_touch_report (fts_read_parse_touchdata cfg ts_data gesture env).out ∧
      ((¬(rd env.touch_buf 1 = 0xFF ∧ rd env.touch_buf 2 = 0xFF ∧
          rd env.touch_buf 3 = 0xFF ∧ rd env.touch_buf 4 = 0xFF)) →
        (¬(cfg.FTS_PSENSOR_EN = true ∧ ts_data.proximity_mode = true ∧
          env.proximity_ret = cfg.FTS_RETVAL_IGNORE_TOUCHES)) →
        ts_data.gesture_support = true →
        (fts_read_parse_touchdata cfg ts_data gesture env).gesture =
          (fts_gesture_readdata cfg (fts_read_parse_touchdata cfg ts_data gesture env).ts_data
            gesture (some env.touch_buf) env.gesture_en env.gesture_read_ret
            env.gesture_data).gesture ∧
        ∃ pre, (fts_read_parse_touchdata cfg ts_data gesture env).out =
          pre ++ (fts_gesture_readdata cfg
            (fts_read_parse_touchdata cfg ts_data gesture env).ts_data
            gesture (some env.touch_buf) env.gesture_en env.gesture_read_ret
            env.gesture_data).out)) := by
  have hs1 := fts_read_touchdata_suspended cfg ts_data env
  rw [hs] at hs1
  have hg1 := fts_read_touchdata_gesture_support cfg ts_data env
  have hp1 : (fts_read_touchdata cfg ts_data env).2.proximity_mode = ts_data.proximity_mode := by
    rw [fts_read_touchdata]
    split
    · rw [fts_read_touchdata_spi]
      split <;> rfl
    · split
      · rw [fts_read_touchdata_i2c]
        simp only []
        split_ifs <;> rfl
      · rfl
  have hfod : no_touch_report (if cfg.FTS_FOD_EN = true ∧
      (fts_read_touchdata cfg ts_data env).2.pdata.fod_status ≠ 0 ∧
      env.fod_state % 256 = cfg.FTS_VAL_FOD_ENABLE then
      if (fts_fod_readdata (fts_read_touchdata cfg ts_data env).2 env.fod_read_ret
          env.fod_val).1 = cfg.FTS_RETVAL_IGNORE_TOUCHES then
        ((fts_fod_report_key (fts_fod_readdata (fts_read_touchdata cfg ts_data env).2
          env.fod_read_ret env.fod_val).2).1,
          Ev.call .fts_fod_report_key :: (fts_fod_report_key (fts_fod_readdata
            (fts_read_touchdata cfg ts_data env).2 env.fod_read_ret env.fod_val).2).2)
      else ((fts_fod_readdata (fts_read_touchdata cfg ts_data env).2 env.fod_read_ret
          env.fod_val).2, [])
    else ((fts_read_touchdata cfg ts_data env).2, [])).2 := by
    split
    · split
      · simp only [no_touch_report_cons_iff, Ev.is_touch_report,
          fts_fod_report_key_no_touch_report, and_self]
      · exact no_touch_report_nil
    · exact no_touch_report_nil
  have hsus : (if cfg.FTS_FOD_EN = true ∧
      (fts_read_touchdata cfg ts_data env).2.pdata.fod_status ≠ 0 ∧
      env.fod_state % 256 = cfg.FTS_VAL_FOD_ENABLE then
      if (fts_fod_readdata (fts_read_touchdata cfg ts_data env).2 env.fod_read_ret
          env.fod_val).1 = cfg.FTS_RETVAL_IGNORE_TOUCHES then
        ((fts_fod_report_key (fts_fod_readdata (fts_read_touchdata cfg ts_data env).2
          env.fod_read_ret env.fod_val).2).1,
          Ev.call .fts_fod_report_key :: (fts_fod_report_key (fts_fod_readdata
            (fts_read_touchdata cfg ts_data env).2 env.fod_read_ret env.fod_val).2).2)
      else ((fts_fod_readdata (fts_read_touchdata cfg ts_data env).2 env.fod_read_ret
          env.fod_val).2, [])
    else ((fts_read_touchdata cfg ts_data env).2, [])).1.suspended = true := by
    split
    · split
      · simp only [fts_fod_report_key_suspended, fts_fod_readdata_suspended, hs1]
      · simp only [fts_fod_readdata_suspended, hs1]
    · exact hs1
  have hgs : (if cfg.FTS_FOD_EN = true ∧
      (fts_read_touchdata cfg ts_data env).2.pdata.fod_status ≠ 0 ∧
      env.fod_state % 256 = cfg.FTS_VAL_FOD_ENABLE then
      if (fts_fod_readdata (fts_read_touchdata cfg ts_data env).2 env.fod_read_ret
          env.fod_val).1 = cfg.FTS_RETVAL_IGNORE_TOUCHES then
        ((fts_fod_report_key (fts_fod_readdata (fts_read_touchdata cfg ts_data env).2
          env.fod_read_ret env.fod_val).2).1,
          Ev.call .fts_fod_report_key :: (fts_fod_report_key (fts_fod_readdata
            (fts_read_touchdata cfg ts_data env).2 env.fod_read_ret env.fod_val).2).2)
      else ((fts_fod_readdata (fts_read_touchdata cfg ts_data env).2 env.fod_read_ret
          env.fod_val).2, [])
    else ((fts_read_touchdata cfg ts_data env).2, [])).1.gesture_support
      = ts_data.gesture_support := by
    split
    · split
      · simp only [fts_fod_report_key_gesture_support, fts_fod_readdata_gesture_support, hg1]
      · simp only [fts_fod_readdata_gesture_support, hg1]
    · exact hg1
  rw [fts_read_parse_touchdata]
  simp only [hread]
  rw [if_neg (by decide), if_neg (by simp)]
  by_cases hff : rd env.touch_buf 1 = 0xFF ∧ rd env.touch_buf 2 = 0xFF ∧
      rd env.touch_buf 3 = 0xFF ∧ rd env.touch_buf 4 = 0xFF
  · rw [if_pos hff]
    exact Or.inl ⟨hff, rfl⟩
  · rw [if_neg hff]
    right
    by_cases hprox : cfg.FTS_PSENSOR_EN = true ∧
        (fts_read_touchdata cfg ts_data env).2.proximity_mode = true ∧
        env.proximity_ret = cfg.FTS_RETVAL_IGNORE_TOUCHES
    · rw [if_pos hprox]
      refine ⟨rfl, no_touch_report_nil, fun _ h2 _ => ?_⟩
      rw [hp1] at hprox
      exact absurd hprox h2
    · rw [if_neg hprox]
      rw [fts_read_parse_touchdata_tail cfg gesture env _ hsus]
      refine ⟨rfl, ?_, fun _ _ h3 => ?_⟩
      · exact (no_touch_report_ite_iff _ _ _).mpr
          ⟨fun _ => (no_touch_report_append_iff _ _).mpr
            ⟨hfod, fts_gesture_readdata_no_touch_report _ _ _ _ _ _ _⟩, fun _ => hfod⟩
      · rw [← hgs] at h3
        simp only [h3, if_true]
        exact ⟨trivial, _, rfl⟩

/-- C17. While the device is suspended, for every successfully read buffer:
`fts_read_parse_touchdata` returns `TOUCH_FW_INIT` or `TOUCH_IGNORE`, never `TOUCH_DEFAULT`,
`TOUCH_PROTOCOL_v2` or `TOUCH_PEN`, and the trace of `fts_irq_read_report` holds no touch
report (no position, no active slot, no call of a touch-report function).  When the frame
reaches `fts_gesture_readdata` (it is not the firmware-init pattern, the proximity sensor
does not claim it, gestures are supported), the result is `TOUCH_IGNORE` whatever
`fts_gesture_readdata` returns, and `fts_irq_read_report` ends with the calls of
`fts_gesture_readdata` and returns 0.  (`hlabels`: the `case` labels of the `switch` are
distinct.) -/
theorem fts_irq_read_report_suspended (cfg : FtsConfig) (ts_data : fts_ts_data)
    (gesture : fts_gesture_st) (env : ParseEnv)
    (hlabels : cfg.TOUCH_IGNORE ≠ cfg.TOUCH_DEFAULT ∧ cfg.TOUCH_IGNORE ≠ cfg.TOUCH_PROTOCOL_v2 ∧
      cfg.TOUCH_IGNORE ≠ cfg.TOUCH_PEN ∧ cfg.TOUCH_IGNORE ≠ cfg.TOUCH_FW_INIT ∧
      cfg.TOUCH_FW_INIT ≠ cfg.TOUCH_DEFAULT ∧ cfg.TOUCH_FW_INIT ≠ cfg.TOUCH_PROTOCOL_v2 ∧
      cfg.TOUCH_FW_INIT ≠ cfg.TOUCH_PEN)
    (hs : ts_data.suspended = true)
    (hread : (fts_read_touchdata cfg ts_data env).1 = 0) :
    ((fts_read_parse_touchdata cfg ts_data gesture env).ret = cfg.TOUCH_FW_INIT ∨
      (fts_read_parse_touchdata cfg ts_data gesture env).ret = cfg.TOUCH_IGNORE) ∧
    (fts_read_parse_touchdata cfg ts_data gesture env).ret ≠ cfg.TOUCH_DEFAULT ∧
    (fts_read_parse_touchdata cfg ts_data gesture env).ret ≠ cfg.TOUCH_PROTOCOL_v2 ∧
    (fts_read_parse_touchdata cfg ts_data gesture env).ret ≠ cfg.TOUCH_PEN ∧
    no_touch_report (fts_irq_read_report cfg ts_data gesture env).out ∧
    ((¬(rd env.touch_buf 1 = 0xFF ∧ rd env.touch_buf 2 = 0xFF ∧
          rd env.touch_buf 3 = 0xFF ∧ rd env.touch_buf 4 = 0xFF)) →
      (¬(cfg.FTS_PSENSOR_EN = true ∧ ts_data.proximity_mode = true ∧
          env.proximity_ret = cfg.FTS_RETVAL_IGNORE_TOUCHES)) →
      ts_data.gesture_support = true →
      (fts_read_parse_touchdata cfg ts_data gesture env).ret = cfg.TOUCH_IGNORE ∧
      (fts_irq_read_report cfg ts_data gesture env).gesture =
        (fts_gesture_readdata cfg (fts_read_parse_touchdata cfg ts_data gesture env).ts_data
          gesture (some env.touch_buf) env.gesture_en env.gesture_read_ret
          env.gesture_data).gesture ∧
      (∃ pre, (fts_irq_read_report cfg ts_data gesture env).out =
        pre ++ (fts_gesture_readdata cfg
          (fts_read_parse_touchdata cfg ts_data gesture env).ts_data
          gesture (some env.touch_buf) env.gesture_en env.gesture_read_ret
          env.gesture_data).out) ∧
      (fts_irq_read_report cfg ts_data gesture env).ret = 0) := by
  obtain ⟨l1, l2, l3, l4, l5, l6, l7⟩ := hlabels
  have hirq_ignore : (fts_read_parse_touchdata cfg ts_data gesture env).ret = cfg.TOUCH_IGNORE →
      fts_irq_read_report cfg ts_data gesture env =
        ⟨0, (fts_read_parse_touchdata cfg ts_data gesture env).ts_data,
          (fts_read_parse_touchdata cfg ts_data gesture env).gesture,
          (fts_read_parse_touchdata cfg ts_data gesture env).out⟩ := by
    intro h
    rw [fts_irq_read_report]
    simp only [h]
    rw [if_neg l1, if_neg l2, if_neg (fun h => l3 h.2), if_neg l4]
  rcases fts_read_parse_touchdata_suspended cfg ts_data gesture env hs hread with hp | hp
  · obtain ⟨hff, hp⟩ := hp
    have hret : (fts_read_parse_touchdata cfg ts_data gesture env).ret = cfg.TOUCH_FW_INIT := by
      rw [hp]
    refine ⟨Or.inl hret, by rw [hret]; exact l5, by rw [hret]; exact l6,
      by rw [hret]; exact l7, ?_, fun h1 => absurd hff h1⟩
    rw [fts_irq_read_report]
    simp only [hp]
    rw [if_neg l5, if_neg l6, if_neg (fun h => l7 h.2)]
    simp only [if_true, List.nil_append, no_touch_report_cons_iff, no_touch_report_append_iff,
      Ev.is_touch_report, fts_release_all_finger_no_touch_report,
      fts_tp_state_recovery_no_touch_report, and_self]
  · obtain ⟨hret, hout, hg⟩ := hp
    have hirq := hirq_ignore hret
    refine ⟨Or.inr hret, by rw [hret]; exact l1, by rw [hret]; exact l2,
      by rw [hret]; exact l3, by rw [hirq]; exact hout, fun h1 h2 h3 => ?_⟩
    obtain ⟨g1, g2⟩ := hg h1 h2 h3
    rw [hirq]
    exact ⟨hret, g1, g2, rfl⟩

/-- Witness for C17: a suspended device with finger 0 down reads a frame that carries an
ordinary touch point and, behind it, a double-click gesture; only the gesture is
reported. -/
theorem fts_irq_read_report_suspended_witness :
    (fts_irq_read_report ft3683g_config (ts_suspended 1) gesture_zero env_gesture).out =
      [Ev.hook .notify_gesture_double_tap] ∧
    no_touch_report (fts_irq_read_report ft3683g_config (ts_suspended 1) gesture_zero
      env_gesture).out :=
  ⟨by decide,
    (fts_irq_read_report_suspended ft3683g_config (ts_suspended 1) gesture_zero env_gesture
      (by decide) (by decide) (by decide)).2.2.2.2.1⟩


/-! ## Suspend and resume -/

theorem pm_calls_append (a b : List Ev) : pm_calls (a ++ b) = pm_calls a ++ pm_calls b := by
  simp [pm_calls, List.filterMap_append]

theorem pm_calls_cons_call (f : Fn) (a : List Ev) :
    pm_calls (Ev.call f :: a) = (if f.is_bus then [] else [f]) ++ pm_calls a := by
  cases h : f.is_bus <;> simp [pm_calls, List.filterMap_cons, h]

theorem pm_calls_cons_input (e : InputEvent) (a : List Ev) :
    pm_calls (Ev.input e :: a) = pm_calls a := by
  simp [pm_calls, List.filterMap_cons]

theorem pm_calls_cons_pen (e : InputEvent) (a : List Ev) :
    pm_calls (Ev.pen e :: a) = pm_calls a := by
  simp [pm_calls, List.filterMap_cons]

theorem pm_calls_nil : pm_calls [] = [] := rfl

theorem pm_calls_release_slots (l : List Nat) : pm_calls (fts_release_all_finger_slots l) = [] := by
  induction l with
  | nil => rfl
  | cons i rest ih =>
    rw [fts_release_all_finger_slots, pm_calls_cons_input, pm_calls_cons_input, ih]

theorem pm_calls_release (cfg : FtsConfig) (ts_data : fts_ts_data) :
    pm_calls (fts_release_all_finger cfg ts_data).2 = [] := by
  rw [fts_release_all_finger]
  simp only [pm_calls_append]
  cases cfg.FTS_MT_PROTOCOL_B_EN <;> cases cfg.FTS_PEN_EN <;>
    simp [pm_calls_release_slots, pm_calls_cons_input, pm_calls_cons_pen, pm_calls_nil]

theorem fts_release_all_finger_state (cfg : FtsConfig) (ts_data : fts_ts_data) :
    (fts_release_all_finger cfg ts_data).1 = { ts_data with touch_points := 0, key_state := 0 } :=
  rfl

theorem pm_calls_gesture_suspend_loop (cfg : FtsConfig) (env : PmEnv) (l : List Nat) :
    pm_calls (fts_gesture_suspend_loop cfg env l) = [] := by
  induction l with
  | nil => rfl
  | cons i rest ih =>
    rw [fts_gesture_suspend_loop]
    split <;> simp [pm_calls_append, pm_calls_cons_call, Fn.is_bus, pm_calls_nil, ih]

theorem pm_calls_gesture_suspend (cfg : FtsConfig) (ts_data : fts_ts_data) (env : PmEnv) :
    pm_calls (fts_gesture_suspend cfg ts_data env) = [] := by
  rw [fts_gesture_suspend, pm_calls_append]
  have h1 : pm_calls (if ts_data.gesture_support then
      fts_gesture_suspend_loop cfg env (List.range cfg.FTS_MAX_RETRIES_WRITEREG) else []) = [] := by
    split
    · exact pm_calls_gesture_suspend_loop _ _ _
    · rfl
  rw [h1]
  split <;> simp [pm_calls_cons_call, Fn.is_bus, pm_calls_nil]

theorem fts_ts_suspend_touch_spec (cfg : FtsConfig) (ts_data : fts_ts_data) (env : PmEnv)
    (out0 : List Ev) (hnw : ts_data.need_work_in_suspend = false) :
    (fts_ts_suspend_touch cfg ts_data env out0).ret = 0 ∧
    (fts_ts_suspend_touch cfg ts_data env out0).ts_data.touch_points = 0 ∧
    (fts_ts_suspend_touch cfg ts_data env out0).ts_data.key_state = 0 ∧
    (fts_ts_suspend_touch cfg ts_data env out0).ts_data.suspended = true ∧
    ((ts_data.gesture_support = true ∨ ts_data.pdata.fod_status ≠ 0) →
      pm_calls (fts_ts_suspend_touch cfg ts_data env out0).out =
        pm_calls out0 ++ [Fn.fts_gesture_suspend, Fn.enable_irq_wake env.enable_irq_wake_ret,
          Fn.fts_release_all_finger]) ∧
    (¬(ts_data.gesture_support = true ∨ ts_data.pdata.fod_status ≠ 0) →
      pm_calls (fts_ts_suspend_touch cfg ts_data env out0).out =
        pm_calls out0 ++ Fn.fts_irq_disable ::
          ((if ts_data.irq_disabled then [] else [Fn.disable_irq_nosync]) ++
            [Fn.fts_power_suspend, Fn.fts_release_all_finger])) := by
  refine ⟨rfl, rfl, rfl, rfl, ?_, ?_⟩
  · intro hg
    have hgest : (ts_data.gesture_support || decide (ts_data.pdata.fod_status ≠ 0)) = true := by
      rcases hg with h | h <;> simp [h]
    rw [fts_ts_suspend_touch]
    simp only [hgest, if_true]
    cases ts_data.fwdbg_support <;>
      simp [pm_calls_append, pm_calls_cons_call, pm_calls_gesture_suspend, pm_calls_release,
        Fn.is_bus, pm_calls_nil]
  · intro hg
    have hgest : (ts_data.gesture_support || decide (ts_data.pdata.fod_status ≠ 0)) = false := by
      simp only [not_or, Bool.not_eq_true, ne_eq, not_not] at hg
      simp [hg.1, hg.2]
    rw [fts_ts_suspend_touch]
    simp only [hgest, Bool.false_eq_true, if_false, hnw]
    simp only [pm_calls_append, pm_calls_cons_call, pm_calls_release, Fn.is_bus, pm_calls_nil,
      fts_power_suspend, fts_irq_disable]
    cases ts_data.irq_disabled <;> cases ts_data.fwdbg_support <;>
      simp [pm_calls_cons_call, Fn.is_bus, pm_calls_nil]


/-- C18, as stated, fails in a build with the proximity sensor enabled: an awake device in
proximity mode that is not loading firmware is suspended through `fts_proximity_suspend` and
the early return, so the suspend calls neither `enable_irq_wake` nor `fts_irq_disable` and
`fts_power_suspend`; the touches are still released and the device is marked suspended. -/
theorem fts_ts_suspend_proximity_takes_neither_path :
    ts_proximity.suspended = false ∧ ts_proximity.fw_loading = false ∧
    pm_calls (fts_ts_suspend psensor_config ts_proximity env_pm_failing).out =
      [Fn.fts_esdcheck_suspend, Fn.fts_proximity_suspend, Fn.fts_release_all_finger] ∧
    (fts_ts_suspend psensor_config ts_proximity env_pm_failing).ts_data.suspended = true := by
  decide

/-- C18 (amended): `fts_ts_suspend` and `fts_ts_resume` return 0 for every configuration, driver
state and outcome of the bus writes, the gesture confirmation and the wake-up request. From a
state that is neither suspended nor loading firmware, `fts_ts_suspend` ends with no touch
and no key reported and with `suspended` set. Outside proximity mode its calls, bus
transactions and delays left out, are those of exactly one path: `fts_gesture_suspend` and
`enable_irq_wake` when gestures or FOD are wanted, otherwise `fts_irq_disable` and
`fts_power_suspend`. In proximity mode of a build with the proximity sensor it calls
`fts_proximity_suspend` and neither path. -/
theorem fts_ts_suspend_resume_complete (cfg : FtsConfig) (ts_data : fts_ts_data) (env : PmEnv) :
    (fts_ts_suspend cfg ts_data env).ret = 0 ∧
    (fts_ts_resume cfg ts_data env).ret = 0 ∧
    (ts_data.suspended = false → ts_data.fw_loading = false →
      (fts_ts_suspend cfg ts_data env).ts_data.touch_points = 0 ∧
      (fts_ts_suspend cfg ts_data env).ts_data.key_state = 0 ∧
      (fts_ts_suspend cfg ts_data env).ts_data.suspended = true ∧
      (¬(cfg.FTS_PSENSOR_EN = true ∧ ts_data.proximity_mode = true) →
        ((ts_data.gesture_support = true ∨ ts_data.pdata.fod_status ≠ 0) →
          pm_calls (fts_ts_suspend cfg ts_data env).out =
            [Fn.fts_esdcheck_suspend, Fn.fts_gesture_suspend,
              Fn.enable_irq_wake env.enable_irq_wake_ret, Fn.fts_release_all_finger]) ∧
        (¬(ts_data.gesture_support = true ∨ ts_data.pdata.fod_status ≠ 0) →
          pm_calls (fts_ts_suspend cfg ts_data env).out =
            Fn.fts_esdcheck_suspend :: Fn.fts_irq_disable ::
              ((if ts_data.irq_disabled then [] else [Fn.disable_irq_nosync]) ++
                [Fn.fts_power_suspend, Fn.fts_release_all_finger]))) ∧
      ((cfg.FTS_PSENSOR_EN = true ∧ ts_data.proximity_mode = true) →
        pm_calls (fts_ts_suspend cfg ts_data env).out =
          [Fn.fts_esdcheck_suspend, Fn.fts_proximity_suspend, Fn.fts_release_all_finger])) := by
  refine ⟨?_, ?_, ?_⟩
  · rw [fts_ts_suspend]
    simp only []
    split
    · rfl
    · split
      · rfl
      · split
        · rfl
        · rfl
  · rw [fts_ts_resume]
    simp only []
    split
    · rfl
    · split
      · rfl
      · split
        · rfl
        · rfl
  · intro hs hf
    rw [fts_ts_suspend]
    simp only [hs, hf, Bool.false_eq_true, if_false]
    by_cases hp : cfg.FTS_PSENSOR_EN = true ∧ ts_data.proximity_mode = true
    · rw [if_pos hp]
      refine ⟨rfl, rfl, rfl, fun h => absurd hp h, fun _ => ?_⟩
      simp [pm_calls_append, pm_calls_cons_call, pm_calls_release, Fn.is_bus, pm_calls_nil]
    · rw [if_neg hp]
      obtain ⟨_, h2, h3, h4, h5, h6⟩ := fts_ts_suspend_touch_spec cfg
        { ts_data with lcd_status := 0, need_work_in_suspend := false } env
        [Ev.call .fts_esdcheck_suspend] rfl
      simp only [hs, hf] at h2 h3 h4 h5 h6
      refine ⟨h2, h3, h4, fun _ => ⟨fun hg => ?_, fun hg => ?_⟩, fun h => absurd h hp⟩
      · refine (h5 hg).trans ?_
        simp [pm_calls_cons_call, Fn.is_bus, pm_calls_nil]
      · refine (h6 hg).trans ?_
        simp [pm_calls_cons_call, Fn.is_bus, pm_calls_nil]

/-- C18 (amended), at an awake device with fingers 0 and 1 down whose collaborators all
fail: the touches are released, the device is suspended, and the power-off path is taken. -/
theorem fts_ts_suspend_resume_complete_witness :
    (ts_awake 3).suspended = false ∧ (ts_awake 3).fw_loading = false ∧
    (fts_ts_suspend ft3683g_config (ts_awake 3) env_pm_failing).ts_data.touch_points = 0 ∧
    (fts_ts_suspend ft3683g_config (ts_awake 3) env_pm_failing).ts_data.key_state = 0 ∧
    (fts_ts_suspend ft3683g_config (ts_awake 3) env_pm_failing).ts_data.suspended = true ∧
    pm_calls (fts_ts_suspend ft3683g_config (ts_awake 3) env_pm_failing).out =
      [Fn.fts_esdcheck_suspend, Fn.fts_irq_disable, Fn.disable_irq_nosync,
        Fn.fts_power_suspend, Fn.fts_release_all_finger] :=
  ⟨by decide, by decide,
   ((fts_ts_suspend_resume_complete ft3683g_config (ts_awake 3) env_pm_failing).2.2
      (by decide) (by decide)).1,
   ((fts_ts_suspend_resume_complete ft3683g_config (ts_awake 3) env_pm_failing).2.2
      (by decide) (by decide)).2.1,
   ((fts_ts_suspend_resume_complete ft3683g_config (ts_awake 3) env_pm_failing).2.2
      (by decide) (by decide)).2.2.1,
   (((fts_ts_suspend_resume_complete ft3683g_config (ts_awake 3) env_pm_failing).2.2
      (by decide) (by decide)).2.2.2.1 (by decide)).2 (by decide)⟩

/-! ## Set and get of a touch mode -/

theorem Tre.go_flags_go (flags cs cmd rx_len link_rx eot eob chain : Nat) :
    (Tre.go flags cs cmd rx_len link_rx eot eob chain).go_flags = some flags := rfl

theorem Tre.go_flags_dma (buf len : Nat) (is_tx : Bool) :
    (Tre.dma buf len is_tx).go_flags = none := rfl

theorem sg_go_flags_chain (xfer : spi_transfer) (mas : spi_geni_master)
    (spi_slv : spi_device) (is_last : Bool) (env : GsiEnv) (c0_tre : Option Tre)
    (out0 : List SpiEv) (hc0 : ∀ t, c0_tre = some t → t.go_flags = none) :
    sg_go_flags (setup_gsi_xfer_chain xfer mas spi_slv is_last env c0_tre out0).tx_sg =
      [if xfer.cs_change = false ∧ is_last = false then FRAGMENTATION else 0] := by
  have hflag : (if (!xfer.cs_change && !is_last) = true then FRAGMENTATION else 0) =
      (if xfer.cs_change = false ∧ is_last = false then FRAGMENTATION else 0) := by
    cases xfer.cs_change <;> cases is_last <;> rfl
  unfold setup_gsi_xfer_chain
  simp only [hflag]
  cases c0_tre with
  | none =>
    split_ifs <;>
      simp [sg_go_flags, setup_go_tre, setup_dma_tre, Tre.go_flags_go, Tre.go_flags_dma,
        List.filterMap_append, List.filterMap_cons]
  | some t =>
    have ht := hc0 t rfl
    split_ifs <;>
      simp [sg_go_flags, setup_go_tre, setup_dma_tre, Tre.go_flags_go, Tre.go_flags_dma,
        List.filterMap_append, List.filterMap_cons, ht]

theorem Tre.go_flags_of_is_config0 (t : Tre) (h : t.is_config0 = true) : t.go_flags = none := by
  cases t <;> first | rfl | cases h

theorem sg_go_flags_setup_gsi_xfer (gcfg : GeniConfig) (xfer : spi_transfer)
    (mas : spi_geni_master) (spi_slv : spi_device) (is_last : Bool) (env : GsiEnv) :
    (sg_go_flags (setup_gsi_xfer gcfg xfer mas spi_slv is_last env).tx_sg = [] ∧
      (setup_gsi_xfer gcfg xfer mas spi_slv is_last env).ret ≠ 0) ∨
    sg_go_flags (setup_gsi_xfer gcfg xfer mas spi_slv is_last env).tx_sg =
      [if xfer.cs_change = false ∧ is_last = false then FRAGMENTATION else 0] := by
  have hchain := fun (m : spi_geni_master) (c0 : Option Tre) (o : List SpiEv)
      (h : ∀ t, c0 = some t → t.go_flags = none) =>
    sg_go_flags_chain xfer m spi_slv is_last env c0 o h
  generalize (if xfer.cs_change = false ∧ is_last = false then FRAGMENTATION else 0) = v
    at hchain ⊢
  unfold setup_gsi_xfer
  simp only []
  generalize (if (mas.is_le_vm && mas.le_gpi_reset_done) = true then spi_geni_lock_bus env
        else (0, [])) = lock
  generalize (if (mas.is_le_vm && mas.le_gpi_reset_done) = true then
        { mas with le_gpi_reset_done := false } else mas) = mas0
  by_cases hl : lock.1 ≠ 0
  · rw [if_pos hl]
    exact Or.inl ⟨rfl, hl⟩
  · rw [if_neg hl]
    by_cases hch : xfer.bits_per_word ≠ mas0.cur_word_len ∨ xfer.speed_hz ≠ mas0.cur_speed_hz
    · rw [if_pos hch]
      generalize hc : setup_config0_tre _ _ _ _ _ _ _ = c
      have hcs : (∃ r, r ≠ 0 ∧ c = .error r) ∨ (∃ t, t.is_config0 = true ∧ c = .ok t) := by
        rw [← hc]
        exact setup_config0_tre_cases _ _ _ _ _ _ _
      rcases hcs with ⟨r, hr, he⟩ | ⟨t, ht, he⟩
      · rw [he]
        exact Or.inl ⟨rfl, hr⟩
      · rw [he]
        refine Or.inr (hchain _ (some t) lock.2 (fun t' h' => ?_))
        cases h'
        exact Tre.go_flags_of_is_config0 t ht
    · rw [if_neg hch]
      exact Or.inr (hchain _ none lock.2 (fun t' h' => by cases h'))

/-- C20, as stated, fails for a transfer that asks for a chip-select change: a TX transfer
with `cs_change` set that is not the last of its message is set up without error, and its
go TRE carries no flag although more transfers follow. -/
theorem setup_gsi_xfer_cs_change_drops_fragmentation :
    xfer_tx_cs_change.cs_change = true ∧
    (setup_gsi_xfer geni_config xfer_tx_cs_change mas_gsi slv0 false env_ok).ret = 0 ∧
    sg_go_flags (setup_gsi_xfer geni_config xfer_tx_cs_change mas_gsi slv0 false env_ok).tx_sg
      = [0] ∧
    0 &&& FRAGMENTATION = 0 := by
  decide

/-- C20 (amended): every go TRE that `setup_gsi_xfer` puts in the TX scatterlist carries
the FRAGMENTATION flag if and only if the transfer does not ask for a chip-select change
(`cs_change` is 0) and more transfers follow it in the same message; its flags are
FRAGMENTATION in that case and 0 otherwise.  When `setup_gsi_xfer` returns 0 the
scatterlist holds exactly one go TRE. -/
theorem setup_gsi_xfer_go_tre_fragmentation (gcfg : GeniConfig) (xfer : spi_transfer)
    (mas : spi_geni_master) (spi_slv : spi_device) (is_last : Bool) (env : GsiEnv) :
    (∀ f ∈ sg_go_flags (setup_gsi_xfer gcfg xfer mas spi_slv is_last env).tx_sg,
      (f = if xfer.cs_change = false ∧ is_last = false then FRAGMENTATION else 0) ∧
      (f &&& FRAGMENTATION ≠ 0 ↔ (xfer.cs_change = false ∧ is_last = false))) ∧
    ((setup_gsi_xfer gcfg xfer mas spi_slv is_last env).ret = 0 →
      sg_go_flags (setup_gsi_xfer gcfg xfer mas spi_slv is_last env).tx_sg =
        [if xfer.cs_change = false ∧ is_last = false then FRAGMENTATION else 0]) := by
  rcases sg_go_flags_setup_gsi_xfer gcfg xfer mas spi_slv is_last env with ⟨h, hr⟩ | h
  · refine ⟨fun f hf => ?_, fun hok => absurd hok hr⟩
    rw [h] at hf
    cases hf
  · refine ⟨fun f hf => ?_, fun _ => h⟩
    rw [h, List.mem_singleton] at hf
    refine ⟨hf, ?_⟩
    rw [hf]
    by_cases hc : xfer.cs_change = false ∧ is_last = false
    · rw [if_pos hc]
      exact ⟨fun _ => hc, fun _ => by decide⟩
    · rw [if_neg hc]
      exact ⟨fun h0 => absurd (by decide) h0, fun h0 => absurd h0 hc⟩

/-- C20 (amended), at a 4-byte TX transfer without chip-select change: FRAGMENTATION when
more transfers follow, no flag when it is the last. -/
theorem setup_gsi_xfer_go_tre_fragmentation_witness :
    (setup_gsi_xfer geni_config (xfer_tx 1000000) mas_gsi slv0 false env_ok).ret = 0 ∧
    sg_go_flags (setup_gsi_xfer geni_config (xfer_tx 1000000) mas_gsi slv0 false env_ok).tx_sg =
      [FRAGMENTATION] ∧
    sg_go_flags (setup_gsi_xfer geni_config (xfer_tx 1000000) mas_gsi slv0 true env_ok).tx_sg =
      [0] :=
  ⟨by decide,
    (setup_gsi_xfer_go_tre_fragmentation geni_config (xfer_tx 1000000) mas_gsi slv0 false
      env_ok).2 (by decide),
    (setup_gsi_xfer_go_tre_fragmentation geni_config (xfer_tx 1000000) mas_gsi slv0 true
      env_ok).2 (by decide)⟩

/-! ## `fts_gesture_report` and the return value of `fts_gesture_readdata` -/

/-- C21: for every gesture id, `fts_gesture_report` emits key press, sync, key release, sync
for the mapped key and calls no hook when the id is one of the 13 swipe and shape codes of
`gesture_keys`; it calls exactly the single-tap, double-tap or FOD-press hook and emits no
key event when the id is `0x25`, `0x24` or `0x26`; for any other id it emits nothing and
calls no hook. -/
theorem fts_gesture_report_cases (gesture_id : Nat) :
    (∀ key, (gesture_id, key) ∈ gesture_keys →
      fts_gesture_report gesture_id =
        [Ev.input (.report_key key 1), Ev.input .sync,
         Ev.input (.report_key key 0), Ev.input .sync]) ∧
    (gesture_id = 0x25 → fts_gesture_report gesture_id = [Ev.hook .notify_gesture_single_tap]) ∧
    (gesture_id = 0x24 → fts_gesture_report gesture_id = [Ev.hook .notify_gesture_double_tap]) ∧
    (gesture_id = 0x26 →
      fts_gesture_report gesture_id = [Ev.hook (.update_fod_press_status 1)]) ∧
    (gesture_id ∉ gesture_keys.map Prod.fst → gesture_id ≠ 0x25 → gesture_id ≠ 0x24 →
      gesture_id ≠ 0x26 → fts_gesture_report gesture_id = []) := by
  refine ⟨fun key h => ?_, fun h => ?_, fun h => ?_, fun h => ?_, fun hk h1 h2 h3 => ?_⟩
  · have hall : ∀ p ∈ gesture_keys, fts_gesture_report p.1 =
        [Ev.input (.report_key p.2 1), Ev.input .sync,
         Ev.input (.report_key p.2 0), Ev.input .sync] := by
      decide
    exact hall (gesture_id, key) h
  · subst h; rfl
  · subst h; rfl
  · subst h; rfl
  · simp only [gesture_keys, List.map_cons, List.map_nil, List.mem_cons, List.mem_singleton,
      List.mem_nil_iff, or_false, not_or] at hk
    obtain ⟨a1, a2, a3, a4, a5, a6, a7, a8, a9, a10, a11, a12, a13⟩ := hk
    simp [fts_gesture_report, fts_gesture_report_code, GESTURE_CLICK, GESTURE_DOUBLECLICK,
      GESTURE_FODPRESS, GESTURE_LEFT, GESTURE_RIGHT, GESTURE_UP, GESTURE_DOWN, GESTURE_O,
      GESTURE_W, GESTURE_M, GESTURE_E, GESTURE_L, GESTURE_S, GESTURE_V, GESTURE_Z, GESTURE_C,
      h1, h2, h3, a1, a2, a3, a4, a5, a6, a7, a8, a9, a10, a11, a12, a13]

/-- C21, at the ids `0x22` (UP), `0x24` (double click) and `0x27` (not a gesture). -/
theorem fts_gesture_report_cases_witness :
    fts_gesture_report 0x22 =
      [Ev.input (.report_key .KEY_GESTURE_UP 1), Ev.input .sync,
       Ev.input (.report_key .KEY_GESTURE_UP 0), Ev.input .sync] ∧
    fts_gesture_report 0x24 = [Ev.hook .notify_gesture_double_tap] ∧
    fts_gesture_report 0x27 = [] :=
  ⟨(fts_gesture_report_cases 0x22).1 .KEY_GESTURE_UP (by decide),
   (fts_gesture_report_cases 0x24).2.2.1 rfl,
   (fts_gesture_report_cases 0x27).2.2.2.2 (by decide) (by decide) (by decide) (by decide)⟩

/-- C22: the return values of `fts_gesture_readdata` are not those of its header comment.
With the gesture-enable register reading 0 (gesture not enabled in the firmware) it returns
0, where the comment documents 1; after a successful read of an UP gesture, which it
reports, it returns `FTS_RETVAL_IGNORE_TOUCHES` (1), where the comment documents 0. -/
theorem fts_gesture_readdata_return_values_differ_from_header_comment :
    (fts_gesture_readdata ft3683g_config (ts_suspended 0) gesture_zero none 0 0
      (Buf.ofList [])).ret = 0 ∧
    (fts_gesture_readdata ft3683g_config (ts_suspended 0) gesture_zero none 0 0
      (Buf.ofList [])).out = [] ∧
    (fts_gesture_readdata ft3683g_config (ts_suspended 0) gesture_zero none 1 0
      (Buf.ofList [0x22, 0])).ret = 1 ∧
    (fts_gesture_readdata ft3683g_config (ts_suspended 0) gesture_zero none 1 0
      (Buf.ofList [0x22, 0])).out =
      [Ev.input (.report_key .KEY_GESTURE_UP 1), Ev.input .sync,
       Ev.input (.report_key .KEY_GESTURE_UP 0), Ev.input .sync] := by
  decide

/-! ## `fts_wait_tp_to_valid` -/

theorem failed_attempts_succ (cfg : FtsConfig) (i k : Nat) :
    failed_attempts cfg i (k + 1) =
      Ev.call (.fts_read_reg cfg.FTS_REG_CHIP_ID) :: Ev.call (.fts_msleep ((i + 1) * 20)) ::
        failed_attempts cfg (i + 1) k := by
  simp [failed_attempts, List.range'_succ, List.flatMap_cons]

theorem failed_attempts_zero (cfg : FtsConfig) (i : Nat) : failed_attempts cfg i 0 = [] := rfl

/-- The loop when attempt `k` is the first on which the id is valid. -/
theorem fts_wait_tp_to_valid_loop_match (cfg : FtsConfig) (ts_data : fts_ts_data)
    (idh : Nat → Nat) (k : Nat) :
    ∀ (n i : Nat), i + n = cfg.FTS_MAX_RETRIES_READID → i ≤ k → k < i + n →
      tp_id_valid cfg ts_data (idh k) = true →
      (∀ j, i ≤ j → j < k → tp_id_valid cfg ts_data (idh j) = false) →
      fts_wait_tp_to_valid_loop cfg ts_data idh n i =
        (0, failed_attempts cfg i (k - i) ++ [Ev.call (.fts_read_reg cfg.FTS_REG_CHIP_ID)]) := by
  intro n
  induction n with
  | zero => intro i _ h1 h2; omega
  | succ n ih =>
    intro i hN hik hk hm hf
    rw [fts_wait_tp_to_valid_loop]
    by_cases hi : i = k
    · subst hi
      rw [if_pos hm, Nat.sub_self, failed_attempts_zero]
      rfl
    · have hlt : i < k := lt_of_le_of_ne hik hi
      have hfi := hf i (le_refl i) hlt
      rw [hfi]
      simp only [Bool.false_eq_true, if_false]
      rw [ih (i + 1) (by omega) (by omega) (by omega) hm (fun j h1 h2 => hf j (by omega) h2)]
      have hs : i + 1 < cfg.FTS_MAX_RETRIES_READID := by omega
      rw [if_pos hs]
      have hk' : k - i = (k - (i + 1)) + 1 := by omega
      rw [hk', failed_attempts_succ]
      rfl

/-- The loop when no attempt finds a valid id. -/
theorem fts_wait_tp_to_valid_loop_none (cfg : FtsConfig) (ts_data : fts_ts_data)
    (idh : Nat → Nat) :
    ∀ (n i : Nat), i + (n + 1) = cfg.FTS_MAX_RETRIES_READID →
      (∀ j, i ≤ j → j < i + (n + 1) → tp_id_valid cfg ts_data (idh j) = false) →
      fts_wait_tp_to_valid_loop cfg ts_data idh (n + 1) i =
        (- EIO, failed_attempts cfg i n ++ [Ev.call (.fts_read_reg cfg.FTS_REG_CHIP_ID)]) := by
  intro n
  induction n with
  | zero =>
    intro i hN hf
    rw [fts_wait_tp_to_valid_loop, hf i (le_refl i) (by omega)]
    simp only [Bool.false_eq_true, if_false, fts_wait_tp_to_valid_loop]
    rw [if_neg (by omega)]
    rfl
  | succ n ih =>
    intro i hN hf
    rw [fts_wait_tp_to_valid_loop, hf i (le_refl i) (by omega)]
    simp only [Bool.false_eq_true, if_false]
    rw [ih (i + 1) (by omega) (fun j h1 h2 => hf j (by omega) (by omega))]
    rw [if_pos (by omega), failed_attempts_succ]
    rfl

theorem msleeps_append (a b : List Ev) : msleeps (a ++ b) = msleeps a ++ msleeps b := by
  simp [msleeps, List.filterMap_append]

theorem msleeps_failed_attempts (cfg : FtsConfig) (k : Nat) :
    ∀ i, msleeps (failed_attempts cfg i k) = (List.range' i k).map (fun j => (j + 1) * 20) := by
  induction k with
  | zero => intro i; rfl
  | succ k ih =>
    intro i
    rw [failed_attempts_succ, List.range'_succ, List.map_cons, ← ih (i + 1)]
    rfl

theorem calls_read_failed_attempts (cfg : FtsConfig) (k : Nat) :
    ∀ i, calls (.fts_read_reg cfg.FTS_REG_CHIP_ID) (failed_attempts cfg i k) = k := by
  induction k with
  | zero => intro i; rfl
  | succ k ih =>
    intro i
    rw [failed_attempts_succ]
    have := ih (i + 1)
    simp only [calls] at this ⊢
    rw [List.count_cons, List.count_cons, this]
    simp

theorem fts_wait_tp_to_valid_cases (cfg : FtsConfig) (ts_data : fts_ts_data)
    (idh : Nat → Nat) :
    (∃ k, k < cfg.FTS_MAX_RETRIES_READID ∧ tp_id_valid cfg ts_data (idh k) = true ∧
      (∀ j, j < k → tp_id_valid cfg ts_data (idh j) = false) ∧
      fts_wait_tp_to_valid cfg ts_data idh =
        (0, failed_attempts cfg 0 k ++ [Ev.call (.fts_read_reg cfg.FTS_REG_CHIP_ID)])) ∨
    ((∀ j, j < cfg.FTS_MAX_RETRIES_READID → tp_id_valid cfg ts_data (idh j) = false) ∧
      fts_wait_tp_to_valid cfg ts_data idh =
        (- EIO, if cfg.FTS_MAX_RETRIES_READID = 0 then []
          else failed_attempts cfg 0 (cfg.FTS_MAX_RETRIES_READID - 1) ++
            [Ev.call (.fts_read_reg cfg.FTS_REG_CHIP_ID)])) := by
  by_cases h : ∃ k, k < cfg.FTS_MAX_RETRIES_READID ∧ tp_id_valid cfg ts_data (idh k) = true
  · left
    refine ⟨Nat.find h, (Nat.find_spec h).1, (Nat.find_spec h).2, fun j hj => ?_, ?_⟩
    · have hmin := Nat.find_min h hj
      have hlt : j < cfg.FTS_MAX_RETRIES_READID := lt_trans hj (Nat.find_spec h).1
      cases hv : tp_id_valid cfg ts_data (idh j)
      · rfl
      · exact absurd ⟨hlt, hv⟩ hmin
    · rw [fts_wait_tp_to_valid]
      have := fts_wait_tp_to_valid_loop_match cfg ts_data idh (Nat.find h)
        cfg.FTS_MAX_RETRIES_READID 0 (by omega) (Nat.zero_le _)
        (by have := (Nat.find_spec h).1; omega) (Nat.find_spec h).2
        (fun j _ hj => by
          have hmin := Nat.find_min h hj
          have hlt : j < cfg.FTS_MAX_RETRIES_READID := lt_trans hj (Nat.find_spec h).1
          cases hv : tp_id_valid cfg ts_data (idh j)
          · rfl
          · exact absurd ⟨hlt, hv⟩ hmin)
      rw [this, Nat.sub_zero]
  · right
    have hall : ∀ j, j < cfg.FTS_MAX_RETRIES_READID → tp_id_valid cfg ts_data (idh j) = false := by
      intro j hj
      cases hv : tp_id_valid cfg ts_data (idh j)
      · rfl
      · exact absurd ⟨j, hj, hv⟩ h
    refine ⟨hall, ?_⟩
    rw [fts_wait_tp_to_valid]
    cases hN : cfg.FTS_MAX_RETRIES_READID with
    | zero => rfl
    | succ n =>
      rw [fts_wait_tp_to_valid_loop_none cfg ts_data idh n 0 (by omega)
        (fun j _ hj => hall j (by omega))]
      simp

theorem pairwise_lt_delays (i k : Nat) :
    List.Pairwise (fun a b => a < b) ((List.range' i k).map (fun j => (j + 1) * 20)) := by
  rw [List.pairwise_map]
  have h := List.pairwise_lt_range' i k
  exact h.imp (fun {a b} hab => by omega)

/-- C23: for every sequence `idh` of chip-id read results, `fts_wait_tp_to_valid` makes at most
`FTS_MAX_RETRIES_READID` reads.  When attempt `k` is the first whose id byte equals
`chip_idh` or passes `fts_check_cid`, it returns 0 after the reads of attempts `0 .. k`,
each failed attempt `j` followed by a sleep of `(j + 1) * 20` ms.  When no attempt
matches, it returns `-EIO` after `FTS_MAX_RETRIES_READID` reads, with a sleep of
`(j + 1) * 20` ms after every failed attempt `j` but the last.  It returns `-EIO` if and
only if no attempt matched, it returns nothing but 0 and `-EIO`, and its delays increase
strictly. -/
theorem fts_wait_tp_to_valid_spec (cfg : FtsConfig) (ts_data : fts_ts_data)
    (idh : Nat → Nat) :
    calls (.fts_read_reg cfg.FTS_REG_CHIP_ID) (fts_wait_tp_to_valid cfg ts_data idh).2
      ≤ cfg.FTS_MAX_RETRIES_READID ∧
    (∀ k, k < cfg.FTS_MAX_RETRIES_READID →
      (idh k % 256 = ts_data.ic_info.ids.chip_idh % 256 ∨
        fts_check_cid cfg ts_data (idh k) = 0) →
      (∀ j, j < k → ¬(idh j % 256 = ts_data.ic_info.ids.chip_idh % 256 ∨
        fts_check_cid cfg ts_data (idh j) = 0)) →
      fts_wait_tp_to_valid cfg ts_data idh =
        (0, failed_attempts cfg 0 k ++ [Ev.call (.fts_read_reg cfg.FTS_REG_CHIP_ID)])) ∧
    ((∀ j, j < cfg.FTS_MAX_RETRIES_READID →
        ¬(idh j % 256 = ts_data.ic_info.ids.chip_idh % 256 ∨
          fts_check_cid cfg ts_data (idh j) = 0)) →
      fts_wait_tp_to_valid cfg ts_data idh =
        (- EIO, if cfg.FTS_MAX_RETRIES_READID = 0 then []
          else failed_attempts cfg 0 (cfg.FTS_MAX_RETRIES_READID - 1) ++
            [Ev.call (.fts_read_reg cfg.FTS_REG_CHIP_ID)])) ∧
    ((fts_wait_tp_to_valid cfg ts_data idh).1 = - EIO ↔
      ∀ j, j < cfg.FTS_MAX_RETRIES_READID →
        ¬(idh j % 256 = ts_data.ic_info.ids.chip_idh % 256 ∨
          fts_check_cid cfg ts_data (idh j) = 0)) ∧
    ((fts_wait_tp_to_valid cfg ts_data idh).1 = 0 ∨
      (fts_wait_tp_to_valid cfg ts_data idh).1 = - EIO) ∧
    List.Pairwise (fun a b => a < b) (msleeps (fts_wait_tp_to_valid cfg ts_data idh).2) := by
  have hv : ∀ v, (v % 256 = ts_data.ic_info.ids.chip_idh % 256 ∨
      fts_check_cid cfg ts_data v = 0) ↔ tp_id_valid cfg ts_data v = true := by
    intro v
    simp [tp_id_valid]
  simp only [hv, Bool.not_eq_true]
  have hread : calls (.fts_read_reg cfg.FTS_REG_CHIP_ID)
      [Ev.call (.fts_read_reg cfg.FTS_REG_CHIP_ID)] = 1 := by
    simp [calls]
  have hcalls : ∀ a b : List Ev, calls (.fts_read_reg cfg.FTS_REG_CHIP_ID) (a ++ b) =
      calls (.fts_read_reg cfg.FTS_REG_CHIP_ID) a + calls (.fts_read_reg cfg.FTS_REG_CHIP_ID) b := by
    intro a b
    simp [calls, List.count_append]
  have hms : msleeps [Ev.call (.fts_read_reg cfg.FTS_REG_CHIP_ID)] = [] := rfl
  rcases fts_wait_tp_to_valid_cases cfg ts_data idh with ⟨k, hk, hm, hf, hr⟩ | ⟨hall, hr⟩
  · have huniq : ∀ k', k' < cfg.FTS_MAX_RETRIES_READID → tp_id_valid cfg ts_data (idh k') = true →
        (∀ j, j < k' → tp_id_valid cfg ts_data (idh j) = false) → k' = k := by
      intro k' _ hm' hf'
      rcases Nat.lt_trichotomy k' k with h | h | h
      · have := hf k' h; rw [hm'] at this; cases this
      · exact h
      · have := hf' k h; rw [hm] at this; cases this
    refine ⟨?_, fun k' hk' hm' hf' => ?_, fun hall => ?_, ?_, ?_, ?_⟩
    · rw [hr]
      simp only []
      rw [hcalls, calls_read_failed_attempts, hread]
      omega
    · rw [huniq k' hk' hm' hf']
      exact hr
    · have := hall k hk
      rw [hm] at this
      cases this
    · rw [hr]
      constructor
      · intro h
        exact absurd h (show (0 : Int) ≠ - EIO by decide)
      · intro hall
        have := hall k hk
        rw [hm] at this
        cases this
    · left
      rw [hr]
    · rw [hr]
      simp only []
      rw [msleeps_append, msleeps_failed_attempts, hms, List.append_nil]
      exact pairwise_lt_delays 0 k
  · refine ⟨?_, fun k' hk' hm' _ => ?_, fun _ => hr, ?_, ?_, ?_⟩
    · rw [hr]
      simp only []
      split
      · simp [calls]
      · rw [hcalls, calls_read_failed_attempts, hread]
        omega
    · have := hall k' hk'
      rw [hm'] at this
      cases this
    · rw [hr]
      exact ⟨fun _ => hall, fun _ => rfl⟩
    · right
      rw [hr]
    · rw [hr]
      simp only []
      split
      · exact List.Pairwise.nil
      · rw [msleeps_append, msleeps_failed_attempts, hms, List.append_nil]
        exact pairwise_lt_delays 0 _

/-- C23, at a chip that answers with its id at the third attempt: three reads, sleeps of 20
and 40 ms, return value 0. -/
theorem fts_wait_tp_to_valid_spec_witness :
    fts_wait_tp_to_valid ft3683g_config ts_ft3683g idh_third_attempt =
      (0, [Ev.call (.fts_read_reg 0xA3), Ev.call (.fts_msleep 20),
           Ev.call (.fts_read_reg 0xA3), Ev.call (.fts_msleep 40),
           Ev.call (.fts_read_reg 0xA3)]) :=
  ((fts_wait_tp_to_valid_spec ft3683g_config ts_ft3683g idh_third_attempt).2.1 2
    (by decide) (by decide) (by decide)).trans (by decide)

/-! ## Scan of the point slots -/

theorem fts_input_report_touch_scan_cons (cfg : FtsConfig) (max_touch_num finger_num : Nat)
    (touch_buf : Buf) (i : Nat) (rest : List Nat) :
    fts_input_report_touch_scan cfg max_touch_num finger_num touch_buf (i :: rest) =
      if pointid_v1 cfg touch_buf i ≥ cfg.FTS_MAX_ID then .ok []
      else if pointid_v1 cfg touch_buf i ≥ max_touch_num then .error (- EINVAL)
      else if cfg.EVENT_DOWN (touch_point_v1 cfg touch_buf i (pointid_v1 cfg touch_buf i)).flag
          && finger_num == 0 then .error (- EIO)
      else
        match fts_input_report_touch_scan cfg max_touch_num finger_num touch_buf rest with
        | .ok es => .ok (touch_point_v1 cfg touch_buf i (pointid_v1 cfg touch_buf i) :: es)
        | .error r => .error r := by
  rw [fts_input_report_touch_scan]
  rfl

theorem fts_input_report_touch_pv2_scan_cons (cfg : FtsConfig) (max_touch_num srf : Nat)
    (touch_buf : Buf) (i : Nat) (rest : List Nat) :
    fts_input_report_touch_pv2_scan cfg max_touch_num srf touch_buf (i :: rest) =
      if pointid_v2 cfg touch_buf i ≥ max_touch_num then .error (- EINVAL)
      else
        match fts_input_report_touch_pv2_scan cfg max_touch_num srf touch_buf rest with
        | .ok es => .ok (touch_point_v2 cfg srf touch_buf i (pointid_v2 cfg touch_buf i) :: es)
        | .error r => .error r := by
  rw [fts_input_report_touch_pv2_scan]
  rfl

theorem fts_input_report_touch_scan_error (cfg : FtsConfig) (max_touch_num finger_num : Nat)
    (touch_buf : Buf) (l : List Nat) (r : Int)
    (h : fts_input_report_touch_scan cfg max_touch_num finger_num touch_buf l = .error r) :
    r = - EINVAL ∨ r = - EIO := by
  induction l with
  | nil => rw [fts_input_report_touch_scan] at h; cases h
  | cons i rest ih =>
    rw [fts_input_report_touch_scan_cons] at h
    split_ifs at h
    · cases h; exact Or.inl rfl
    · cases h; exact Or.inr rfl
    · cases hs : fts_input_report_touch_scan cfg max_touch_num finger_num touch_buf rest with
      | ok es => rw [hs] at h; cases h
      | error r' =>
        rw [hs] at h
        cases h
        exact ih hs

theorem fts_input_report_touch_pv2_scan_error (cfg : FtsConfig) (max_touch_num srf : Nat)
    (touch_buf : Buf) (l : List Nat) (r : Int)
    (h : fts_input_report_touch_pv2_scan cfg max_touch_num srf touch_buf l = .error r) :
    r = - EINVAL := by
  induction l with
  | nil => rw [fts_input_report_touch_pv2_scan] at h; cases h
  | cons i rest ih =>
    rw [fts_input_report_touch_pv2_scan_cons] at h
    split_ifs at h
    · cases h; rfl
    · cases hs : fts_input_report_touch_pv2_scan cfg max_touch_num srf touch_buf rest with
      | ok es => rw [hs] at h; cases h
      | error r' =>
        rw [hs] at h
        cases h
        exact ih hs

theorem fts_input_report_touch_scan_mem (cfg : FtsConfig) (max_touch_num finger_num : Nat)
    (touch_buf : Buf) (l : List Nat) :
    ∀ es, fts_input_report_touch_scan cfg max_touch_num finger_num touch_buf l = .ok es →
      ∀ e ∈ es, ∃ i ∈ l, e = touch_point_v1 cfg touch_buf i (pointid_v1 cfg touch_buf i) := by
  induction l with
  | nil =>
    intro es h e he
    rw [fts_input_report_touch_scan] at h
    cases h
    cases he
  | cons i rest ih =>
    intro es h e he
    rw [fts_input_report_touch_scan_cons] at h
    split_ifs at h
    · cases h; cases he
    · cases hs : fts_input_report_touch_scan cfg max_touch_num finger_num touch_buf rest with
      | error r' => rw [hs] at h; cases h
      | ok es' =>
        rw [hs] at h
        cases h
        rcases List.mem_cons.mp he with rfl | he'
        · exact ⟨i, List.mem_cons_self _ _, rfl⟩
        · obtain ⟨j, hj, hje⟩ := ih es' hs e he'
          exact ⟨j, List.mem_cons_of_mem _ hj, hje⟩

theorem fts_input_report_touch_pv2_scan_mem (cfg : FtsConfig) (max_touch_num srf : Nat)
    (touch_buf : Buf) (l : List Nat) :
    ∀ es, fts_input_report_touch_pv2_scan cfg max_touch_num srf touch_buf l = .ok es →
      ∀ e ∈ es, ∃ i ∈ l,
        e = touch_point_v2 cfg srf touch_buf i (pointid_v2 cfg touch_buf i) := by
  induction l with
  | nil =>
    intro es h e he
    rw [fts_input_report_touch_pv2_scan] at h
    cases h
    cases he
  | cons i rest ih =>
    intro es h e he
    rw [fts_input_report_touch_pv2_scan_cons] at h
    split_ifs at h
    cases hs : fts_input_report_touch_pv2_scan cfg max_touch_num srf touch_buf rest with
    | error r' => rw [hs] at h; cases h
    | ok es' =>
      rw [hs] at h
      cases h
      rcases List.mem_cons.mp he with rfl | he'
      · exact ⟨i, List.mem_cons_self _ _, rfl⟩
      · obtain ⟨j, hj, hje⟩ := ih es' hs e he'
        exact ⟨j, List.mem_cons_of_mem _ hj, hje⟩

/-- The result of `fts_input_report_touch` in terms of its scan. -/
theorem fts_input_report_touch_cases (cfg : FtsConfig) (ts_data : fts_ts_data)
    (touch_buf : Buf) :
    ((fts_input_report_touch cfg ts_data touch_buf).ret < 0 ∧
      (fts_input_report_touch cfg ts_data touch_buf).ts_data = ts_data ∧
      (fts_input_report_touch cfg ts_data touch_buf).out = []) ∨
    (∃ events, events ≠ [] ∧
      fts_input_report_touch_scan cfg ts_data.pdata.max_touch_number
        (rd touch_buf cfg.FTS_TOUCH_E_NUM &&& 0x0F) touch_buf
        (List.range ts_data.pdata.max_touch_number) = .ok events ∧
      fts_input_report_touch cfg ts_data touch_buf =
        ⟨0, (fts_input_report cfg { ts_data with touch_event_num := events.length }
              events).ts_data,
          (fts_input_report cfg { ts_data with touch_event_num := events.length }
              events).out⟩) := by
  rw [fts_input_report_touch]
  simp only []
  by_cases h1 : rd touch_buf cfg.FTS_TOUCH_E_NUM &&& 0x0F > ts_data.pdata.max_touch_number
  · rw [if_pos h1]
    exact Or.inl ⟨(by show (- EIO : Int) < 0; decide), rfl, rfl⟩
  · rw [if_neg h1]
    cases hs : fts_input_report_touch_scan cfg ts_data.pdata.max_touch_number
        (rd touch_buf cfg.FTS_TOUCH_E_NUM &&& 0x0F) touch_buf
        (List.range ts_data.pdata.max_touch_number) with
    | error r =>
      left
      rcases fts_input_report_touch_scan_error _ _ _ _ _ _ hs with rfl | rfl
      · exact ⟨(by show (- EINVAL : Int) < 0; decide), rfl, rfl⟩
      · exact ⟨(by show (- EIO : Int) < 0; decide), rfl, rfl⟩
    | ok events =>
      by_cases h0 : (events.length == 0) = true
      · left
        show (if (events.length == 0) = true then (⟨- EIO, ts_data, []⟩ : Res) else _).ret < 0 ∧
          (if (events.length == 0) = true then (⟨- EIO, ts_data, []⟩ : Res) else _).ts_data
            = ts_data ∧
          (if (events.length == 0) = true then (⟨- EIO, ts_data, []⟩ : Res) else _).out = []
        rw [if_pos h0]
        exact ⟨(by show (- EIO : Int) < 0; decide), rfl, rfl⟩
      · right
        refine ⟨events, ?_, rfl, ?_⟩
        · intro he
          apply h0
          rw [he]
          rfl
        · show (if (events.length == 0) = true then (⟨- EIO, ts_data, []⟩ : Res) else _) = _
          rw [if_neg h0]

/-- The result of `fts_input_report_touch_pv2` in terms of its scan. -/
theorem fts_input_report_touch_pv2_cases (cfg : FtsConfig) (ts_data : fts_ts_data)
    (touch_buf : Buf) :
    ((fts_input_report_touch_pv2 cfg ts_data touch_buf).ret < 0 ∧
      (fts_input_report_touch_pv2 cfg ts_data touch_buf).ts_data.touch_points =
        ts_data.touch_points ∧
      (fts_input_report_touch_pv2 cfg ts_data touch_buf).ts_data.key_state =
        ts_data.key_state ∧
      (fts_input_report_touch_pv2 cfg ts_data touch_buf).out = []) ∨
    (∃ events,
      fts_input_report_touch_pv2_scan cfg ts_data.pdata.max_touch_number
        ts_data.pdata.super_resolution_factors touch_buf
        (List.range (rd touch_buf cfg.FTS_TOUCH_E_NUM &&& 0x0F)) = .ok events ∧
      fts_input_report_touch_pv2 cfg ts_data touch_buf =
        ⟨0, (fts_input_report cfg
              { ts_data with touch_event_num := rd touch_buf cfg.FTS_TOUCH_E_NUM &&& 0x0F }
              events).ts_data,
          (fts_input_report cfg
              { ts_data with touch_event_num := rd touch_buf cfg.FTS_TOUCH_E_NUM &&& 0x0F }
              events).out⟩) := by
  rw [fts_input_report_touch_pv2]
  simp only []
  by_cases h1 : ((rd touch_buf cfg.FTS_TOUCH_E_NUM &&& 0x0F == 0) ||
      decide (rd touch_buf cfg.FTS_TOUCH_E_NUM &&& 0x0F > ts_data.pdata.max_touch_number)) = true
  · rw [if_pos h1]
    exact Or.inl ⟨(by show (- EIO : Int) < 0; decide), rfl, rfl, rfl⟩
  · rw [if_neg h1]
    cases hs : fts_input_report_touch_pv2_scan cfg ts_data.pdata.max_touch_number
        ts_data.pdata.super_resolution_factors touch_buf
        (List.range (rd touch_buf cfg.FTS_TOUCH_E_NUM &&& 0x0F)) with
    | error r =>
      left
      rw [fts_input_report_touch_pv2_scan_error _ _ _ _ _ _ hs]
      exact ⟨(by show (- EINVAL : Int) < 0; decide), rfl, rfl, rfl⟩
    | ok events =>
      exact Or.inr ⟨events, rfl, rfl⟩


theorem touch_point_v1_props (cfg : FtsConfig) (touch_buf : Buf) (i pointid : Nat) :
    (touch_point_v1 cfg touch_buf i pointid).id = pointid ∧
    (touch_point_v1 cfg touch_buf i pointid).area =
      (if rd touch_buf (cfg.FTS_TOUCH_OFF_AREA + (cfg.FTS_ONE_TCH_LEN * i + 2)) = 0 then 0x09
        else rd touch_buf (cfg.FTS_TOUCH_OFF_AREA + (cfg.FTS_ONE_TCH_LEN * i + 2))) ∧
    (touch_point_v1 cfg touch_buf i pointid).minor =
      (touch_point_v1 cfg touch_buf i pointid).area ∧
    (touch_point_v1 cfg touch_buf i pointid).p =
      (if cfg.FTS_TOUCH_HIRES_EN = true then 0x3F
        else if rd touch_buf (cfg.FTS_TOUCH_OFF_PRE + (cfg.FTS_ONE_TCH_LEN * i + 2)) = 0 then 0x3F
        else rd touch_buf (cfg.FTS_TOUCH_OFF_PRE + (cfg.FTS_ONE_TCH_LEN * i + 2))) ∧
    (touch_point_v1 cfg touch_buf i pointid).p ≠ 0 ∧
    (touch_point_v1 cfg touch_buf i pointid).area ≠ 0 ∧
    (touch_point_v1 cfg touch_buf i pointid).minor ≠ 0 := by
  simp only [touch_point_v1, Nat.le_zero, true_and]
  refine ⟨?_, ?_, ?_⟩
  · split_ifs <;> first | decide | assumption
  · split_ifs <;> first | decide | assumption
  · split_ifs <;> first | decide | assumption

theorem touch_point_v2_props (cfg : FtsConfig) (srf : Nat) (touch_buf : Buf) (i pointid : Nat) :
    (touch_point_v2 cfg srf touch_buf i pointid).id = pointid ∧
    (touch_point_v2 cfg srf touch_buf i pointid).area =
      (if rd touch_buf (cfg.FTS_TOUCH_OFF_AREA + (cfg.FTS_ONE_TCH_LEN_V2 * i + 4)) = 0 then 0x09
        else rd touch_buf (cfg.FTS_TOUCH_OFF_AREA + (cfg.FTS_ONE_TCH_LEN_V2 * i + 4))) ∧
    (touch_point_v2 cfg srf touch_buf i pointid).minor =
      (if rd touch_buf (cfg.FTS_TOUCH_OFF_MINOR + (cfg.FTS_ONE_TCH_LEN_V2 * i + 4)) = 0 then 0x09
        else rd touch_buf (cfg.FTS_TOUCH_OFF_MINOR + (cfg.FTS_ONE_TCH_LEN_V2 * i + 4))) ∧
    (touch_point_v2 cfg srf touch_buf i pointid).p = 0x3F ∧
    (touch_point_v2 cfg srf touch_buf i pointid).p ≠ 0 ∧
    (touch_point_v2 cfg srf touch_buf i pointid).area ≠ 0 ∧
    (touch_point_v2 cfg srf touch_buf i pointid).minor ≠ 0 := by
  simp only [touch_point_v2, Nat.le_zero, true_and]
  refine ⟨by decide, ?_, ?_⟩
  · split_ifs <;> first | decide | assumption
  · split_ifs <;> first | decide | assumption

/-- C25, as stated, fails in a build with `FTS_TOUCH_HIRES_EN`: a protocol-v1 frame whose byte
at `FTS_TOUCH_OFF_PRE` is `0x12` is decoded without error, and its event has pressure
`0x3F`: the non-zero byte is not passed through. -/
theorem fts_input_report_touch_hires_ignores_pressure_byte :
    rd frame_v1_pressure_0x12 (hires_config.FTS_TOUCH_OFF_PRE +
      (hires_config.FTS_ONE_TCH_LEN * 0 + 2)) = 0x12 ∧
    (match fts_input_report_touch_scan hires_config 10 1 frame_v1_pressure_0x12
        (List.range 10) with
      | .ok events => events.map (fun e => (e.id, e.p))
      | .error _ => []) = [(0, 0x3F)] ∧
    (fts_input_report_touch hires_config (ts_awake 0) frame_v1_pressure_0x12).ret = 0 := by
  decide

/-- C25 (amended): every event that a successful `fts_input_report_touch` or
`fts_input_report_touch_pv2` hands to the reporting stage has non-zero pressure, area and
minor.  Its area is `0x09` for a zero area byte and the area byte otherwise.  In protocol
v1 its minor is its area, and its pressure is `0x3F` for a zero pressure byte and the
pressure byte otherwise when `FTS_TOUCH_HIRES_EN` is off, and always `0x3F` when it is on.
In protocol v2 its minor is `0x09` for a zero minor byte and the minor byte otherwise,
and its pressure is always `0x3F`. -/
theorem decoded_events_have_nonzero_pressure_area_minor (cfg : FtsConfig)
    (ts_data : fts_ts_data) (touch_buf : Buf) :
    ((fts_input_report_touch cfg ts_data touch_buf).ret = 0 →
      ∃ events,
        fts_input_report_touch cfg ts_data touch_buf =
          ⟨0, (fts_input_report cfg { ts_data with touch_event_num := events.length }
                events).ts_data,
            (fts_input_report cfg { ts_data with touch_event_num := events.length }
                events).out⟩ ∧
        ∀ e ∈ events, e.p ≠ 0 ∧ e.area ≠ 0 ∧ e.minor ≠ 0 ∧
          ∃ i, i < ts_data.pdata.max_touch_number ∧
            e.area =
              (if rd touch_buf (cfg.FTS_TOUCH_OFF_AREA + (cfg.FTS_ONE_TCH_LEN * i + 2)) = 0
                then 0x09
                else rd touch_buf (cfg.FTS_TOUCH_OFF_AREA + (cfg.FTS_ONE_TCH_LEN * i + 2))) ∧
            e.minor = e.area ∧
            e.p =
              (if cfg.FTS_TOUCH_HIRES_EN = true then 0x3F
                else if rd touch_buf (cfg.FTS_TOUCH_OFF_PRE + (cfg.FTS_ONE_TCH_LEN * i + 2)) = 0
                  then 0x3F
                else rd touch_buf (cfg.FTS_TOUCH_OFF_PRE + (cfg.FTS_ONE_TCH_LEN * i + 2)))) ∧
    ((fts_input_report_touch_pv2 cfg ts_data touch_buf).ret = 0 →
      ∃ events,
        fts_input_report_touch_pv2 cfg ts_data touch_buf =
          ⟨0, (fts_input_report cfg
                { ts_data with touch_event_num := rd touch_buf cfg.FTS_TOUCH_E_NUM &&& 0x0F }
                events).ts_data,
            (fts_input_report cfg
                { ts_data with touch_event_num := rd touch_buf cfg.FTS_TOUCH_E_NUM &&& 0x0F }
                events).out⟩ ∧
        ∀ e ∈ events, e.p ≠ 0 ∧ e.area ≠ 0 ∧ e.minor ≠ 0 ∧
          ∃ i, i < (rd touch_buf cfg.FTS_TOUCH_E_NUM &&& 0x0F) ∧
            e.area =
              (if rd touch_buf (cfg.FTS_TOUCH_OFF_AREA + (cfg.FTS_ONE_TCH_LEN_V2 * i + 4)) = 0
                then 0x09
                else rd touch_buf (cfg.FTS_TOUCH_OFF_AREA + (cfg.FTS_ONE_TCH_LEN_V2 * i + 4))) ∧
            e.minor =
              (if rd touch_buf (cfg.FTS_TOUCH_OFF_MINOR + (cfg.FTS_ONE_TCH_LEN_V2 * i + 4)) = 0
                then 0x09
                else rd touch_buf (cfg.FTS_TOUCH_OFF_MINOR + (cfg.FTS_ONE_TCH_LEN_V2 * i + 4))) ∧
            e.p = 0x3F) := by
  constructor
  · intro hret
    rcases fts_input_report_touch_cases cfg ts_data touch_buf with ⟨hneg, _, _⟩ | ⟨es, _, hs, h⟩
    · rw [hret] at hneg
      exact absurd hneg (by decide)
    · refine ⟨es, h, fun e he => ?_⟩
      obtain ⟨i, hi, rfl⟩ := fts_input_report_touch_scan_mem _ _ _ _ _ es hs e he
      obtain ⟨_, h2, h3, h4, h5, h6, h7⟩ :=
        touch_point_v1_props cfg touch_buf i (pointid_v1 cfg touch_buf i)
      exact ⟨h5, h6, h7, i, List.mem_range.mp hi, h2, h3, h4⟩
  · intro hret
    rcases fts_input_report_touch_pv2_cases cfg ts_data touch_buf with
      ⟨hneg, _, _, _⟩ | ⟨es, hs, h⟩
    · rw [hret] at hneg
      exact absurd hneg (by decide)
    · refine ⟨es, h, fun e he => ?_⟩
      obtain ⟨i, hi, rfl⟩ := fts_input_report_touch_pv2_scan_mem _ _ _ _ _ es hs e he
      obtain ⟨_, h2, h3, h4, h5, h6, h7⟩ :=
        touch_point_v2_props cfg ts_data.pdata.super_resolution_factors touch_buf i
          (pointid_v2 cfg touch_buf i)
      exact ⟨h5, h6, h7, i, List.mem_range.mp hi, h2, h3, h4⟩

/-- C25 (amended), at a protocol-v1 frame with one point whose pressure and area bytes are
0. -/
theorem decoded_events_have_nonzero_pressure_area_minor_witness :
    ∃ events,
      fts_input_report_touch ft3683g_config (ts_awake 0) frame_v1_zero_pressure =
        ⟨0, (fts_input_report ft3683g_config
              { ts_awake 0 with touch_event_num := events.length } events).ts_data,
          (fts_input_report ft3683g_config
              { ts_awake 0 with touch_event_num := events.length } events).out⟩ ∧
      ∀ e ∈ events, e.p ≠ 0 ∧ e.area ≠ 0 ∧ e.minor ≠ 0 :=
  ((decoded_events_have_nonzero_pressure_area_minor ft3683g_config (ts_awake 0)
      frame_v1_zero_pressure).1 (by decide)).imp
    (fun _ h => ⟨h.1, fun e he => ⟨(h.2 e he).1, (h.2 e he).2.1, (h.2 e he).2.2.1⟩⟩)

/-- C30: on every buffer on which `fts_input_report_touch` or `fts_input_report_touch_pv2`
returns a negative error, no input event is emitted and `touch_points` and `key_state`
are unchanged. -/
theorem fts_input_report_touch_error_is_atomic (cfg : FtsConfig) (ts_data : fts_ts_data)
    (touch_buf : Buf) :
    ((fts_input_report_touch cfg ts_data touch_buf).ret < 0 →
      (fts_input_report_touch cfg ts_data touch_buf).out = [] ∧
      (fts_input_report_touch cfg ts_data touch_buf).ts_data.touch_points =
        ts_data.touch_points ∧
      (fts_input_report_touch cfg ts_data touch_buf).ts_data.key_state = ts_data.key_state) ∧
    ((fts_input_report_touch_pv2 cfg ts_data touch_buf).ret < 0 →
      (fts_input_report_touch_pv2 cfg ts_data touch_buf).out = [] ∧
      (fts_input_report_touch_pv2 cfg ts_data touch_buf).ts_data.touch_points =
        ts_data.touch_points ∧
      (fts_input_report_touch_pv2 cfg ts_data touch_buf).ts_data.key_state =
        ts_data.key_state) := by
  constructor
  · intro hneg
    rcases fts_input_report_touch_cases cfg ts_data touch_buf with ⟨_, h2, h3⟩ | ⟨es, _, _, h⟩
    · rw [h2]
      exact ⟨h3, rfl, rfl⟩
    · rw [h] at hneg
      exact absurd hneg (show ¬((0 : Int) < 0) by decide)
  · intro hneg
    rcases fts_input_report_touch_pv2_cases cfg ts_data touch_buf with
      ⟨_, h2, h3, h4⟩ | ⟨es, _, h⟩
    · exact ⟨h4, h2, h3⟩
    · rw [h] at hneg
      exact absurd hneg (show ¬((0 : Int) < 0) by decide)

/-- C30, at a protocol-v1 frame on a five-point panel with fingers 0 and 1 down: slot 0 is
a valid DOWN point, slot 1 carries id 7, the call fails with `-EINVAL` and changes
nothing. -/
theorem fts_input_report_touch_error_is_atomic_witness :
    (fts_input_report_touch ft3683g_config (ts_awake_5 3) (frame_v1_down_then_id7 2)).ret
      = - EINVAL ∧
    (fts_input_report_touch ft3683g_config (ts_awake_5 3) (frame_v1_down_then_id7 2)).out = [] ∧
    (fts_input_report_touch ft3683g_config (ts_awake_5 3)
      (frame_v1_down_then_id7 2)).ts_data.touch_points = 3 ∧
    (fts_input_report_touch ft3683g_config (ts_awake_5 3)
      (frame_v1_down_then_id7 2)).ts_data.key_state = 0 :=
  ⟨by decide,
   ((fts_input_report_touch_error_is_atomic ft3683g_config (ts_awake_5 3)
      (frame_v1_down_then_id7 2)).1 (by decide)).1,
   ((fts_input_report_touch_error_is_atomic ft3683g_config (ts_awake_5 3)
      (frame_v1_down_then_id7 2)).1 (by decide)).2.1,
   ((fts_input_report_touch_error_is_atomic ft3683g_config (ts_awake_5 3)
      (frame_v1_down_then_id7 2)).1 (by decide)).2.2⟩

/-! ## Transfer mode and word count of a FIFO transfer -/

/-- C26: on a master controller with `disable_dma` false, a 256-byte transfer that follows
a 4-byte transfer of the same message is set up in `FIFO_MODE`, although its 256 words
exceed the FIFO size of 64 words; as the first transfer of a message the same transfer is
set up in `SE_DMA`. -/
theorem setup_fifo_xfer_large_after_small_stays_in_fifo_mode :
    small_first.ret = 0 ∧
    small_first.mas.cur_xfer_mode = geni_config.FIFO_MODE ∧
    small_first.mas.disable_dma = false ∧
    fifo_trans_len (xfer_tx_len 256) small_first.mas.cur_word_len = 256 ∧
    small_first.mas.tx_fifo_depth * small_first.mas.tx_fifo_width / small_first.mas.cur_word_len
      = 64 ∧
    (setup_fifo_xfer geni_config (xfer_tx_len 256) small_first.mas 0 false true
      (env_fifo [] [] [])).mas.cur_xfer_mode = geni_config.FIFO_MODE ∧
    (setup_fifo_xfer geni_config (xfer_tx_len 256) mas_se_dma 0 false true
      (env_fifo [] [] [])).mas.cur_xfer_mode = geni_config.SE_DMA := by
  decide

/-- C27: with 24 bits per word on a FIFO of width 32 the per-word packing branch is taken
and `geni_spi_handle_tx` and `geni_spi_handle_rx` count `(24 / 8) + 1 = 4` bytes to the
FIFO word, where `ceil(24 / 8)` is 3: the TX budget is 60 bytes where 15 words of 3 bytes
are 45, and 3 received words count as 12 bytes.  24 is the only word length from 4 to 32
for which the branch is taken and the two byte counts differ. -/
theorem geni_spi_handle_tx_word_len_24_uses_4_bytes :
    (mas_fifo 24).tx_fifo_width % (mas_fifo 24).cur_word_len ≠ 0 ∧
    geni_spi_handle_tx_bytes_per_fifo (mas_fifo 24) = 4 ∧
    (24 + 7) / 8 = 3 ∧
    geni_spi_handle_tx_max_bytes (mas_fifo 24) = 60 ∧
    spec_max_bytes (mas_fifo 24) = 45 ∧
    geni_spi_handle_rx_bytes geni_config { mas_fifo 24 with rx_rem_bytes := 100 }
      (irq_rx_words 3 []) = 12 ∧
    (List.range 33).filter (fun w => decide (4 ≤ w) && decide (32 % w ≠ 0) &&
      decide (w / 8 + 1 ≠ (w + 7) / 8)) = [24] := by
  decide

/-- C28: for a 6-byte transfer with 12 bits per word on a FIFO of width 32,
`setup_fifo_xfer` writes the word count 4 to `SE_SPI_TX_TRANS_LEN` and
`SE_SPI_RX_TRANS_LEN` (and `setup_gsi_xfer` computes the same `rx_len`), while
`geni_spi_handle_tx` and `geni_spi_handle_rx` move the 6 bytes in 3 FIFO words of 2 bytes,
one SPI word to the FIFO word.  The test of `setup_fifo_xfer` (`cur_word_len % 4`) and
that of the FIFO handlers (`tx_fifo_width % cur_word_len`) differ for the word lengths
12, 20, 24 and 28. -/
theorem fifo_trans_len_12_bits_disagrees_with_fifo_packing :
    spi_setup_word_len_pack_words mas_12_bits 12 = 1 ∧
    geni_spi_handle_tx_bytes_per_fifo mas_12_bits = 2 ∧
    fifo_trans_len xfer_12_bits 12 = 4 ∧
    gsi_rx_len xfer_12_bits 12 = 4 ∧
    SpiEv.write_reg .SE_SPI_TX_TRANS_LEN 4 ∈
      (setup_fifo_xfer geni_config xfer_12_bits mas_se_dma 0 false true
        (env_fifo [] [] [])).out ∧
    SpiEv.write_reg .SE_SPI_RX_TRANS_LEN 4 ∈
      (setup_fifo_xfer geni_config xfer_12_bits mas_se_dma 0 false true
        (env_fifo [] [] [])).out ∧
    geni_spi_handle_tx mas_12_bits =
      ({ mas_12_bits with tx_rem_bytes := 0 },
        [SpiEv.tx_fifo_write [1, 2, 0, 0], SpiEv.tx_fifo_write [3, 4, 0, 0],
         SpiEv.tx_fifo_write [5, 6, 0, 0], SpiEv.tx_watermark_clear]) ∧
    geni_spi_handle_rx geni_config mas_12_bits
        (irq_rx_words 3 [[1, 2, 0, 0], [3, 4, 0, 0], [5, 6, 0, 0]]) =
      ({ mas_12_bits with rx_rem_bytes := 0 }, [SpiEv.rx_buf_store 0 [1, 2, 3, 4, 5, 6]]) ∧
    (List.range 33).filter (fun w => decide (4 ≤ w) &&
      decide ((w % 4 = 0) ≠ (32 % w = 0))) = [12, 20, 24, 28] := by
  decide

/-! ## The bytes sent by `geni_spi_handle_tx` -/

theorem cdiv_succ (a b : Nat) (hb : 0 < b) (h : 0 < a) :
    (a + b - 1) / b = (a - b + b - 1) / b + 1 := by
  rcases Nat.lt_or_ge a b with h1 | h1
  · have : a - b = 0 := by omega
    rw [this, Nat.zero_add]
    have h2 : (b - 1) / b = 0 := Nat.div_eq_of_lt (by omega)
    rw [h2]
    have : a + b - 1 = (a - 1) + b := by omega
    rw [this, Nat.add_div_right _ hb, Nat.div_eq_of_lt (by omega)]
  · have : a + b - 1 = (a - b + b - 1) + b := by omega
    rw [this, Nat.add_div_right _ hb]

theorem spec_tx_fifo_words_nil (b : Nat) (hb : 0 < b) : spec_tx_fifo_words b [] = [] := by
  rw [spec_tx_fifo_words]
  have : ([] : List Nat).length + b - 1 = b - 1 := by simp
  rw [this, Nat.div_eq_of_lt (by omega)]
  rfl

theorem spec_tx_fifo_words_cons (b : Nat) (hb : 0 < b) (bytes : List Nat) (h : bytes ≠ []) :
    spec_tx_fifo_words b bytes =
      SpiEv.tx_fifo_write (bytes.take b ++ List.replicate (4 - (bytes.take b).length) 0) ::
        spec_tx_fifo_words b (bytes.drop b) := by
  have hlen : 0 < bytes.length := List.length_pos.mpr h
  rw [spec_tx_fifo_words, spec_tx_fifo_words, cdiv_succ bytes.length b hb hlen,
    List.range_succ_eq_map, List.map_cons, List.map_map, List.length_drop]
  congr 1
  · simp
  · apply List.map_congr_left
    intro k _
    simp only [Function.comp, Nat.succ_eq_add_one, List.drop_drop]
    have : b + k * b = (k + 1) * b := by ring
    rw [this]

theorem geni_spi_handle_tx_loop_done (B M : Int) (buf : List Nat) (fuel : Nat) (i : Int)
    (h : ¬ i < M) : geni_spi_handle_tx_loop B M buf fuel i = [] := by
  cases fuel with
  | zero => rfl
  | succ n => rw [geni_spi_handle_tx_loop, if_neg h]

theorem geni_spi_handle_tx_loop_spec (b m : Nat) (buf : List Nat) (hb : 0 < b)
    (hm : m ≤ buf.length) :
    ∀ (fuel i : Nat), i ≤ m → m - i ≤ fuel →
      geni_spi_handle_tx_loop (b : Int) (m : Int) buf fuel (i : Int) =
        spec_tx_fifo_words b ((buf.take m).drop i) := by
  intro fuel
  induction fuel with
  | zero =>
    intro i hi hf
    have : i = m := by omega
    subst this
    rw [geni_spi_handle_tx_loop, List.drop_eq_nil_of_le (by simp), spec_tx_fifo_words_nil b hb]
  | succ n ih =>
    intro i hi hf
    rcases Nat.lt_or_ge i m with hlt | hge
    · have hne : (buf.take m).drop i ≠ [] := by
        intro h
        have := congrArg List.length h
        simp only [List.length_drop, List.length_take, List.length_nil] at this
        omega
      rw [geni_spi_handle_tx_loop, if_pos (by omega), spec_tx_fifo_words_cons b hb _ hne]
      have hbtw : min ((m : Int) - (i : Int)) (b : Int) = ((min (m - i) b : Nat) : Int) := by
        omega
      simp only [hbtw, Int.toNat_ofNat]
      have hchunk : List.take (min (m - i) b) (List.drop i buf) =
          List.take b (List.drop i (List.take m buf)) := by
        rw [List.drop_take, List.take_take, Nat.min_comm]
      rw [hchunk]
      congr 1
      have hnext : ((i : Int) + ((min (m - i) b : Nat) : Int)) = ((i + min (m - i) b : Nat) : Int) := by
        push_cast
        rfl
      rw [hnext, ih (i + min (m - i) b) (by omega) (by omega), List.drop_drop]
      rcases Nat.lt_or_ge (m - i) b with h1 | h1
      · rw [Nat.min_eq_left (le_of_lt h1)]
        rw [List.drop_eq_nil_of_le (by simp; omega), List.drop_eq_nil_of_le (by simp; omega)]
      · rw [Nat.min_eq_right h1]
    · have : i = m := by omega
      subst this
      rw [geni_spi_handle_tx_loop_done _ _ _ _ _ (by omega),
        List.drop_eq_nil_of_le (by simp), spec_tx_fifo_words_nil b hb]


theorem geni_spi_handle_tx_bytes_per_fifo_cast (mas : spi_geni_master) :
    geni_spi_handle_tx_bytes_per_fifo mas =
      (((geni_spi_handle_tx_bytes_per_fifo mas).toNat : Nat) : Int) := by
  rw [geni_spi_handle_tx_bytes_per_fifo]
  split <;> rw [Int.toNat_ofNat]

theorem geni_spi_handle_tx_max_bytes_def (mas : spi_geni_master) :
    geni_spi_handle_tx_max_bytes mas =
      min (s32 mas.tx_rem_bytes)
        (((mas.tx_fifo_depth : Int) - mas.tx_wm) * geni_spi_handle_tx_bytes_per_fifo mas) := by
  rw [geni_spi_handle_tx_max_bytes, geni_spi_handle_tx_bytes_per_fifo]
  split <;> rfl

theorem geni_spi_handle_tx_max_bytes_eq (mas : spi_geni_master)
    (hrem : mas.tx_rem_bytes < 2 ^ 31) (hwm : mas.tx_wm ≤ mas.tx_fifo_depth) :
    geni_spi_handle_tx_max_bytes mas =
      ((min mas.tx_rem_bytes ((mas.tx_fifo_depth - mas.tx_wm) *
        (geni_spi_handle_tx_bytes_per_fifo mas).toNat) : Nat) : Int) := by
  have hs : s32 (mas.tx_rem_bytes : Int) = (mas.tx_rem_bytes : Int) := by
    rw [s32]
    omega
  have hd : (mas.tx_fifo_depth : Int) - (mas.tx_wm : Int) =
      ((mas.tx_fifo_depth - mas.tx_wm : Nat) : Int) := by omega
  rw [geni_spi_handle_tx_max_bytes_def, hs, hd]
  generalize hB : geni_spi_handle_tx_bytes_per_fifo mas = B
  have hc := geni_spi_handle_tx_bytes_per_fifo_cast mas
  rw [hB] at hc
  rw [hc, Int.toNat_ofNat]
  push_cast
  rfl

theorem tx_fifo_writes_spec (b : Nat) (bytes : List Nat) :
    tx_fifo_writes (spec_tx_fifo_words b bytes) = (bytes.length + b - 1) / b := by
  rw [spec_tx_fifo_words, tx_fifo_writes, List.countP_map]
  have h := List.countP_eq_length.mpr (show ∀ k ∈ List.range ((bytes.length + b - 1) / b),
    (SpiEv.is_tx_fifo_write ∘ fun k =>
      SpiEv.tx_fifo_write ((bytes.drop (k * b)).take b ++
        List.replicate (4 - ((bytes.drop (k * b)).take b).length) 0)) k = true
    from fun _ _ => rfl)
  rw [h, List.length_range]

theorem watermark_clear_not_mem_spec (b : Nat) (bytes : List Nat) :
    SpiEv.tx_watermark_clear ∉ spec_tx_fifo_words b bytes := by
  rw [spec_tx_fifo_words]
  intro h
  obtain ⟨k, _, hk⟩ := List.mem_map.mp h
  cases hk

/-- One call of `geni_spi_handle_tx` in terms of the bytes it sends. -/
theorem geni_spi_handle_tx_eq (mas : spi_geni_master) (x : spi_transfer) (buf : List Nat)
    (hx : mas.cur_xfer = some x) (hbuf : x.tx_buf = some buf) (hlen : buf.length = x.len)
    (hrem : mas.tx_rem_bytes ≤ x.len) (hint : x.len < 2 ^ 31)
    (hwm : mas.tx_wm ≤ mas.tx_fifo_depth)
    (hb : 0 < (geni_spi_handle_tx_bytes_per_fifo mas).toNat) :
    geni_spi_handle_tx mas =
      ({ mas with tx_rem_bytes := (mas.tx_rem_bytes -
          min mas.tx_rem_bytes ((mas.tx_fifo_depth - mas.tx_wm) *
            (geni_spi_handle_tx_bytes_per_fifo mas).toNat)) },
        spec_tx_fifo_words (geni_spi_handle_tx_bytes_per_fifo mas).toNat
          ((buf.drop (x.len - mas.tx_rem_bytes)).take
            (min mas.tx_rem_bytes ((mas.tx_fifo_depth - mas.tx_wm) *
              (geni_spi_handle_tx_bytes_per_fifo mas).toNat))) ++
        (if mas.tx_rem_bytes - min mas.tx_rem_bytes ((mas.tx_fifo_depth - mas.tx_wm) *
            (geni_spi_handle_tx_bytes_per_fifo mas).toNat) = 0 then
          [SpiEv.tx_watermark_clear] else [])) := by
  have hmax := geni_spi_handle_tx_max_bytes_eq mas (by omega) hwm
  generalize hn : min mas.tx_rem_bytes ((mas.tx_fifo_depth - mas.tx_wm) *
    (geni_spi_handle_tx_bytes_per_fifo mas).toNat) = n at hmax ⊢
  have hnle : n ≤ mas.tx_rem_bytes := by rw [← hn]; exact Nat.min_le_left _ _
  have hu : u32 ((mas.tx_rem_bytes : Int) - (n : Int)) = mas.tx_rem_bytes - n := by
    rw [u32]
    omega
  have hloop := geni_spi_handle_tx_loop_spec (geni_spi_handle_tx_bytes_per_fifo mas).toNat n
    (buf.drop (x.len - mas.tx_rem_bytes)) hb (by rw [List.length_drop]; omega) n 0
    (Nat.zero_le _) (by omega)
  rw [← geni_spi_handle_tx_bytes_per_fifo_cast] at hloop
  rw [geni_spi_handle_tx]
  simp only [hx, hbuf, Option.getD_some, hmax, hu, Int.toNat_ofNat]
  rw [show ((0 : Nat) : Int) = 0 from rfl] at hloop
  rw [hloop, List.drop_zero]


theorem spec_tx_fifo_words_append (b : Nat) (hb : 0 < b) (q : Nat) :
    ∀ bytes : List Nat,
      spec_tx_fifo_words b (bytes.take (q * b)) ++ spec_tx_fifo_words b (bytes.drop (q * b)) =
        spec_tx_fifo_words b bytes := by
  induction q with
  | zero =>
    intro bytes
    rw [Nat.zero_mul, List.take_zero, List.drop_zero, spec_tx_fifo_words_nil b hb,
      List.nil_append]
  | succ q ih =>
    intro bytes
    by_cases hne : bytes = []
    · subst hne
      rw [List.take_nil, List.drop_nil, spec_tx_fifo_words_nil b hb, List.append_nil]
    · have hlen : 0 < bytes.length := List.length_pos.mpr hne
      have hqb : (q + 1) * b = q * b + b := by ring
      have hne2 : bytes.take ((q + 1) * b) ≠ [] := by
        intro h
        have := congrArg List.length h
        simp only [List.length_take, List.length_nil] at this
        have : 0 < (q + 1) * b := by rw [hqb]; omega
        omega
      rw [spec_tx_fifo_words_cons b hb _ hne2, spec_tx_fifo_words_cons b hb bytes hne,
        List.take_take, List.drop_take, List.cons_append]
      have h1 : min b ((q + 1) * b) = b := by rw [hqb]; omega
      have h2 : (q + 1) * b - b = q * b := by rw [hqb]; omega
      have h3 : bytes.drop ((q + 1) * b) = (bytes.drop b).drop (q * b) := by
        rw [List.drop_drop, hqb, Nat.add_comm]
      rw [h1, h2, h3, ih (bytes.drop b)]

theorem geni_spi_handle_tx_calls_spec (x : spi_transfer) (buf : List Nat)
    (hbuf : x.tx_buf = some buf) (hlen : buf.length = x.len) (hint : x.len < 2 ^ 31) :
    ∀ (k : Nat) (mas : spi_geni_master), mas.cur_xfer = some x → mas.tx_rem_bytes ≤ x.len →
      mas.tx_wm < mas.tx_fifo_depth → 0 < (geni_spi_handle_tx_bytes_per_fifo mas).toNat →
      mas.tx_rem_bytes < k →
      geni_spi_handle_tx_calls k mas =
        ({ mas with tx_rem_bytes := 0 },
          spec_tx_fifo_words (geni_spi_handle_tx_bytes_per_fifo mas).toNat
            (buf.drop (x.len - mas.tx_rem_bytes)) ++ [SpiEv.tx_watermark_clear]) := by
  intro k
  induction k with
  | zero => intro mas _ _ _ _ h; omega
  | succ k ih =>
    intro mas hx hrem hwm hb hk
    have h1 := geni_spi_handle_tx_eq mas x buf hx hbuf hlen hrem hint (le_of_lt hwm) hb
    generalize hbdef : (geni_spi_handle_tx_bytes_per_fifo mas).toNat = b at h1 hb ⊢
    have hD : 0 < mas.tx_fifo_depth - mas.tx_wm := by omega
    have hDb : 0 < (mas.tx_fifo_depth - mas.tx_wm) * b := Nat.mul_pos hD hb
    rw [geni_spi_handle_tx_calls]
    simp only [h1]
    rcases Nat.lt_or_ge ((mas.tx_fifo_depth - mas.tx_wm) * b) mas.tx_rem_bytes with hlt | hge
    · have hmin : min mas.tx_rem_bytes ((mas.tx_fifo_depth - mas.tx_wm) * b) =
          (mas.tx_fifo_depth - mas.tx_wm) * b := Nat.min_eq_right (le_of_lt hlt)
      rw [hmin]
      have hne : ¬(mas.tx_rem_bytes - (mas.tx_fifo_depth - mas.tx_wm) * b = 0) := by omega
      rw [if_neg hne, if_neg hne]
      have hih := ih { mas with tx_rem_bytes := mas.tx_rem_bytes -
        (mas.tx_fifo_depth - mas.tx_wm) * b } hx (by show _ - _ ≤ _; omega) hwm
        (by show 0 < (geni_spi_handle_tx_bytes_per_fifo mas).toNat; rw [hbdef]; exact hb)
        (by show _ - _ < _; omega)
      rw [hih]
      have hb2 : (geni_spi_handle_tx_bytes_per_fifo { mas with tx_rem_bytes :=
          mas.tx_rem_bytes - (mas.tx_fifo_depth - mas.tx_wm) * b }).toNat = b := hbdef
      rw [hb2]
      have hdrop : List.drop (x.len - (mas.tx_rem_bytes - (mas.tx_fifo_depth - mas.tx_wm) * b))
          buf = List.drop ((mas.tx_fifo_depth - mas.tx_wm) * b)
            (List.drop (x.len - mas.tx_rem_bytes) buf) := by
        rw [List.drop_drop]
        congr 1
        omega
      show (_, _) = (_, _)
      rw [hdrop, List.append_nil, ← List.append_assoc,
        spec_tx_fifo_words_append b hb (mas.tx_fifo_depth - mas.tx_wm)]
    · have hmin : min mas.tx_rem_bytes ((mas.tx_fifo_depth - mas.tx_wm) * b) =
          mas.tx_rem_bytes := Nat.min_eq_left hge
      rw [hmin, Nat.sub_self]
      rw [if_pos rfl, if_pos rfl]
      rw [List.take_of_length_le (by rw [List.length_drop]; omega)]


/-- C29: one call of `geni_spi_handle_tx` with a current transfer whose TX buffer holds `len`
bytes and with `tx_rem_bytes <= len`, on a controller with `tx_wm <= tx_fifo_depth` and
1 to 4 bytes to the FIFO word.  With `n = min(tx_rem_bytes, (tx_fifo_depth - tx_wm) *
bytes_per_fifo)`: it writes to the TX FIFO exactly the `n` bytes of the buffer from
offset `len - tx_rem_bytes` on, in buffer order, `bytes_per_fifo` bytes to the FIFO word,
every word padded with zeros to 4 bytes, in `ceil(n / bytes_per_fifo)` writes; it
decreases `tx_rem_bytes` by `n` and changes nothing else; it clears the TX watermark if
and only if `tx_rem_bytes` becomes 0.  With `tx_wm < tx_fifo_depth`, the calls for the
successive watermark interrupts of a transfer write the whole buffer, every byte once
and in order, and end with the clearing of the watermark. -/
theorem geni_spi_handle_tx_sends_next_bytes (mas : spi_geni_master) (x : spi_transfer)
    (buf : List Nat) (hx : mas.cur_xfer = some x) (hbuf : x.tx_buf = some buf)
    (hlen : buf.length = x.len) (hrem : mas.tx_rem_bytes ≤ x.len) (hint : x.len < 2 ^ 31)
    (hwm : mas.tx_wm ≤ mas.tx_fifo_depth) (_hw : 0 < mas.cur_word_len)
    (hb : 0 < (geni_spi_handle_tx_bytes_per_fifo mas).toNat ∧
      (geni_spi_handle_tx_bytes_per_fifo mas).toNat ≤ 4) :
    (geni_spi_handle_tx mas).2 =
      spec_tx_fifo_words (geni_spi_handle_tx_bytes_per_fifo mas).toNat
        ((buf.drop (x.len - mas.tx_rem_bytes)).take
          (min mas.tx_rem_bytes ((mas.tx_fifo_depth - mas.tx_wm) *
            (geni_spi_handle_tx_bytes_per_fifo mas).toNat))) ++
      (if (geni_spi_handle_tx mas).1.tx_rem_bytes = 0 then [SpiEv.tx_watermark_clear]
        else []) ∧
    (∀ w, SpiEv.tx_fifo_write w ∈ (geni_spi_handle_tx mas).2 → w.length = 4) ∧
    tx_fifo_writes (geni_spi_handle_tx mas).2 =
      (min mas.tx_rem_bytes ((mas.tx_fifo_depth - mas.tx_wm) *
          (geni_spi_handle_tx_bytes_per_fifo mas).toNat) +
        (geni_spi_handle_tx_bytes_per_fifo mas).toNat - 1) /
        (geni_spi_handle_tx_bytes_per_fifo mas).toNat ∧
    (geni_spi_handle_tx mas).1 =
      { mas with tx_rem_bytes := (mas.tx_rem_bytes -
          min mas.tx_rem_bytes ((mas.tx_fifo_depth - mas.tx_wm) *
            (geni_spi_handle_tx_bytes_per_fifo mas).toNat)) } ∧
    (SpiEv.tx_watermark_clear ∈ (geni_spi_handle_tx mas).2 ↔
      (geni_spi_handle_tx mas).1.tx_rem_bytes = 0) ∧
    (mas.tx_wm < mas.tx_fifo_depth → mas.tx_rem_bytes = x.len →
      ∀ k, x.len < k →
        geni_spi_handle_tx_calls k mas =
          ({ mas with tx_rem_bytes := 0 },
            spec_tx_fifo_words (geni_spi_handle_tx_bytes_per_fifo mas).toNat buf ++
              [SpiEv.tx_watermark_clear])) := by
  have h1 := geni_spi_handle_tx_eq mas x buf hx hbuf hlen hrem hint hwm hb.1
  generalize hbdef : (geni_spi_handle_tx_bytes_per_fifo mas).toNat = b at h1 hb ⊢
  generalize hn : min mas.tx_rem_bytes ((mas.tx_fifo_depth - mas.tx_wm) * b) = n at h1 ⊢
  have hnle : n ≤ mas.tx_rem_bytes := by rw [← hn]; exact Nat.min_le_left _ _
  have hAlen : ((buf.drop (x.len - mas.tx_rem_bytes)).take n).length = n := by
    rw [List.length_take, List.length_drop]
    omega
  rw [h1]
  refine ⟨rfl, fun w hw => ?_, ?_, rfl, ?_, fun hlt hfull k hk => ?_⟩
  · simp only [] at hw
    rcases List.mem_append.mp hw with hw1 | hw2
    · rw [spec_tx_fifo_words] at hw1
      obtain ⟨j, _, hj⟩ := List.mem_map.mp hw1
      cases hj
      rw [List.length_append, List.length_replicate, List.length_take]
      omega
    · split at hw2
      · rcases List.mem_singleton.mp hw2 with h
        cases h
      · cases hw2
  · simp only []
    rw [tx_fifo_writes, List.countP_append]
    have h2 := tx_fifo_writes_spec b ((buf.drop (x.len - mas.tx_rem_bytes)).take n)
    rw [tx_fifo_writes] at h2
    rw [h2, hAlen]
    split <;> simp [SpiEv.is_tx_fifo_write]
  · simp only []
    constructor
    · intro hmem
      rcases List.mem_append.mp hmem with hw1 | hw2
      · exact absurd hw1 (watermark_clear_not_mem_spec _ _)
      · by_contra hne
        rw [if_neg hne] at hw2
        cases hw2
    · intro h0
      rw [if_pos h0]
      exact List.mem_append_right _ (List.mem_singleton.mpr rfl)
  · have := geni_spi_handle_tx_calls_spec x buf hbuf hlen hint k mas hx hrem hlt
      (by rw [hbdef]; exact hb.1) (by omega)
    rw [this, hbdef, hfull, Nat.sub_self, List.drop_zero]

/-- C29, at a controller with a FIFO of 16 words and watermark 1 at the start of a 100-byte
transfer with 8 bits per word: the first call sends 60 bytes in 15 FIFO words, and the
calls of the transfer send the 100 bytes in order. -/
theorem geni_spi_handle_tx_sends_next_bytes_witness :
    (geni_spi_handle_tx (mas_fifo 8)).1.tx_rem_bytes = 40 ∧
    tx_fifo_writes (geni_spi_handle_tx (mas_fifo 8)).2 = 15 ∧
    (geni_spi_handle_tx_calls 101 (mas_fifo 8)).2 =
      spec_tx_fifo_words 4 (List.replicate 100 0xA5) ++ [SpiEv.tx_watermark_clear] :=
  ⟨(congrArg spi_geni_master.tx_rem_bytes
      (geni_spi_handle_tx_sends_next_bytes (mas_fifo 8)
        ⟨some (List.replicate 100 0xA5), none, 100, 1000000, 8, false, 0, 0⟩
        (List.replicate 100 0xA5) rfl rfl (by decide) (by decide) (by decide) (by decide)
        (by decide) (by decide)).2.2.2.1).trans (by decide),
   ((geni_spi_handle_tx_sends_next_bytes (mas_fifo 8)
        ⟨some (List.replicate 100 0xA5), none, 100, 1000000, 8, false, 0, 0⟩
        (List.replicate 100 0xA5) rfl rfl (by decide) (by decide) (by decide) (by decide)
        (by decide) (by decide)).2.2.1).trans (by decide),
   congrArg Prod.snd
      ((geni_spi_handle_tx_sends_next_bytes (mas_fifo 8)
        ⟨some (List.replicate 100 0xA5), none, 100, 1000000, 8, false, 0, 0⟩
        (List.replicate 100 0xA5) rfl rfl (by decide) (by decide) (by decide) (by decide)
        (by decide) (by decide)).2.2.2.2.2 (by decide) (by decide) 101 (by decide))⟩

end Sm7435
